import Mathlib

/-!
# Asteroid game: simulation core of `src/main.cpp`

A shallow embedding of the simulation part of `main.cpp` (pools, particles,
bullets, asteroids, the player and the per-frame body of the main loop) and
theorems about it.

Modelling conventions.

* `float` / `double` values are exact rationals (`ℚ`); rounding is not modelled.
* `int` values are unbounded integers (`Int`); the counters of the program
  (`number_actives`, `lives`, `score`, `safe_mode_count`) stay far away from
  the limits of a machine `int` in every run of realistic length.
* A pointer into `Pool<T>::objects` is the index of the slot.
* Library functions the program calls (`cosf`, `sinf`, raymath and raylib
  helpers) are parameters collected in `Env`; the two random generators are an
  explicit state `Rand`; keyboard and clock readings of one frame are `Input`.
* Drawing and sound calls have no effect on the simulated state and are left
  out, as are the `color` fields that only drawing reads.
* One pass of `while(!WindowShouldClose())` is `tick`; `Reachable` are the
  states at the start of a pass in a run from the cold start `initGame`.

Main results, by claim of the specification.

* C1 `C1_pool_count_invariant`: the count invariant of a pool.
* C2 `C2_getObject_reserve`: `getObject` reserves the lowest inactive slot.
* C3 `C3_fragmentation`: a hit `Normal` asteroid is replaced by two `Tiny` ones
  at its position converted to `int`; `C3_same_position_counterexample`.
* C4 `C4_safe_mode_iff_countdown`: `safe_mode` is set exactly while the
  countdown is positive.
* C5 `C5_invulnerability_window`: no life is lost during the 249 passes after a
  kill; `C5_window_250_counterexample` for the 250th.
* C6 `C6_lives_bounds`: `0 <= lives <= 3` in every reachable state.
* C7 `C7_wrap_closed_arena`: positions stay in the closed room;
  `C7_wrap_half_open_counterexample`.
* C8 `C8_score_monotone`: the score only grows, except for the reset to 0 when
  a match starts.
* C9 `C9_shot_cadence`: admitted shots are more than 0.1 s apart.
* C10 `C10_rotation_damping`: the rotational velocity is 0 after 112 updates.
* C11 `C11_choose_one_draw_in_all`: `Choose` returns its first argument for the
  draw 0 only.
* C12 `C12_top_up_one_per_tick`: the top-up spawns one asteroid per pass;
  `C12_top_up_below_max_counterexample`.
* C13 `C13_mode_machine`: the three transitions of `game_state`.
* C14 `C14_match_reset`: the state after the two transitions of the drawing
  block.
* C15 `C15_kill_effect`: what `Player::kill` writes and what it leaves alone.
* C16 `C16_velocity_clamp`: the velocity is clamped in length by raymath
  `Vector2ClampValue`, not component by component;
  `C16_componentwise_counterexample`.
* C17 `C17_shape_local_at_creation`: a new asteroid caches its vertices
  relative to the origin.
* C18 `C18_burst_truncation`: a burst activates `min(max(n, 1), f)` particles;
  `C18_burst_zero_counterexample`.
* C19 `C19_title_collision_costs_life`: a collision on the title screen costs
  a life, and a run from the cold start leads into a match that begins with 2
  lives.
-/

namespace AsteroidGame

/-! ## Constants (`#define`s of `main.cpp`) -/

def WINDOW_WIDTH : Int := 1024
def WINDOW_HEIGHT : Int := 768
def ASTEROID_START_NUMBER : Int := 8
def PLAYER_ROTATION_LIMIT : ℚ := 3
def PLAYER_SPEED_LIMIT : ℚ := 3
def PLAYER_TIME_INVUL : Int := 250

/-- Number of slots of `Pool<T>::objects` (`T objects[50]`). -/
def POOL_SIZE : Nat := 50

/-! ## Plain data -/

structure Vector2 where
  x : ℚ
  y : ℚ
  deriving DecidableEq, Repr

instance : Inhabited Vector2 := ⟨⟨0, 0⟩⟩

structure Rectangle where
  x : ℚ
  y : ℚ
  width : ℚ
  height : ℚ
  deriving DecidableEq, Repr

structure PolarPoint where
  radians : ℚ
  distance : ℚ
  deriving DecidableEq, Repr

/-- The raymath function `Vector2Zero`. -/
def Vector2Zero : Vector2 := ⟨0, 0⟩

/-- The raymath function `Vector2Add`: the sum of two vectors. -/
def Vector2Add (a b : Vector2) : Vector2 := ⟨a.x + b.x, a.y + b.y⟩

/-- The raymath function `Clamp(value, min, max)`: `value` limited below by `min`,
then above by `max`. -/
def Clamp (value lo hi : ℚ) : ℚ :=
  let result := if value < lo then lo else value
  if result > hi then hi else result

/-- The raymath function `Vector2ClampValue(v, min, max)`, over the square root
function `sqrtf` it calls: a vector that is not zero is multiplied by
`min/length` when its length is below `min`, by `max/length` when it is above
`max`, and by 1 otherwise; the components are not clamped one by one. -/
def Vector2ClampValue (sqrtf : ℚ → ℚ) (v : Vector2) (lo hi : ℚ) : Vector2 :=
  let length := v.x * v.x + v.y * v.y
  if length > 0 then
    let len := sqrtf length
    let scale : ℚ := if len < lo then lo / len else if len > hi then hi / len else 1
    ⟨v.x * scale, v.y * scale⟩
  else v

/-- The C conversion `(int)f` of a float: truncation toward zero. -/
def floatToInt (f : ℚ) : Int := Int.tdiv f.num (f.den : Int)

/-- Library functions and platform constants used by the program. -/
structure Env where
  cosf : ℚ → ℚ
  sinf : ℚ → ℚ
  DEG2RAD : ℚ
  RAND_MAX : Nat
  Vector2ClampValue : Vector2 → ℚ → ℚ → Vector2
  CheckCollisionPointRec : Vector2 → Rectangle → Bool
  CheckCollisionPointPoly : Vector2 → List Vector2 → Bool
  CheckCollisionPointTriangle : Vector2 → Vector2 → Vector2 → Vector2 → Bool

/-! ## Random sources

`rand()` (used by `RandRangeF` and `Choose`) and raylib's `GetRandomValue` are
two generators; each is an arbitrary infinite sequence of raw draws together
with the number of draws already consumed. -/

structure Rand where
  c_draws : Nat → Nat
  c_used : Nat
  ray_draws : Nat → Nat
  ray_used : Nat

/-- One call of `rand()`: a value in `0 .. RAND_MAX`. -/
def rand (env : Env) (g : Rand) : Nat × Rand :=
  (g.c_draws g.c_used % (env.RAND_MAX + 1), { g with c_used := g.c_used + 1 })

/-- The raylib function `GetRandomValue(min, max)`: a value in `min .. max`, both
included. -/
def GetRandomValue (lo hi : Int) (g : Rand) : Int × Rand :=
  (lo + ((g.ray_draws g.ray_used : Int) % (hi - lo + 1)), { g with ray_used := g.ray_used + 1 })

/-- The function `RandRangeF`: `r = rand() / (float)RAND_MAX; return min + r * (max - min)`. -/
def RandRangeF (env : Env) (lo hi : ℚ) (g : Rand) : ℚ × Rand :=
  let d := rand env g
  let r : ℚ := (d.1 : ℚ) / (env.RAND_MAX : ℚ)
  (lo + r * (hi - lo), d.2)

/-- The function `Choose`: `(rand() > 0.5f) ? b : a`. -/
def Choose (env : Env) (a b : Int) (g : Rand) : Int × Rand :=
  let d := rand env g
  (if (d.1 : ℚ) > 1 / 2 then b else a, d.2)

/-! ## Pool -/

/-- What `Pool<T>` needs of `T`: the `active` member. -/
class PoolObject (T : Type) where
  active : T → Bool
  setActive : T → Bool → T
  active_setActive : ∀ (x : T) (b : Bool), active (setActive x b) = b

export PoolObject (active setActive)

/-- The template `Pool<T>`: the slots and the counter `number_actives`. -/
structure Pool (T : Type) where
  objects : List T
  number_actives : Int

namespace Pool

variable {T : Type}

/-- A freshly constructed pool: `POOL_SIZE` default-constructed objects, `number_actives = 0`. -/
def empty [Inhabited T] : Pool T :=
  { objects := List.replicate POOL_SIZE default, number_actives := 0 }

/-- The scan of `getObject` over the slots: the first slot with `!object.active`
is activated and its index returned; `none` when the scan falls through. -/
def scan [PoolObject T] : List T → Option (Nat × List T)
  | [] => none
  | object :: rest =>
    if !active object then some (0, setActive object true :: rest)
    else match scan rest with
      | none => none
      | some (i, rest') => some (i + 1, object :: rest')

/-- The method `Pool<T>::getObject`: the returned pointer (as a slot index, `none` for `NULL`)
and the pool afterwards. -/
def getObject [PoolObject T] (p : Pool T) : Option Nat × Pool T :=
  match scan p.objects with
  | none => (none, p)
  | some (i, objs) => (some i, { objects := objs, number_actives := p.number_actives + 1 })

/-- The method `Pool<T>::kill(object)` with `object` the slot of index `i`. -/
def kill [PoolObject T] (p : Pool T) (i : Nat) : Pool T :=
  match p.objects[i]? with
  | none => p
  | some object =>
    { objects := p.objects.set i (setActive object false), number_actives := p.number_actives - 1 }

/-- Number of slots whose `active` flag is set. -/
def activeCount [PoolObject T] (p : Pool T) : Nat :=
  p.objects.countP (fun o => active o)

/-- The count invariant: `POOL_SIZE` slots, and `number_actives` is the number
of active slots. -/
def CountInv [PoolObject T] (p : Pool T) : Prop :=
  p.objects.length = POOL_SIZE ∧ p.number_actives = (p.activeCount : Int)

end Pool

/-- Write access to the members of slot `i` through a pointer or reference. -/
def Pool.modify {T : Type} (p : Pool T) (i : Nat) (f : T → T) : Pool T :=
  match p.objects[i]? with
  | none => p
  | some object => { p with objects := p.objects.set i (f object) }

/-! ## Particles -/

/-- The `struct Particle`. Members without an initialiser start at `0` here. -/
structure Particle where
  active : Bool := false
  pos : Vector2 := ⟨0, 0⟩
  vel : Vector2 := ⟨0, 0⟩
  rot : ℚ := 0
  rot_speed : ℚ := 0
  size : Int := 0
  life_start : Int := 0
  life_current : Int := 0
  deriving DecidableEq, Repr

instance : Inhabited Particle := ⟨{}⟩

instance : PoolObject Particle where
  active p := p.active
  setActive p b := { p with active := b }
  active_setActive _ _ := rfl

/-- The body of the `do ... while(--amount > 0)` loop of `ParticleBurst`, run
again `more` times after the first pass unless a reservation fails. -/
def ParticleBurstLoop (env : Env) (x y : ℚ) :
    Nat → Pool Particle → Rand → Pool Particle × Rand
  | more, pool, g =>
    match pool.getObject with
    | (none, _) => (pool, g)
    | (some i, pool1) =>
      let vx := RandRangeF env (-1) 1 g
      let vy := RandRangeF env (-1) 1 vx.2
      let life := GetRandomValue 60 120 vy.2
      let size := GetRandomValue 4 12 life.2
      let rs := RandRangeF env (-2) 2 size.2
      let pool2 := pool1.modify i (fun particle =>
        { particle with
          pos := ⟨x, y⟩
          vel := ⟨vx.1, vy.1⟩
          life_start := life.1
          life_current := life.1
          size := size.1
          rot_speed := rs.1 })
      match more with
      | 0 => (pool2, rs.2)
      | k + 1 => ParticleBurstLoop env x y k pool2 rs.2

/-- The function `ParticleBurst(pool, x, y, amount)`: the loop body runs once and then again
as long as `--amount > 0`. -/
def ParticleBurst (env : Env) (pool : Pool Particle) (x y : ℚ) (amount : Int) (g : Rand) :
    Pool Particle × Rand :=
  ParticleBurstLoop env x y (amount - 1).toNat pool g

/-- The body of the loop of `ParticleUpdate` for the slot of index `i`. -/
def ParticleUpdateStep (i : Nat) (pool : Pool Particle) : Pool Particle :=
  match pool.objects[i]? with
  | none => pool
  | some particle =>
    if !particle.active then pool
    else
      let moved : Particle :=
        { particle with
          pos := Vector2Add particle.pos particle.vel
          rot := particle.rot + particle.rot_speed
          life_current := particle.life_current - 1 }
      let pool1 : Pool Particle := { pool with objects := pool.objects.set i moved }
      if moved.life_current ≤ 0 then pool1.kill i else pool1

/-- The function `ParticleUpdate`. -/
def ParticleUpdate (pool : Pool Particle) : Pool Particle :=
  (List.range POOL_SIZE).foldl (fun p i => ParticleUpdateStep i p) pool

/-! ## Bullets -/

/-- The `struct Bullet`. -/
structure Bullet where
  active : Bool := false
  pos : Vector2 := ⟨0, 0⟩
  vel : Vector2 := ⟨0, 0⟩
  deriving DecidableEq, Repr

instance : Inhabited Bullet := ⟨{}⟩

instance : PoolObject Bullet where
  active b := b.active
  setActive b v := { b with active := v }
  active_setActive _ _ := rfl

/-! ## Player -/

/-- The `struct Player`; `new Player()` value-initialises, so the members without
an initialiser (`shape`, `safe_mode_count`) start at zero. -/
structure Player where
  pos : Vector2 := ⟨0, 0⟩
  vel : Vector2 := ⟨0, 0⟩
  shape : Vector2 × Vector2 × Vector2 := (⟨0, 0⟩, ⟨0, 0⟩, ⟨0, 0⟩)
  base_height : ℚ := 45
  rot : ℚ := 0
  rot_vel : ℚ := 0
  bullet_speed_ratio : ℚ := 7
  lives : Int := 3
  safe_mode_count : Int := 0
  safe_mode : Bool := false
  deriving DecidableEq, Repr

namespace Player

/-- The rotation part of `Player::update` (lines 138-142) on `rot_vel` alone:
clamp, damp by 5 percent, snap to zero. -/
def dampRotVel (rot_vel : ℚ) : ℚ :=
  let clamped := Clamp rot_vel (-PLAYER_ROTATION_LIMIT) PLAYER_ROTATION_LIMIT
  let damped := clamped + (0 - clamped) * (5 / 100)
  if |0 - damped| ≤ 1 / 100 then 0 else damped

/-- The wrap of one coordinate in `Player::update`:
`if(c > limit) c = 0; if(c < 0) c = limit;`. -/
def wrapCoord (c : ℚ) (limit : Int) : ℚ :=
  let c1 := if c > (limit : ℚ) then 0 else c
  if c1 < 0 then (limit : ℚ) else c1

/-- The method `Player::update`. -/
def update (env : Env) (p : Player) : Player :=
  -- movement
  let vel := env.Vector2ClampValue p.vel (-PLAYER_SPEED_LIMIT) PLAYER_SPEED_LIMIT
  let pos := Vector2Add p.pos vel
  -- rotation vel
  let clamped := Clamp p.rot_vel (-PLAYER_ROTATION_LIMIT) PLAYER_ROTATION_LIMIT
  let rot := p.rot + clamped
  let rot_vel := dampRotVel p.rot_vel
  -- refresh shape
  let h := p.base_height / 2
  let s0 : Vector2 := ⟨pos.x + env.cosf (rot * env.DEG2RAD) * h, pos.y + env.sinf (rot * env.DEG2RAD) * h⟩
  let s1 : Vector2 :=
    ⟨pos.x + env.cosf ((rot - 135) * env.DEG2RAD) * h, pos.y + env.sinf ((rot - 135) * env.DEG2RAD) * h⟩
  let s2 : Vector2 :=
    ⟨pos.x + env.cosf ((rot - 225) * env.DEG2RAD) * h, pos.y + env.sinf ((rot - 225) * env.DEG2RAD) * h⟩
  -- wrap spaceship between edges of room
  let pos : Vector2 := ⟨wrapCoord pos.x WINDOW_WIDTH, wrapCoord pos.y WINDOW_HEIGHT⟩
  let p1 : Player := { p with pos := pos, vel := vel, rot := rot, rot_vel := rot_vel, shape := (s0, s1, s2) }
  if p1.safe_mode then
    let count := p1.safe_mode_count - 1
    { p1 with safe_mode_count := count, safe_mode := !(decide (0 = count)) }
  else p1

/-- The method `Player::kill`. -/
def kill (p : Player) : Player :=
  { p with
    pos := ⟨((WINDOW_WIDTH / 2 : Int) : ℚ), ((WINDOW_HEIGHT / 2 : Int) : ℚ)⟩
    vel := Vector2Zero
    safe_mode := true
    safe_mode_count := PLAYER_TIME_INVUL
    lives := p.lives - 1 }

end Player

/-! ## Asteroids -/

/-- The `enum AsteroidShape { Normal = 1, Tiny }`. -/
inductive AsteroidShape where
  | Normal
  | Tiny
  deriving DecidableEq, Repr

/-- The integer value of the enumerator. -/
def AsteroidShape.toInt : AsteroidShape → Int
  | .Normal => 1
  | .Tiny => 2

/-- The `struct Asteroid`. The array `shape` is a list (`nullptr` and a freed array
are the empty list); `size` has no initialiser and starts at `Normal` here. -/
structure Asteroid where
  active : Bool := false
  pos : Vector2 := ⟨0, 0⟩
  vel : Vector2 := ⟨0, 0⟩
  rot : ℚ := 0
  rot_vel : ℚ := 0
  shape : List Vector2 := []
  points : List PolarPoint := []
  size : AsteroidShape := .Normal
  deriving DecidableEq, Repr

instance : Inhabited Asteroid := ⟨{}⟩

instance : PoolObject Asteroid where
  active a := a.active
  setActive a b := { a with active := b }
  active_setActive _ _ := rfl

namespace Asteroid

/-- The loop `for(int i = 1; i < n-1; i++)` of `createShape`: `count` passes
starting at index `i`. -/
def createShapeLoop (env : Env) (shape_size : AsteroidShape) (d : ℚ) :
    Nat → Nat → Asteroid → Rand → Asteroid × Rand
  | 0, _, a, g => (a, g)
  | count + 1, i, a, g =>
    let r := d * ((i : ℚ) - 1) * env.DEG2RAD
    let u := RandRangeF env 32 64 g
    let l := u.1 / (shape_size.toInt : ℚ)
    let a1 : Asteroid :=
      { a with
        points := a.points ++ [⟨r, l⟩]
        shape := a.shape.set i ⟨l * env.cosf r, l * -(env.sinf r)⟩ }
    createShapeLoop env shape_size d count (i + 1) a1 u.2

/-- The method `Asteroid::createShape`. -/
def createShape (env : Env) (a : Asteroid) (shape_size : AsteroidShape) (g : Rand) :
    Asteroid × Rand :=
  let nr := GetRandomValue 6 10 g
  let n : Int := nr.1 + 2
  let d : ℚ := 360 / ((n - 2 : Int) : ℚ)
  -- first point on center
  let a1 : Asteroid :=
    { a with
      size := shape_size
      points := a.points ++ [⟨0, 0⟩]
      shape := (List.replicate n.toNat (⟨0, 0⟩ : Vector2)).set 0 Vector2Zero }
  -- others points
  let looped := createShapeLoop env shape_size d (n - 2).toNat 1 a1 nr.2
  let a2 := looped.1
  -- last point close the fan
  let p1 : PolarPoint := a2.points.getD 1 ⟨0, 0⟩
  let s1 : Vector2 := a2.shape.getD 1 ⟨0, 0⟩
  ({ a2 with
      points := a2.points ++ [⟨p1.radians, p1.distance⟩]
      shape := a2.shape.set (n - 1).toNat ⟨s1.x, s1.y⟩ }, looped.2)

/-- The method `Asteroid::deleteShape`. -/
def deleteShape (a : Asteroid) : Asteroid :=
  { a with points := [], shape := [] }

end Asteroid

/-- The function `AsteroidRevive(asteroid_pool, shape_size, x, y)`; the arguments of `Choose`
are evaluated from left to right. -/
def AsteroidRevive (env : Env) (asteroid_pool : Pool Asteroid) (shape_size : AsteroidShape)
    (x y : Int) (g : Rand) : Option Nat × Pool Asteroid × Rand :=
  match asteroid_pool.getObject with
  | (none, _) => (none, asteroid_pool, g)
  | (some i, pool1) =>
    let xr : Int × Rand :=
      if 0 = x then
        let a := GetRandomValue (-64) 128 g
        let b := GetRandomValue (WINDOW_WIDTH - 128) (WINDOW_WIDTH + 64) a.2
        Choose env a.1 b.1 b.2
      else (x, g)
    let yr : Int × Rand :=
      if 0 = y then
        let a := GetRandomValue (-64) 128 xr.2
        let b := GetRandomValue (WINDOW_WIDTH - 128) (WINDOW_WIDTH + 64) a.2
        Choose env a.1 b.1 b.2
      else (y, xr.2)
    let asteroid : Asteroid := pool1.objects.getD i default
    let placed : Asteroid := { asteroid with pos := ⟨(xr.1 : ℚ), (yr.1 : ℚ)⟩ }
    let shaped := placed.deleteShape.createShape env shape_size yr.2
    -- set vel
    let vx := RandRangeF env (-1) 1 shaped.2
    let vy := RandRangeF env (-1) 1 vx.2
    let rv := RandRangeF env (-1) 1 vy.2
    let revived : Asteroid := { shaped.1 with vel := ⟨vx.1, vy.1⟩, rot_vel := rv.1 }
    (some i, { pool1 with objects := pool1.objects.set i revived }, rv.2)

/-- The `do ... while(++i < amount)` loop of `AsteroidSpawnRandom`: one pass,
then `more` further passes. -/
def AsteroidSpawnRandomLoop (env : Env) : Nat → Pool Asteroid → Rand → Pool Asteroid × Rand
  | 0, pool, g =>
    let r := AsteroidRevive env pool .Normal 0 0 g
    (r.2.1, r.2.2)
  | more + 1, pool, g =>
    let r := AsteroidRevive env pool .Normal 0 0 g
    AsteroidSpawnRandomLoop env more r.2.1 r.2.2

/-- The function `AsteroidSpawnRandom(asteroid_pool, amount)`. -/
def AsteroidSpawnRandom (env : Env) (asteroid_pool : Pool Asteroid) (amount : Int) (g : Rand) :
    Pool Asteroid × Rand :=
  AsteroidSpawnRandomLoop env (amount - 1).toNat asteroid_pool g

/-- The function `AsteroidClearAll`. -/
def AsteroidClearAll (asteroid_pool : Pool Asteroid) : Pool Asteroid :=
  { objects := asteroid_pool.objects.map
      (fun asteroid => { asteroid with active := false, points := [], shape := [] })
    number_actives := 0 }

/-! ## The main loop -/

/-- The local variables of `main` that make up the state of the game. -/
structure Game where
  time_shoot : ℚ
  time_asteroids_increment : ℚ
  game_state : Int
  asteroids_max : Int
  bullet_pool : Pool Bullet
  asteroid_pool : Pool Asteroid
  particle_pool : Pool Particle
  player : Player
  score : Int
  rng : Rand

/-- What one pass of the main loop reads from the outside: the keys, and the
clock at each of the four calls of `GetTime()` (lines 319, 321, 341, 350). -/
structure Input where
  key_w : Bool
  key_a : Bool
  key_d : Bool
  key_space_down : Bool
  key_space_pressed : Bool
  time_increment_test : ℚ
  time_increment_set : ℚ
  time_shoot_test : ℚ
  time_shoot_set : ℚ
  deriving DecidableEq, Repr

/-- The four clock readings of one pass in the order in which they are taken. -/
def Input.readings (inp : Input) : List ℚ :=
  [inp.time_increment_test, inp.time_increment_set, inp.time_shoot_test, inp.time_shoot_set]

/-- The condition of the `if` of line 341: a shot is admitted. -/
def shotAdmitted (inp : Input) (s : Game) : Bool :=
  decide (inp.time_shoot_test - s.time_shoot > 1 / 10) && inp.key_space_down

/-- Lines 313-316: one asteroid is spawned when fewer than `asteroids_max` are active. -/
def topUp (env : Env) (s : Game) : Game :=
  if s.asteroid_pool.number_actives < s.asteroids_max then
    let r := AsteroidSpawnRandom env s.asteroid_pool 1 s.rng
    { s with asteroid_pool := r.1, rng := r.2 }
  else s

/-- Lines 318-322: the maximum number of asteroids grows every 5 seconds, up to 20. -/
def maxIncrement (inp : Input) (s : Game) : Game :=
  if inp.time_increment_test - s.time_asteroids_increment > 5 ∧ s.asteroids_max < 20 then
    { s with asteroids_max := s.asteroids_max + 1, time_asteroids_increment := inp.time_increment_set }
  else s

/-- Lines 325-336: the keys `W`, `A`, `D` act on the velocity and the rotation velocity. -/
def applyKeys (env : Env) (inp : Input) (p : Player) : Player :=
  let p1 : Player :=
    if inp.key_w then
      { p with
        vel := ⟨p.vel.x + env.cosf (p.rot * env.DEG2RAD) * (1 / 10),
                p.vel.y + env.sinf (p.rot * env.DEG2RAD) * (1 / 10)⟩ }
    else p
  let p2 : Player := if inp.key_a then { p1 with rot_vel := p1.rot_vel - 3 / 10 } else p1
  if inp.key_d then { p2 with rot_vel := p2.rot_vel + 3 / 10 } else p2

/-- Lines 340-351: "player shoot". -/
def shoot (env : Env) (inp : Input) (s : Game) : Game :=
  if shotAdmitted inp s then
    let r := s.bullet_pool.getObject
    let bullets : Pool Bullet :=
      match r.1 with
      | none => r.2
      | some i =>
        r.2.modify i (fun bullet =>
          { bullet with
            pos := ⟨s.player.pos.x, s.player.pos.y⟩
            vel := ⟨env.cosf (s.player.rot * env.DEG2RAD) * s.player.bullet_speed_ratio,
                    env.sinf (s.player.rot * env.DEG2RAD) * s.player.bullet_speed_ratio⟩ })
    { s with bullet_pool := bullets, time_shoot := inp.time_shoot_set }
  else s

/-- The block `if(1 == game_state) { ... }` of lines 311-352. -/
def playingPhase (env : Env) (inp : Input) (s : Game) : Game :=
  if 1 = s.game_state then
    let s1 := maxIncrement inp (topUp env s)
    let s2 : Game := { s1 with player := (applyKeys env inp s1.player).update env }
    shoot env inp s2
  else s

/-- The scan `for(auto &asteroid: asteroid_pool.objects)` of lines 366-370 up to
its `break`: the index of the first active asteroid whose outline (the vertices
`shape+1 .. `, `points.size()-1` of them) contains the point. Nothing is written
before the `break`, so the search is separated from the block it guards. -/
def findHit (env : Env) (pt : Vector2) : List Asteroid → Option Nat
  | [] => none
  | asteroid :: rest =>
    if asteroid.active &&
        env.CheckCollisionPointPoly pt ((asteroid.shape.drop 1).take (asteroid.points.length - 1)) then
      some 0
    else
      match findHit env pt rest with
      | none => none
      | some i => some (i + 1)

/-- Lines 376-379: a `Normal` asteroid is revived twice as `Tiny` at its own
position converted to `int`. -/
def fragment (env : Env) (ai : Nat) (s : Game) : Game :=
  if AsteroidShape.Normal = (s.asteroid_pool.objects.getD ai default).size then
    let a1 : Asteroid := s.asteroid_pool.objects.getD ai default
    let r1 := AsteroidRevive env s.asteroid_pool .Tiny (floatToInt a1.pos.x) (floatToInt a1.pos.y) s.rng
    let a2 : Asteroid := r1.2.1.objects.getD ai default
    let r2 := AsteroidRevive env r1.2.1 .Tiny (floatToInt a2.pos.x) (floatToInt a2.pos.y) r1.2.2
    { s with asteroid_pool := r2.2.1, rng := r2.2.2 }
  else s

/-- The block of lines 371-382: bullet `bi` has hit asteroid `ai`. -/
def hitAsteroid (env : Env) (bi ai : Nat) (s : Game) : Game :=
  let a : Asteroid := s.asteroid_pool.objects.getD ai default
  let burst := ParticleBurst env s.particle_pool a.pos.x a.pos.y 10 s.rng
  let s1 : Game :=
    { s with
      bullet_pool := s.bullet_pool.kill bi
      score := s.score + 1
      particle_pool := burst.1
      rng := burst.2 }
  let s2 := fragment env ai s1
  { s2 with asteroid_pool := s2.asteroid_pool.kill ai }

/-- The arena rectangle `Rectangle { 0, 0, WINDOW_WIDTH, WINDOW_HEIGHT }`. -/
def arena : Rectangle := ⟨0, 0, (WINDOW_WIDTH : ℚ), (WINDOW_HEIGHT : ℚ)⟩

/-- Line 358: `bullet.pos = Vector2Add(bullet.pos, bullet.vel)` for the bullet of slot `bi`. -/
def moveBullet (bi : Nat) (bullet : Bullet) (s : Game) : Game :=
  { s with
    bullet_pool :=
      { s.bullet_pool with
        objects := s.bullet_pool.objects.set bi ({ bullet with pos := Vector2Add bullet.pos bullet.vel }) } }

/-- The body of the loop `for(auto &bullet: bullet_pool.objects)` (lines 355-385)
for the slot of index `bi`. -/
def bulletStep (env : Env) (bi : Nat) (s : Game) : Game :=
  match s.bullet_pool.objects[bi]? with
  | none => s
  | some bullet =>
    if !bullet.active then s
    else
      let s1 := moveBullet bi bullet s
      -- out of room
      if !env.CheckCollisionPointRec (Vector2Add bullet.pos bullet.vel) arena then
        { s1 with bullet_pool := s1.bullet_pool.kill bi }
      else
        match findHit env (Vector2Add bullet.pos bullet.vel) s1.asteroid_pool.objects with
        | none => s1
        | some ai => hitAsteroid env bi ai s1

/-- Bullet `bi` is active, is still in the room after its move, and its scan
over the asteroids ends in a hit (the conditions of lines 356, 361 and 370). -/
def bulletHits (env : Env) (bi : Nat) (s : Game) : Bool :=
  match s.bullet_pool.objects[bi]? with
  | none => false
  | some bullet =>
    bullet.active && env.CheckCollisionPointRec (Vector2Add bullet.pos bullet.vel) arena &&
      (findHit env (Vector2Add bullet.pos bullet.vel) s.asteroid_pool.objects).isSome

/-- The loop "update bullets" (lines 355-385). -/
def bulletPhase (env : Env) (s : Game) : Game :=
  (List.range POOL_SIZE).foldl (fun st bi => bulletStep env bi st) s

/-- What the loop over the vertices of one asteroid (lines 399-410) reads and writes. -/
structure VertexState where
  asteroid : Asteroid
  particle_pool : Pool Particle
  player : Player
  rng : Rand

/-- The body of the loop `for(int i = 0; i < asteroid.points.size(); i++)`. -/
def vertexStep (env : Env) (i : Nat) (st : VertexState) : VertexState :=
  let pp : PolarPoint := st.asteroid.points.getD i ⟨0, 0⟩
  let pp1 : PolarPoint := { pp with radians := pp.radians + 1 * env.DEG2RAD }
  let v : Vector2 :=
    ⟨st.asteroid.pos.x + env.cosf pp1.radians * pp1.distance,
     st.asteroid.pos.y - env.sinf pp1.radians * pp1.distance⟩
  let a1 : Asteroid :=
    { st.asteroid with points := st.asteroid.points.set i pp1, shape := st.asteroid.shape.set i v }
  -- player collision with asteroid
  if !st.player.safe_mode &&
      env.CheckCollisionPointTriangle v st.player.shape.1 st.player.shape.2.1 st.player.shape.2.2 then
    let burst := ParticleBurst env st.particle_pool st.player.pos.x st.player.pos.y 5 st.rng
    { asteroid := a1, particle_pool := burst.1, player := st.player.kill, rng := burst.2 }
  else { st with asteroid := a1 }

/-- The wrap of one asteroid coordinate (lines 393-396):
`if(c < 0) c = limit; if(c > limit) c = 0;`. -/
def asteroidWrap (c : ℚ) (limit : Int) : ℚ :=
  let c1 := if c < 0 then (limit : ℚ) else c
  if c1 > (limit : ℚ) then 0 else c1

/-- Lines 390-396: move, rotate and wrap one asteroid. -/
def asteroidMove (a : Asteroid) : Asteroid :=
  let pos := Vector2Add a.pos a.vel
  { a with
    pos := ⟨asteroidWrap pos.x WINDOW_WIDTH, asteroidWrap pos.y WINDOW_HEIGHT⟩
    rot := a.rot + a.rot_vel }

/-- The body of the loop "update asteroids" (lines 388-411) for the slot of index `ai`. -/
def asteroidStep (env : Env) (ai : Nat) (s : Game) : Game :=
  match s.asteroid_pool.objects[ai]? with
  | none => s
  | some asteroid =>
    if !asteroid.active then s
    else
      let moved := asteroidMove asteroid
      -- update shape
      let st := (List.range moved.points.length).foldl (fun st i => vertexStep env i st)
        ({ asteroid := moved, particle_pool := s.particle_pool, player := s.player, rng := s.rng } :
          VertexState)
      { s with
        asteroid_pool := { s.asteroid_pool with objects := s.asteroid_pool.objects.set ai st.asteroid }
        particle_pool := st.particle_pool
        player := st.player
        rng := st.rng }

/-- The loop "update asteroids" (lines 388-411). -/
def asteroidPhase (env : Env) (s : Game) : Game :=
  (List.range POOL_SIZE).foldl (fun st ai => asteroidStep env ai st) s

/-- Lines 413-416: `if(0 == player->lives) game_state = 2;`. -/
def gameOverCheck (s : Game) : Game :=
  if 0 = s.player.lives then { s with game_state := 2 } else s

/-- Lines 447-453, on the title screen: a press of the space key starts a match. -/
def startMatch (env : Env) (inp : Input) (s : Game) : Game :=
  if 0 = s.game_state then
    if inp.key_space_pressed then
      let cleared := AsteroidClearAll s.asteroid_pool
      let r := AsteroidSpawnRandom env cleared ASTEROID_START_NUMBER s.rng
      { s with game_state := 1, score := 0, asteroid_pool := r.1, rng := r.2 }
    else s
  else s

/-- Lines 465-477, on the game-over screen: a press of the space key resets the game. -/
def resetGame (env : Env) (inp : Input) (s : Game) : Game :=
  if 2 = s.game_state then
    if inp.key_space_pressed then
      let cleared := AsteroidClearAll s.asteroid_pool
      let r := AsteroidSpawnRandom env cleared ASTEROID_START_NUMBER s.rng
      { s with
        game_state := 0
        player :=
          { s.player with
            pos := ⟨((WINDOW_WIDTH / 2 : Int) : ℚ), ((WINDOW_HEIGHT / 2 : Int) : ℚ)⟩
            lives := 3
            safe_mode := false
            safe_mode_count := 0 }
        asteroids_max := 8
        asteroid_pool := r.1
        rng := r.2 }
    else s
  else s

/-- The state changes inside `BeginDrawing() ... EndDrawing()`: first the title
screen block, then the game-over block. -/
def drawPhase (env : Env) (inp : Input) (s : Game) : Game :=
  resetGame env inp (startMatch env inp s)

/-- Line 419: "update particles". -/
def particlePhase (s : Game) : Game :=
  { s with particle_pool := ParticleUpdate s.particle_pool }

/-- One pass of `while(!WindowShouldClose()) { ... }`. -/
def tick (env : Env) (inp : Input) (s : Game) : Game :=
  drawPhase env inp (particlePhase (gameOverCheck (asteroidPhase env (bulletPhase env
    (playingPhase env inp s)))))

/-- The state when the main loop is entered (lines 289-306); `t_shoot` and
`t_increment` are the two clock readings of lines 291-292, `g` the state of the
random generators. -/
def initGame (env : Env) (t_shoot t_increment : ℚ) (g : Rand) : Game :=
  let player : Player :=
    { pos := ⟨((WINDOW_WIDTH / 2 : Int) : ℚ), ((WINDOW_HEIGHT / 2 : Int) : ℚ)⟩ }
  -- spawn asteroids
  let r := AsteroidSpawnRandom env Pool.empty ASTEROID_START_NUMBER g
  { time_shoot := t_shoot
    time_asteroids_increment := t_increment
    game_state := 0
    asteroids_max := 8
    bullet_pool := Pool.empty
    asteroid_pool := r.1
    particle_pool := Pool.empty
    player := player
    score := 0
    rng := r.2 }

/-- The state after the passes of the main loop that read `inps`, in order. -/
def run (env : Env) (inps : List Input) (s : Game) : Game :=
  inps.foldl (fun st inp => tick env inp st) s

/-- The states the main loop can be in at the start of a pass. -/
inductive Reachable (env : Env) : Game → Prop
  | init (t_shoot t_increment : ℚ) (g : Rand) : Reachable env (initGame env t_shoot t_increment g)
  | step (inp : Input) (s : Game) : Reachable env s → Reachable env (tick env inp s)

/-! ## Auxiliary predicates used in the proofs -/

/-- What the bullet loop never writes. -/
def BulletFrame (s t : Game) : Prop :=
  t.player = s.player ∧ t.game_state = s.game_state ∧ t.time_shoot = s.time_shoot ∧
  t.asteroids_max = s.asteroids_max ∧ t.time_asteroids_increment = s.time_asteroids_increment

/-- How the asteroid loop can change the player: not at all, or by one call of
`Player::kill` on a player that was not in safe mode. -/
def KillStep (p q : Player) : Prop :=
  q = p ∨ (p.safe_mode = false ∧ q = p.kill)

/-- What the asteroid loop never writes. -/
def AsteroidFrame (s t : Game) : Prop :=
  t.game_state = s.game_state ∧ t.score = s.score ∧ t.time_shoot = s.time_shoot ∧
  t.asteroids_max = s.asteroids_max ∧ t.time_asteroids_increment = s.time_asteroids_increment ∧
  t.bullet_pool = s.bullet_pool

/-- The player after the reset of lines 469-473. -/
def resetPlayer (p : Player) : Player :=
  { p with
    pos := ⟨((WINDOW_WIDTH / 2 : Int) : ℚ), ((WINDOW_HEIGHT / 2 : Int) : ℚ)⟩
    lives := 3
    safe_mode := false
    safe_mode_count := 0 }

/-- The state just before the drawing block of a pass. -/
def beforeDraw (env : Env) (inp : Input) (s : Game) : Game :=
  particlePhase (gameOverCheck (asteroidPhase env (bulletPhase env (playingPhase env inp s))))

/-- The player after the block `if(1 == game_state)`. -/
def playerAfterUpdate (env : Env) (inp : Input) (s : Game) : Player :=
  if 1 = s.game_state then (applyKeys env inp s.player).update env else s.player

/-- The flag `safe_mode` is set exactly when the countdown is positive. -/
def SafeInv (p : Player) : Prop := p.safe_mode = true ↔ 0 < p.safe_mode_count

/-- The facts about `lives` that hold at the start of every pass. -/
def LivesInv (s : Game) : Prop :=
  0 ≤ s.player.lives ∧ s.player.lives ≤ 3 ∧ (s.player.lives = 0 → s.game_state = 2) ∧
  (s.game_state = 2 → s.player.safe_mode = true)

/-- Asteroid `b` is asteroid `a` up to its rotation and the angles and cached
vertices of its shape. -/
def SameBody (a b : Asteroid) : Prop :=
  b.active = a.active ∧ b.pos = a.pos ∧ b.vel = a.vel ∧ b.size = a.size ∧
  b.points.length = a.points.length ∧
  (b.points[0]?).map (fun pp => pp.distance) = (a.points[0]?).map (fun pp => pp.distance)

/-- The shape of a player resting at the centre of the room with rotation 0. -/
def centreShape (env : Env) : Vector2 × Vector2 × Vector2 :=
  (Player.update env { pos := ⟨512, 384⟩ }).shape

/-- A game in which nothing moves the player or the asteroid of slot 0 away
from the centre of the room: no bullet is active, no asteroid is due to be
spawned, the player rests at the centre and so does the asteroid of slot 0. -/
def Parked (s : Game) : Prop :=
  s.asteroids_max ≤ s.asteroid_pool.number_actives ∧ s.time_asteroids_increment = 0 ∧
  (∀ b ∈ s.bullet_pool.objects, b.active = false) ∧
  s.player.pos = ⟨512, 384⟩ ∧ s.player.vel = ⟨0, 0⟩ ∧ s.player.rot = 0 ∧ s.player.rot_vel = 0 ∧
  s.player.base_height = 45 ∧
  ∃ a, s.asteroid_pool.objects[0]? = some a ∧ a.active = true ∧ a.pos = ⟨512, 384⟩ ∧
    a.vel = ⟨0, 0⟩ ∧ (a.points[0]?).map (fun pp => pp.distance) = some 0

/-- How `ParticleBurst` at `(x, y)` can change one slot of the particle pool:
not at all, or from inactive to an active particle at `(x, y)` at the start of
its life. -/
def BurstSlot (x y : ℚ) (p q : Particle) : Prop :=
  q = p ∨ (p.active = false ∧ q.active = true ∧ q.pos = ⟨x, y⟩ ∧ q.life_current = q.life_start)

/-- The facts about `game_state` that hold at the start of every pass: it is
0, 1 or 2, and on the title screen the player has 3 lives, or 2 lives and is in
safe mode. -/
def ModeInv (s : Game) : Prop :=
  (s.game_state = 0 ∨ s.game_state = 1 ∨ s.game_state = 2) ∧
  (s.game_state = 0 →
    s.player.lives = 3 ∨ (s.player.lives = 2 ∧ s.player.safe_mode = true))

/-- A ghost counter for `ParticleBurst`: the loop of `ParticleBurstLoop` again,
returning the number of calls of `getObject` it makes instead of the pool. -/
def ParticleBurstAttempts (env : Env) (x y : ℚ) : Nat → Pool Particle → Rand → Nat
  | more, pool, g =>
    match pool.getObject with
    | (none, _) => 1
    | (some i, pool1) =>
      let vx := RandRangeF env (-1) 1 g
      let vy := RandRangeF env (-1) 1 vx.2
      let life := GetRandomValue 60 120 vy.2
      let size := GetRandomValue 4 12 life.2
      let rs := RandRangeF env (-2) 2 size.2
      let pool2 := pool1.modify i (fun particle =>
        { particle with
          pos := ⟨x, y⟩
          vel := ⟨vx.1, vy.1⟩
          life_start := life.1
          life_current := life.1
          size := size.1
          rot_speed := rs.1 })
      match more with
      | 0 => 1
      | k + 1 => 1 + ParticleBurstAttempts env x y k pool2 rs.2

/-! ## A concrete environment

Executable stand-ins for the library functions, used to evaluate the program
at concrete inputs. The collision tests follow raylib, `Vector2ClampValue`
follows raymath, `cosf` and `sinf` are Taylor polynomials after a reduction of
the angle and `sqrtf` a fixed-point Newton iteration. -/

/-- The angle `x` brought into `[-pi, pi)`, with `pi` taken as `355/113`. -/
def reduceAngle (x : ℚ) : ℚ :=
  x - 710 / 113 * ((x / (710 / 113) + 1 / 2).floor : ℚ)

/-- A rational cosine: the Taylor polynomial of degree 20 at the reduced angle. -/
def approxCos (x : ℚ) : ℚ :=
  let y := reduceAngle x
  ((List.range 11).map (fun k => (-1 : ℚ) ^ k * y ^ (2 * k) / (Nat.factorial (2 * k) : ℚ))).sum

/-- A rational sine: the Taylor polynomial of degree 21 at the reduced angle. -/
def approxSin (x : ℚ) : ℚ :=
  let y := reduceAngle x
  ((List.range 11).map
    (fun k => (-1 : ℚ) ^ k * y ^ (2 * k + 1) / (Nat.factorial (2 * k + 1) : ℚ))).sum

/-- Newton iteration for the integer square root of `n`, `fuel` steps from guess `g`. -/
def newtonSqrt : Nat → Nat → Nat → Nat
  | 0, _, g => g
  | fuel + 1, n, g => newtonSqrt fuel n ((g + n / g) / 2)

/-- A square root with 24 binary digits after the point. -/
def approxSqrt (q : ℚ) : ℚ :=
  if q ≤ 0 then 0
  else
    let n : Nat := (q * 4 ^ 24).floor.toNat
    (newtonSqrt 80 n (n + 1) : ℚ) / 2 ^ 24

/-- raymath `Vector2ClampValue` with the square root `approxSqrt`. -/
def clampLength (v : Vector2) (lo hi : ℚ) : Vector2 :=
  Vector2ClampValue approxSqrt v lo hi

/-- raylib `CheckCollisionPointRec`. -/
def pointInRec (point : Vector2) (r : Rectangle) : Bool :=
  decide (point.x ≥ r.x) && decide (point.x < r.x + r.width) &&
    decide (point.y ≥ r.y) && decide (point.y < r.y + r.height)

/-- raylib `CheckCollisionPointTriangle`. -/
def pointInTriangle (point p1 p2 p3 : Vector2) : Bool :=
  let den := (p2.y - p3.y) * (p1.x - p3.x) + (p3.x - p2.x) * (p1.y - p3.y)
  let alpha := ((p2.y - p3.y) * (point.x - p3.x) + (p3.x - p2.x) * (point.y - p3.y)) / den
  let beta := ((p3.y - p1.y) * (point.x - p3.x) + (p1.x - p3.x) * (point.y - p3.y)) / den
  let gamma := 1 - alpha - beta
  decide (alpha > 0) && decide (beta > 0) && decide (gamma > 0)

/-- One edge of the even-odd test of raylib `CheckCollisionPointPoly`: the
edge from `pj` to `pi` is crossed by the ray from `point` to the right. -/
def edgeCrossed (point pi pj : Vector2) : Bool :=
  (decide (pi.y > point.y) != decide (pj.y > point.y)) &&
    decide (point.x < (pj.x - pi.x) * (point.y - pi.y) / (pj.y - pi.y) + pi.x)

/-- raylib `CheckCollisionPointPoly`: the number of crossed edges is odd. -/
def pointInPoly (point : Vector2) (points : List Vector2) : Bool :=
  if points.length > 2 then
    let previous := (points.getLast?.toList ++ points).take points.length
    (List.zip points previous).foldl (fun inside e => inside != edgeCrossed point e.1 e.2) false
  else false

/-- The concrete environment. `DEG2RAD` is `355/113/180`. -/
def testEnv : Env where
  cosf := approxCos
  sinf := approxSin
  DEG2RAD := 71 / 4068
  RAND_MAX := 2147483647
  Vector2ClampValue := clampLength
  CheckCollisionPointRec := pointInRec
  CheckCollisionPointPoly := pointInPoly
  CheckCollisionPointTriangle := pointInTriangle

/-- A concrete state of the two random generators. -/
def testRand : Rand where
  c_draws := fun n => (1103515245 * n + 12345) % 2147483648
  c_used := 0
  ray_draws := fun n => (69069 * n + 1) % 4294967296
  ray_used := 0

/-- An input with no key held and the clock at `t`. -/
def idleInput (t : ℚ) : Input where
  key_w := false
  key_a := false
  key_d := false
  key_space_down := false
  key_space_pressed := false
  time_increment_test := t
  time_increment_set := t
  time_shoot_test := t
  time_shoot_set := t

/-- An input with the space key held (and newly pressed) and the clock at `t`. -/
def fireInput (t : ℚ) : Input :=
  { idleInput t with key_space_down := true, key_space_pressed := true }

/-- The state after the first pass of a run in the concrete environment in
which the space key is pressed on the title screen: a match has started. -/
def matchStart : Game :=
  tick testEnv (fireInput 0) (initGame testEnv 0 0 testRand)

/-- The polar points of a `Normal` asteroid with 6 spokes, 60 degrees apart. -/
def rockPoints : List PolarPoint :=
  [⟨0, 0⟩, ⟨0, 40⟩, ⟨355 / 339, 52⟩, ⟨710 / 339, 45⟩, ⟨355 / 113, 60⟩, ⟨1420 / 339, 36⟩,
   ⟨1775 / 339, 50⟩, ⟨0, 40⟩]

/-- An active `Normal` asteroid at position `pos` with velocity `vel`, its
cached vertices computed from its polar points as the asteroid loop does. -/
def rockAt (pos vel : Vector2) : Asteroid :=
  { active := true
    pos := pos
    vel := vel
    rot := 0
    rot_vel := 1 / 2
    size := .Normal
    points := rockPoints
    shape := rockPoints.map (fun pp =>
      ⟨pos.x + approxCos pp.radians * pp.distance, pos.y - approxSin pp.radians * pp.distance⟩) }

/-- A match in progress: the player, with 3 lives and not in safe mode, rests
at the centre of the room, where an asteroid rests as well; seven more
asteroids rest at `(100, 100)`; no bullet and no particle is active. -/
def parkedGame : Game :=
  { time_shoot := 0
    time_asteroids_increment := 0
    game_state := 1
    asteroids_max := 8
    bullet_pool := Pool.empty
    asteroid_pool :=
      { objects := rockAt ⟨512, 384⟩ ⟨0, 0⟩ :: (List.replicate 7 (rockAt ⟨100, 100⟩ ⟨0, 0⟩) ++
          List.replicate 42 default)
        number_actives := 8 }
    particle_pool := Pool.empty
    player := { pos := ⟨512, 384⟩ }
    score := 0
    rng := testRand }

/-- A match in progress in which the bullet of slot 0, flying to the right
with speed 7, is about to enter the only asteroid, a `Normal` one at
`(100.5, 200)` in slot 0 of the asteroid pool. -/
def hitGame : Game :=
  { time_shoot := 0
    time_asteroids_increment := 0
    game_state := 1
    asteroids_max := 8
    bullet_pool :=
      { objects := { active := true, pos := ⟨193 / 2, 202⟩, vel := ⟨7, 0⟩ } ::
          List.replicate 49 default
        number_actives := 1 }
    asteroid_pool :=
      { objects := rockAt ⟨201 / 2, 200⟩ ⟨1 / 4, -1 / 8⟩ :: List.replicate 49 default
        number_actives := 1 }
    particle_pool := Pool.empty
    player := { pos := ⟨512, 384⟩ }
    score := 0
    rng := testRand }

/-- A state of the random generators in which every call of `rand()` returns `d`. -/
def constRand (d : Nat) : Rand where
  c_draws := fun _ => d
  c_used := 0
  ray_draws := fun _ => 0
  ray_used := 0

/-- A match in progress in which five asteroids are active while
`asteroids_max` is 8. -/
def thinGame : Game :=
  { parkedGame with
    asteroid_pool :=
      { objects := List.replicate 5 (rockAt ⟨100, 100⟩ ⟨0, 0⟩) ++ List.replicate 45 default
        number_actives := 5 } }

/-- A game that is over: no life is left, the score is 7, `asteroids_max` has
grown to 11 and eight asteroids are active. -/
def overGame : Game :=
  { parkedGame with
    game_state := 2
    asteroids_max := 11
    score := 7
    player := { pos := ⟨512, 384⟩, lives := 0, safe_mode := true, safe_mode_count := 250 } }

/-- A match in progress with no asteroid active, so that the top-up of the
next pass spawns one, and with the bullet of slot 0 near the top left corner of
the room, at `(3, 5)`, flying to the right with speed 7. -/
def cornerGame : Game :=
  { parkedGame with
    bullet_pool :=
      { objects := { active := true, pos := ⟨3, 5⟩, vel := ⟨7, 0⟩ } :: List.replicate 49 default
        number_actives := 1 }
    asteroid_pool := Pool.empty }

/-- The title screen after a game that has ended at the centre of the room:
`game_state = 0`, the player has 3 lives and is not in safe mode, its shape
cache still holds the triangle around the centre written by the last
`Player::update`, and the asteroid of slot 0 is one step away from the centre. -/
def titleGame : Game :=
  { parkedGame with
    game_state := 0
    asteroid_pool :=
      { objects := rockAt ⟨1023 / 2, 1537 / 4⟩ ⟨1 / 2, -1 / 4⟩ ::
          (List.replicate 7 (rockAt ⟨100, 100⟩ ⟨0, 0⟩) ++ List.replicate 42 default)
        number_actives := 8 }
    player := { pos := ⟨512, 384⟩, shape := centreShape testEnv } }

/-! ## A run with slow asteroids

Definitions for a run from the cold start in the concrete environment in which
both random generators return the same draw at every call, so that every
asteroid is spawned at `(896, 896)` with velocity `(-u, -u)`, `u` about 0.01. -/

/-- The draw of `rand()` for which `RandRangeF(-1, 1)` is `-21474837/2147483647`. -/
def slowDraw : Nat := 1063004405

/-- Random generators that return the same draw at every call: `rand()`
returns `slowDraw` and the generator of `GetRandomValue` returns 0. -/
def slowRand : Rand where
  c_draws := fun _ => slowDraw
  c_used := 0
  ray_draws := fun _ => 0
  ray_used := 0

/-- The speed, in each coordinate, of the asteroids spawned from `slowRand`. -/
def driftSpeed : ℚ := 21474837 / 2147483647

/-- The position of an asteroid spawned from `slowRand` after `k` passes of
the asteroid loop: from `(896, 896)` it is wrapped to `y = 0` in the first
pass and to `y = 768` in the second and then moves up and to the left. -/
def driftPos (k : Nat) : Vector2 :=
  if k = 0 then ⟨896, 896⟩
  else if k = 1 then ⟨896 - driftSpeed, 0⟩
  else ⟨896 - (k : ℚ) * driftSpeed, 768 - ((k : ℚ) - 2) * driftSpeed⟩

/-- The generators `h` produce the same draws as `g`; only the numbers of
draws consumed may differ. -/
def SameDraws (g h : Rand) : Prop :=
  h.c_draws = g.c_draws ∧ h.ray_draws = g.ray_draws

/-- A game in which the player rests at the centre of the room with rotation
0, no bullet is active, eight asteroids are active and `asteroids_max` is 8,
the clock stands at 0, and the random generators draw as `slowRand`. -/
def Calm (s : Game) : Prop :=
  s.asteroids_max = 8 ∧ s.asteroid_pool.number_actives = 8 ∧ s.time_asteroids_increment = 0 ∧
  (∀ b ∈ s.bullet_pool.objects, b.active = false) ∧
  s.player.pos = ⟨512, 384⟩ ∧ s.player.vel = ⟨0, 0⟩ ∧ s.player.rot = 0 ∧ s.player.rot_vel = 0 ∧
  s.player.base_height = 45 ∧
  s.asteroid_pool.objects.length = POOL_SIZE ∧ SameDraws slowRand s.rng

/-- The asteroid of slot 0 is active, has been moved `k` times since it was
spawned from `slowRand`, and its first polar point is its centre. -/
def Drifting (k : Nat) (s : Game) : Prop :=
  ∃ a, s.asteroid_pool.objects[0]? = some a ∧ a.active = true ∧ a.pos = driftPos k ∧
    a.vel = ⟨-driftSpeed, -driftSpeed⟩ ∧ (a.points[0]?).map (fun pp => pp.distance) = some 0

/-- The inputs of a run of `1 + n1 + 1 + n2` passes: the space key is pressed
in the first pass, no key is pressed for `n1` passes, the space key is pressed
again, and no key is pressed for `n2` passes. The clock stands at 0. -/
def shortMatchInputs (n1 n2 : Nat) : List Input :=
  fireInput 0 :: (List.replicate n1 (idleInput 0) ++ fireInput 0 :: List.replicate n2 (idleInput 0))

/-! ## Pool lemmas -/

section PoolLemmas

variable {T : Type} [PoolObject T]

theorem Pool.scan_eq_none {l : List T} : Pool.scan l = none ↔ ∀ x ∈ l, active x = true := by
  induction l with
  | nil => simp [Pool.scan]
  | cons a l ih =>
    cases ha : active a with
    | false => simp [Pool.scan, ha]
    | true =>
      cases hs : Pool.scan l with
      | none =>
        have hall := ih.mp hs
        simp only [Pool.scan, ha, hs]
        simpa using ⟨ha, hall⟩
      | some r =>
        have hne : ¬ ∀ x ∈ l, active x = true := fun h => by simp [ih.mpr h] at hs
        simp only [Pool.scan, ha, hs]
        simp [hne]

theorem Pool.scan_eq_some {l l1 : List T} {i : Nat} (h : Pool.scan l = some (i, l1)) :
    ∃ x, l[i]? = some x ∧ active x = false ∧ l1 = l.set i (setActive x true) ∧
      ∀ j y, j < i → l[j]? = some y → active y = true := by
  induction l generalizing i l1 with
  | nil => simp [Pool.scan] at h
  | cons a l ih =>
    cases ha : active a with
    | false =>
      simp [Pool.scan, ha] at h
      obtain ⟨rfl, rfl⟩ := h
      exact ⟨a, by simp, ha, by simp, fun j y hj => absurd hj (Nat.not_lt_zero j)⟩
    | true =>
      cases hs : Pool.scan l with
      | none => simp [Pool.scan, ha, hs] at h
      | some r =>
        obtain ⟨k, l2⟩ := r
        simp [Pool.scan, ha, hs] at h
        obtain ⟨rfl, rfl⟩ := h
        obtain ⟨x, hx, hax, hl2, hlt⟩ := ih hs
        refine ⟨x, by simpa using hx, hax, by simp [hl2], ?_⟩
        intro j y hj hy
        cases j with
        | zero => simp at hy; subst hy; exact ha
        | succ j => exact hlt j y (by omega) (by simpa using hy)

theorem countP_set_activate {l : List T} {i : Nat} {x : T} (hx : l[i]? = some x)
    (hax : active x = false) :
    (l.set i (setActive x true)).countP (fun o => active o) = l.countP (fun o => active o) + 1 := by
  induction l generalizing i with
  | nil => simp at hx
  | cons a l ih =>
    cases i with
    | zero =>
      simp at hx; subst hx
      simp [List.countP_cons, hax, PoolObject.active_setActive]
    | succ i =>
      simp at hx
      simp [List.countP_cons, ih hx]
      omega

theorem countP_set_deactivate {l : List T} {i : Nat} {x : T} (hx : l[i]? = some x)
    (hax : active x = true) :
    (l.set i (setActive x false)).countP (fun o => active o) + 1 = l.countP (fun o => active o) := by
  induction l generalizing i with
  | nil => simp at hx
  | cons a l ih =>
    cases i with
    | zero =>
      simp at hx; subst hx
      simp [List.countP_cons, hax, PoolObject.active_setActive]
    | succ i =>
      simp at hx
      simp [List.countP_cons, ← ih hx]
      omega

theorem Pool.getObject_none {p : Pool T} (h : ∀ x ∈ p.objects, active x = true) :
    p.getObject = (none, p) := by
  simp [Pool.getObject, Pool.scan_eq_none.mpr h]

theorem Pool.getObject_cases (p : Pool T) :
    ((∀ x ∈ p.objects, active x = true) ∧ p.getObject = (none, p)) ∨
    ∃ i x, p.objects[i]? = some x ∧ active x = false ∧
      (∀ j y, j < i → p.objects[j]? = some y → active y = true) ∧
      p.getObject = (some i, { objects := p.objects.set i (setActive x true),
                               number_actives := p.number_actives + 1 }) := by
  cases hs : Pool.scan p.objects with
  | none => exact Or.inl ⟨Pool.scan_eq_none.mp hs, by simp [Pool.getObject, hs]⟩
  | some r =>
    obtain ⟨i, l1⟩ := r
    obtain ⟨x, hx, hax, hl1, hlt⟩ := Pool.scan_eq_some hs
    exact Or.inr ⟨i, x, hx, hax, hlt, by simp [Pool.getObject, hs, hl1]⟩

theorem Pool.countInv_getObject {p : Pool T} (h : p.CountInv) : p.getObject.2.CountInv := by
  rcases Pool.getObject_cases p with ⟨_, hg⟩ | ⟨i, x, hx, hax, _, hg⟩
  · rw [hg]; exact h
  · rw [hg]
    refine ⟨by simpa using h.1, ?_⟩
    simp only [Pool.activeCount, countP_set_activate hx hax]
    have := h.2
    simp only [Pool.activeCount] at this
    rw [this]; push_cast; ring

theorem Pool.countInv_kill {p : Pool T} (h : p.CountInv) {i : Nat} {x : T}
    (hx : p.objects[i]? = some x) (hax : active x = true) : (p.kill i).CountInv := by
  simp only [Pool.kill, hx]
  refine ⟨by simpa using h.1, ?_⟩
  have hc := countP_set_deactivate hx hax
  have := h.2
  simp only [Pool.activeCount] at this ⊢
  rw [this, ← hc]; push_cast; ring

theorem Pool.countInv_bounds {p : Pool T} (h : p.CountInv) :
    0 ≤ p.number_actives ∧ p.number_actives ≤ 50 := by
  have hle : p.activeCount ≤ p.objects.length := List.countP_le_length _
  rw [h.1] at hle
  rw [h.2]
  simp only [POOL_SIZE] at hle
  omega

theorem Pool.countInv_empty [Inhabited T] (hd : active (default : T) = false) :
    (Pool.empty : Pool T).CountInv := by
  refine ⟨by simp [Pool.empty], ?_⟩
  simp [Pool.empty, Pool.activeCount, List.countP_replicate, hd]

end PoolLemmas

theorem AsteroidClearAll_countInv (p : Pool Asteroid) (h : p.objects.length = POOL_SIZE) :
    (AsteroidClearAll p).CountInv := by
  refine ⟨by simpa [AsteroidClearAll] using h, ?_⟩
  simp only [AsteroidClearAll, Pool.activeCount, List.countP_map]
  have : List.countP ((fun o : Asteroid => active o) ∘
      fun asteroid : Asteroid => { asteroid with active := false, points := [], shape := [] })
      p.objects = 0 := by
    rw [List.countP_eq_zero]
    intro a _
    simp [PoolObject.active]
  rw [this]; rfl

/-- C1. Pool count invariant. The freshly constructed pools satisfy the
invariant "the pool has 50 slots and `number_actives` is the number of slots
whose `active` flag is set"; `getObject`, `kill` applied to an active slot and
`AsteroidClearAll` each preserve it; and under it `number_actives` lies
between 0 and 50. -/
theorem C1_pool_count_invariant :
    ((Pool.empty : Pool Bullet).CountInv ∧ (Pool.empty : Pool Asteroid).CountInv ∧
      (Pool.empty : Pool Particle).CountInv ∧ (Pool.empty : Pool Asteroid).number_actives = 0) ∧
    (∀ (T : Type) [PoolObject T] (p : Pool T), p.CountInv → p.getObject.2.CountInv) ∧
    (∀ (T : Type) [PoolObject T] (p : Pool T) (i : Nat) (x : T),
      p.CountInv → p.objects[i]? = some x → active x = true → (p.kill i).CountInv) ∧
    (∀ p : Pool Asteroid, p.CountInv → (AsteroidClearAll p).CountInv) ∧
    (∀ (T : Type) [PoolObject T] (p : Pool T), p.CountInv →
      p.number_actives = (p.activeCount : Int) ∧ 0 ≤ p.number_actives ∧ p.number_actives ≤ 50) :=
  ⟨⟨Pool.countInv_empty rfl, Pool.countInv_empty rfl, Pool.countInv_empty rfl, rfl⟩,
   fun _ _ _ h => Pool.countInv_getObject h,
   fun _ _ _ _ _ h hx hax => Pool.countInv_kill h hx hax,
   fun p h => AsteroidClearAll_countInv p h.1,
   fun _ _ _ h => ⟨h.2, Pool.countInv_bounds h⟩⟩

/-- The invariant of C1 along a concrete sequence of operations on the bullet
pool: construction, one reservation, release of the reserved slot. -/
theorem C1_pool_count_invariant_witness :
    (Pool.empty : Pool Bullet).getObject.2.CountInv ∧
    ((Pool.empty : Pool Bullet).getObject.2.kill 0).CountInv ∧
    (AsteroidClearAll (Pool.empty : Pool Asteroid).getObject.2).CountInv :=
  ⟨C1_pool_count_invariant.2.1 Bullet _ C1_pool_count_invariant.1.1,
   C1_pool_count_invariant.2.2.1 Bullet _ 0 { active := true }
     (C1_pool_count_invariant.2.1 Bullet _ C1_pool_count_invariant.1.1) rfl rfl,
   C1_pool_count_invariant.2.2.2.1 _
     (C1_pool_count_invariant.2.1 Asteroid _ C1_pool_count_invariant.1.2.1)⟩

/-- C2. `getObject` is `reserve()`. If some slot is inactive, `getObject`
returns the index `i` of the lowest inactive slot, the pool afterwards is the
old one with the `active` flag of slot `i` set (so slot `i` is active and every
other slot is unchanged) and `number_actives` increased by exactly 1. If every
slot is active it returns `none` (`NULL`) and the pool is unchanged. -/
theorem C2_getObject_reserve (T : Type) [PoolObject T] (p : Pool T) :
    ((∃ x ∈ p.objects, active x = false) →
      ∃ i x, p.objects[i]? = some x ∧ active x = false ∧
        (∀ j y, j < i → p.objects[j]? = some y → active y = true) ∧
        p.getObject.1 = some i ∧
        p.getObject.2.objects = p.objects.set i (setActive x true) ∧
        (p.getObject.2.objects[i]?).map active = some true ∧
        (∀ j, j ≠ i → p.getObject.2.objects[j]? = p.objects[j]?) ∧
        p.getObject.2.number_actives = p.number_actives + 1 ∧
        p.getObject.2.activeCount = p.activeCount + 1) ∧
    ((∀ x ∈ p.objects, active x = true) → p.getObject = (none, p)) := by
  refine ⟨?_, Pool.getObject_none⟩
  rintro ⟨x0, hx0, hax0⟩
  rcases Pool.getObject_cases p with ⟨hall, _⟩ | ⟨i, x, hx, hax, hlt, hg⟩
  · rw [hall x0 hx0] at hax0; exact absurd hax0 (by decide)
  · refine ⟨i, x, hx, hax, hlt, by rw [hg], by rw [hg], ?_, ?_, by rw [hg], ?_⟩
    · rw [hg]
      have hi : i < p.objects.length := (List.getElem?_eq_some.mp hx).1
      simp [List.getElem?_set_self hi, PoolObject.active_setActive]
    · intro j hj
      rw [hg]
      exact List.getElem?_set_ne (Ne.symm hj)
    · rw [hg]
      exact countP_set_activate hx hax

/-- C2 at concrete pools of 50 bullets: with slots 0 and 1 active a slot is
reserved and the counter goes from 2 to 3; a full pool yields `none` and is
left as it was. -/
theorem C2_getObject_reserve_witness :
    (∃ i, (Pool.empty : Pool Bullet).getObject.2.getObject.2.getObject.1 = some i ∧
      (Pool.empty : Pool Bullet).getObject.2.getObject.2.getObject.2.number_actives = 2 + 1) ∧
    (({ objects := List.replicate 50 { active := true }, number_actives := 50 } :
        Pool Bullet).getObject =
      (none, { objects := List.replicate 50 { active := true }, number_actives := 50 })) :=
  ⟨by
    obtain ⟨i, x, _, _, _, hi, _, _, _, hn, _⟩ :=
      (C2_getObject_reserve Bullet (Pool.empty : Pool Bullet).getObject.2.getObject.2).1
        ⟨{}, by decide, rfl⟩
    exact ⟨i, hi, hn⟩,
   (C2_getObject_reserve Bullet _).2 (by
        intro x hx; rw [List.eq_of_mem_replicate hx]; rfl)⟩

/-! ## Folds -/

theorem foldl_preserves {α β : Type} (f : β → α → β) (P : β → Prop) (l : List α) (b : β)
    (hb : P b) (hstep : ∀ b a, P b → P (f b a)) : P (l.foldl f b) := by
  induction l generalizing b with
  | nil => exact hb
  | cons a l ih => exact ih (f b a) (hstep b a hb)

/-! ## The player through the phases of a pass -/

theorem Player.update_lives (env : Env) (p : Player) : (p.update env).lives = p.lives := by
  unfold Player.update
  simp only
  split <;> rfl

theorem Player.update_safe_mode (env : Env) (p : Player) :
    (p.update env).safe_mode = (p.safe_mode && !(decide (0 = p.safe_mode_count - 1))) := by
  unfold Player.update
  cases h : p.safe_mode <;> simp [h]

theorem Player.update_safe_mode_count (env : Env) (p : Player) :
    (p.update env).safe_mode_count =
      if p.safe_mode then p.safe_mode_count - 1 else p.safe_mode_count := by
  unfold Player.update
  cases h : p.safe_mode <;> simp [h]

theorem applyKeys_frame (env : Env) (inp : Input) (p : Player) :
    (applyKeys env inp p).lives = p.lives ∧ (applyKeys env inp p).safe_mode = p.safe_mode ∧
    (applyKeys env inp p).safe_mode_count = p.safe_mode_count ∧
    (applyKeys env inp p).pos = p.pos := by
  unfold applyKeys
  simp only
  split <;> split <;> split <;> exact ⟨rfl, rfl, rfl, rfl⟩

theorem topUp_frame (env : Env) (s : Game) :
    (topUp env s).game_state = s.game_state ∧ (topUp env s).score = s.score ∧
    (topUp env s).player = s.player ∧ (topUp env s).time_shoot = s.time_shoot ∧
    (topUp env s).bullet_pool = s.bullet_pool ∧ (topUp env s).particle_pool = s.particle_pool ∧
    (topUp env s).asteroids_max = s.asteroids_max ∧
    (topUp env s).time_asteroids_increment = s.time_asteroids_increment := by
  unfold topUp
  split <;> simp

theorem maxIncrement_frame (inp : Input) (s : Game) :
    (maxIncrement inp s).game_state = s.game_state ∧ (maxIncrement inp s).score = s.score ∧
    (maxIncrement inp s).player = s.player ∧ (maxIncrement inp s).time_shoot = s.time_shoot ∧
    (maxIncrement inp s).bullet_pool = s.bullet_pool ∧
    (maxIncrement inp s).particle_pool = s.particle_pool ∧
    (maxIncrement inp s).asteroid_pool = s.asteroid_pool ∧ (maxIncrement inp s).rng = s.rng := by
  unfold maxIncrement
  split <;> simp

theorem shoot_frame (env : Env) (inp : Input) (s : Game) :
    (shoot env inp s).game_state = s.game_state ∧ (shoot env inp s).score = s.score ∧
    (shoot env inp s).player = s.player ∧ (shoot env inp s).asteroid_pool = s.asteroid_pool ∧
    (shoot env inp s).particle_pool = s.particle_pool ∧ (shoot env inp s).rng = s.rng ∧
    (shoot env inp s).asteroids_max = s.asteroids_max ∧
    (shoot env inp s).time_asteroids_increment = s.time_asteroids_increment := by
  unfold shoot
  split <;> simp

theorem shoot_time_shoot (env : Env) (inp : Input) (s : Game) :
    (shoot env inp s).time_shoot =
      if shotAdmitted inp s then inp.time_shoot_set else s.time_shoot := by
  unfold shoot
  split <;> simp

theorem playingPhase_game_state (env : Env) (inp : Input) (s : Game) :
    (playingPhase env inp s).game_state = s.game_state := by
  unfold playingPhase
  split
  · simp [(shoot_frame _ _ _).1, (maxIncrement_frame _ _).1, (topUp_frame _ _).1]
  · rfl

theorem playingPhase_score (env : Env) (inp : Input) (s : Game) :
    (playingPhase env inp s).score = s.score := by
  unfold playingPhase
  split
  · simp [(shoot_frame _ _ _).2.1, (maxIncrement_frame _ _).2.1, (topUp_frame _ _).2.1]
  · rfl

theorem playingPhase_player (env : Env) (inp : Input) (s : Game) :
    (playingPhase env inp s).player =
      if 1 = s.game_state then (applyKeys env inp s.player).update env else s.player := by
  unfold playingPhase
  split
  · simp [(shoot_frame _ _ _).2.2.1, (maxIncrement_frame _ _).2.2.1, (topUp_frame _ _).2.2.1]
  · rfl

theorem playingPhase_time_shoot (env : Env) (inp : Input) (s : Game) :
    (playingPhase env inp s).time_shoot =
      if 1 = s.game_state ∧ shotAdmitted inp s = true then inp.time_shoot_set
      else s.time_shoot := by
  unfold playingPhase
  by_cases h : 1 = s.game_state
  · simp only [h, if_true, true_and, shoot_time_shoot]
    simp [shotAdmitted, (maxIncrement_frame _ _).2.2.2.1, (topUp_frame _ _).2.2.2.1]
  · simp [h]

theorem fragment_frame (env : Env) (ai : Nat) (s : Game) :
    BulletFrame s (fragment env ai s) ∧ (fragment env ai s).score = s.score ∧
    (fragment env ai s).bullet_pool = s.bullet_pool ∧
    (fragment env ai s).particle_pool = s.particle_pool := by
  unfold fragment BulletFrame
  split <;> simp

theorem hitAsteroid_frame (env : Env) (bi ai : Nat) (s : Game) :
    BulletFrame s (hitAsteroid env bi ai s) ∧ (hitAsteroid env bi ai s).score = s.score + 1 ∧
    (hitAsteroid env bi ai s).bullet_pool = s.bullet_pool.kill bi := by
  unfold hitAsteroid
  simp only
  generalize hs1 : ({ s with
      bullet_pool := s.bullet_pool.kill bi
      score := s.score + 1
      particle_pool := _
      rng := _ } : Game) = s1
  have h := fragment_frame env ai s1
  have e1 : s1.player = s.player := by rw [← hs1]
  have e2 : s1.game_state = s.game_state := by rw [← hs1]
  have e3 : s1.time_shoot = s.time_shoot := by rw [← hs1]
  have e4 : s1.asteroids_max = s.asteroids_max := by rw [← hs1]
  have e5 : s1.time_asteroids_increment = s.time_asteroids_increment := by rw [← hs1]
  have e6 : s1.score = s.score + 1 := by rw [← hs1]
  have e7 : s1.bullet_pool = s.bullet_pool.kill bi := by rw [← hs1]
  obtain ⟨⟨h1, h2, h3, h4, h5⟩, h6, h7, _⟩ := h
  refine ⟨⟨?_, ?_, ?_, ?_, ?_⟩, ?_, ?_⟩ <;> simp [*]

theorem bulletStep_none {env : Env} {bi : Nat} {s : Game}
    (hb : s.bullet_pool.objects[bi]? = none) : bulletStep env bi s = s := by
  simp [bulletStep, hb]

theorem bulletStep_inactive {env : Env} {bi : Nat} {s : Game} {b : Bullet}
    (hb : s.bullet_pool.objects[bi]? = some b) (ha : b.active = false) :
    bulletStep env bi s = s := by
  simp [bulletStep, hb, ha]

theorem bulletStep_out {env : Env} {bi : Nat} {s : Game} {b : Bullet}
    (hb : s.bullet_pool.objects[bi]? = some b) (ha : b.active = true)
    (hr : env.CheckCollisionPointRec (Vector2Add b.pos b.vel) arena = false) :
    bulletStep env bi s =
      { moveBullet bi b s with bullet_pool := (moveBullet bi b s).bullet_pool.kill bi } := by
  simp [bulletStep, hb, ha, hr]

theorem bulletStep_miss {env : Env} {bi : Nat} {s : Game} {b : Bullet}
    (hb : s.bullet_pool.objects[bi]? = some b) (ha : b.active = true)
    (hr : env.CheckCollisionPointRec (Vector2Add b.pos b.vel) arena = true)
    (hf : findHit env (Vector2Add b.pos b.vel) s.asteroid_pool.objects = none) :
    bulletStep env bi s = moveBullet bi b s := by
  have hf1 : findHit env (Vector2Add b.pos b.vel) (moveBullet bi b s).asteroid_pool.objects = none := hf
  simp [bulletStep, hb, ha, hr, hf1]

theorem bulletStep_hit {env : Env} {bi ai : Nat} {s : Game} {b : Bullet}
    (hb : s.bullet_pool.objects[bi]? = some b) (ha : b.active = true)
    (hr : env.CheckCollisionPointRec (Vector2Add b.pos b.vel) arena = true)
    (hf : findHit env (Vector2Add b.pos b.vel) s.asteroid_pool.objects = some ai) :
    bulletStep env bi s = hitAsteroid env bi ai (moveBullet bi b s) := by
  have hf1 : findHit env (Vector2Add b.pos b.vel) (moveBullet bi b s).asteroid_pool.objects = some ai := hf
  simp [bulletStep, hb, ha, hr, hf1]

theorem bulletStep_frame (env : Env) (bi : Nat) (s : Game) :
    BulletFrame s (bulletStep env bi s) ∧
    (bulletStep env bi s).score = s.score + (if bulletHits env bi s then 1 else 0) := by
  cases hb : s.bullet_pool.objects[bi]? with
  | none => rw [bulletStep_none hb]; simp [BulletFrame, bulletHits, hb]
  | some b =>
    rcases Bool.eq_false_or_eq_true b.active with ha | ha
    · rcases Bool.eq_false_or_eq_true (env.CheckCollisionPointRec (Vector2Add b.pos b.vel) arena)
        with hr | hr
      · cases hf : findHit env (Vector2Add b.pos b.vel) s.asteroid_pool.objects with
        | none =>
          rw [bulletStep_miss hb ha hr hf]
          simp [BulletFrame, bulletHits, hb, hf, moveBullet]
        | some ai =>
          rw [bulletStep_hit hb ha hr hf]
          obtain ⟨hfr, h6, _⟩ := hitAsteroid_frame env bi ai (moveBullet bi b s)
          refine ⟨hfr, ?_⟩
          rw [h6]
          simp [bulletHits, hb, ha, hr, hf, moveBullet]
      · rw [bulletStep_out hb ha hr]
        simp [BulletFrame, bulletHits, hb, hr, moveBullet]
    · rw [bulletStep_inactive hb ha]
      simp [BulletFrame, bulletHits, hb, ha]

theorem bulletStep_score_le (env : Env) (bi : Nat) (s : Game) :
    s.score ≤ (bulletStep env bi s).score ∧ (bulletStep env bi s).score ≤ s.score + 1 := by
  rw [(bulletStep_frame env bi s).2]
  split <;> omega

theorem bulletPhase_frame (env : Env) (s : Game) :
    BulletFrame s (bulletPhase env s) ∧ s.score ≤ (bulletPhase env s).score := by
  unfold bulletPhase
  refine foldl_preserves (fun st bi => bulletStep env bi st)
    (fun t => BulletFrame s t ∧ s.score ≤ t.score) _ s ⟨⟨rfl, rfl, rfl, rfl, rfl⟩, le_refl _⟩ ?_
  intro t bi ⟨⟨h1, h2, h3, h4, h5⟩, h6⟩
  obtain ⟨⟨g1, g2, g3, g4, g5⟩, _⟩ := bulletStep_frame env bi t
  have := (bulletStep_score_le env bi t).1
  exact ⟨⟨g1.trans h1, g2.trans h2, g3.trans h3, g4.trans h4, g5.trans h5⟩, le_trans h6 this⟩

/-! ### Asteroid loop -/

theorem KillStep_refl (p : Player) : KillStep p p := Or.inl rfl

theorem KillStep_trans {p q r : Player} (h1 : KillStep p q) (h2 : KillStep q r) : KillStep p r := by
  rcases h1 with rfl | ⟨hp, rfl⟩
  · exact h2
  · rcases h2 with rfl | ⟨hq, _⟩
    · exact Or.inr ⟨hp, rfl⟩
    · simp [Player.kill] at hq

theorem vertexStep_player (env : Env) (i : Nat) (st : VertexState) :
    KillStep st.player (vertexStep env i st).player := by
  unfold vertexStep
  simp only
  split
  · rename_i h
    simp only [Bool.and_eq_true, Bool.not_eq_true'] at h
    exact Or.inr ⟨h.1, rfl⟩
  · exact Or.inl rfl

theorem asteroidStep_frame (env : Env) (ai : Nat) (s : Game) :
    AsteroidFrame s (asteroidStep env ai s) ∧ KillStep s.player (asteroidStep env ai s).player := by
  unfold asteroidStep
  cases ha : s.asteroid_pool.objects[ai]? with
  | none => exact ⟨⟨rfl, rfl, rfl, rfl, rfl, rfl⟩, KillStep_refl _⟩
  | some asteroid =>
    simp only
    split
    · exact ⟨⟨rfl, rfl, rfl, rfl, rfl, rfl⟩, KillStep_refl _⟩
    · refine ⟨⟨rfl, rfl, rfl, rfl, rfl, rfl⟩, ?_⟩
      simp only
      exact foldl_preserves (fun st i => vertexStep env i st)
        (fun st => KillStep s.player st.player) _ _ (KillStep_refl _)
        (fun st i h => KillStep_trans h (vertexStep_player env i st))

theorem asteroidPhase_frame (env : Env) (s : Game) :
    AsteroidFrame s (asteroidPhase env s) ∧ KillStep s.player (asteroidPhase env s).player := by
  unfold asteroidPhase
  refine foldl_preserves (fun st ai => asteroidStep env ai st)
    (fun t => AsteroidFrame s t ∧ KillStep s.player t.player) _ s
    ⟨⟨rfl, rfl, rfl, rfl, rfl, rfl⟩, KillStep_refl _⟩ ?_
  intro t ai ⟨⟨h1, h2, h3, h4, h5, h6⟩, hk⟩
  obtain ⟨⟨g1, g2, g3, g4, g5, g6⟩, gk⟩ := asteroidStep_frame env ai t
  exact ⟨⟨g1.trans h1, g2.trans h2, g3.trans h3, g4.trans h4, g5.trans h5, g6.trans h6⟩,
    KillStep_trans hk gk⟩

/-! ### The remaining phases -/

theorem gameOverCheck_spec (s : Game) :
    (gameOverCheck s).player = s.player ∧ (gameOverCheck s).score = s.score ∧
    (gameOverCheck s).game_state = (if 0 = s.player.lives then 2 else s.game_state) ∧
    (gameOverCheck s).time_shoot = s.time_shoot := by
  unfold gameOverCheck
  split <;> simp

theorem startMatch_spec (env : Env) (inp : Input) (s : Game) :
    (startMatch env inp s).player = s.player ∧
    (startMatch env inp s).time_shoot = s.time_shoot ∧
    (startMatch env inp s).game_state =
      (if 0 = s.game_state ∧ inp.key_space_pressed = true then 1 else s.game_state) ∧
    (startMatch env inp s).score =
      (if 0 = s.game_state ∧ inp.key_space_pressed = true then 0 else s.score) := by
  unfold startMatch
  by_cases h0 : 0 = s.game_state <;> by_cases hp : inp.key_space_pressed = true <;> simp [h0, hp]

theorem resetGame_spec (env : Env) (inp : Input) (s : Game) :
    (resetGame env inp s).score = s.score ∧
    (resetGame env inp s).time_shoot = s.time_shoot ∧
    (resetGame env inp s).game_state =
      (if 2 = s.game_state ∧ inp.key_space_pressed = true then 0 else s.game_state) ∧
    (resetGame env inp s).player =
      (if 2 = s.game_state ∧ inp.key_space_pressed = true then resetPlayer s.player
       else s.player) := by
  unfold resetGame
  by_cases h0 : 2 = s.game_state <;> by_cases hp : inp.key_space_pressed = true <;>
    simp [h0, hp, resetPlayer]

theorem drawPhase_spec (env : Env) (inp : Input) (s : Game) :
    (drawPhase env inp s).time_shoot = s.time_shoot ∧
    (drawPhase env inp s).game_state =
      (if 0 = s.game_state ∧ inp.key_space_pressed = true then 1
       else if 2 = s.game_state ∧ inp.key_space_pressed = true then 0 else s.game_state) ∧
    (drawPhase env inp s).player =
      (if 2 = s.game_state ∧ inp.key_space_pressed = true then resetPlayer s.player
       else s.player) ∧
    (drawPhase env inp s).score =
      (if 0 = s.game_state ∧ inp.key_space_pressed = true then 0 else s.score) := by
  unfold drawPhase
  obtain ⟨a1, a2, a3, a4⟩ := startMatch_spec env inp s
  obtain ⟨b1, b2, b3, b4⟩ := resetGame_spec env inp (startMatch env inp s)
  rw [b1, b2, b3, b4, a1, a2, a3, a4]
  by_cases h0 : 0 = s.game_state <;> by_cases hp : inp.key_space_pressed = true <;>
    by_cases h2 : 2 = s.game_state <;> simp [h0, hp, h2]
  all_goals omega

theorem tick_eq (env : Env) (inp : Input) (s : Game) :
    tick env inp s = drawPhase env inp (beforeDraw env inp s) := rfl

theorem particlePhase_spec (s : Game) :
    (particlePhase s).player = s.player ∧ (particlePhase s).game_state = s.game_state ∧
    (particlePhase s).score = s.score ∧ (particlePhase s).time_shoot = s.time_shoot := by
  unfold particlePhase
  exact ⟨rfl, rfl, rfl, rfl⟩

theorem beforeDraw_spec (env : Env) (inp : Input) (s : Game) :
    KillStep (playerAfterUpdate env inp s) (beforeDraw env inp s).player ∧
    (beforeDraw env inp s).game_state =
      (if 0 = (beforeDraw env inp s).player.lives then 2 else s.game_state) ∧
    s.score ≤ (beforeDraw env inp s).score ∧
    (beforeDraw env inp s).time_shoot = (playingPhase env inp s).time_shoot := by
  unfold beforeDraw
  obtain ⟨p1, p2, p3, p4⟩ := particlePhase_spec
    (gameOverCheck (asteroidPhase env (bulletPhase env (playingPhase env inp s))))
  obtain ⟨g1, g2, g3, g4⟩ := gameOverCheck_spec
    (asteroidPhase env (bulletPhase env (playingPhase env inp s)))
  obtain ⟨⟨a1, a2, a3, _⟩, ak⟩ := asteroidPhase_frame env (bulletPhase env (playingPhase env inp s))
  obtain ⟨⟨b1, b2, b3, _⟩, bs⟩ := bulletPhase_frame env (playingPhase env inp s)
  rw [p1, p2, p3, p4, g1, g2, g3, g4, a1, a2, a3, b2, b3, playingPhase_game_state]
  rw [b1, playingPhase_player] at ak
  rw [playingPhase_score] at bs
  exact ⟨ak, rfl, bs, rfl⟩

/-! ### Safe mode and lives along a run -/

theorem SafeInv_update {p : Player} (env : Env) (h : SafeInv p) : SafeInv (p.update env) := by
  unfold SafeInv at *
  rw [Player.update_safe_mode, Player.update_safe_mode_count]
  cases hs : p.safe_mode with
  | false =>
    rw [hs] at h
    simpa using h
  | true =>
    have hpos := h.mp hs
    simp
    omega

theorem SafeInv_applyKeys {p : Player} (env : Env) (inp : Input) (h : SafeInv p) :
    SafeInv (applyKeys env inp p) := by
  obtain ⟨_, h2, h3, _⟩ := applyKeys_frame env inp p
  unfold SafeInv at *
  rw [h2, h3]; exact h

theorem SafeInv_kill (p : Player) : SafeInv p.kill := by
  simp [SafeInv, Player.kill, PLAYER_TIME_INVUL]

theorem SafeInv_resetPlayer (p : Player) : SafeInv (resetPlayer p) := by
  simp [SafeInv, AsteroidGame.resetPlayer]

theorem SafeInv_tick {s : Game} (env : Env) (inp : Input) (h : SafeInv s.player) :
    SafeInv (tick env inp s).player := by
  rw [tick_eq, (drawPhase_spec env inp _).2.2.1]
  split
  · exact SafeInv_resetPlayer _
  · have h1 : SafeInv (playerAfterUpdate env inp s) := by
      unfold playerAfterUpdate
      split
      · exact SafeInv_update env (SafeInv_applyKeys env inp h)
      · exact h
    rcases (beforeDraw_spec env inp s).1 with e | ⟨_, e⟩
    · rw [e]; exact h1
    · rw [e]; exact SafeInv_kill _

theorem initGame_player (env : Env) (t1 t2 : ℚ) (g : Rand) :
    (initGame env t1 t2 g).player =
      { pos := ⟨((WINDOW_WIDTH / 2 : Int) : ℚ), ((WINDOW_HEIGHT / 2 : Int) : ℚ)⟩ } := by
  unfold initGame
  rfl

theorem initGame_game_state (env : Env) (t1 t2 : ℚ) (g : Rand) :
    (initGame env t1 t2 g).game_state = 0 := by
  unfold initGame
  rfl

theorem Reachable.safeInv {env : Env} {s : Game} (h : Reachable env s) : SafeInv s.player := by
  induction h with
  | init t1 t2 g => rw [initGame_player]; simp [SafeInv]
  | step inp s _ ih => exact SafeInv_tick env inp ih

theorem playerAfterUpdate_lives (env : Env) (inp : Input) (s : Game) :
    (playerAfterUpdate env inp s).lives = s.player.lives := by
  unfold playerAfterUpdate
  split
  · rw [Player.update_lives, (applyKeys_frame env inp s.player).1]
  · rfl

theorem LivesInv_tick {s : Game} (env : Env) (inp : Input) (h : LivesInv s) :
    LivesInv (tick env inp s) := by
  obtain ⟨h0, h3, hz, hg⟩ := h
  obtain ⟨hk, hgs, _, _⟩ := beforeDraw_spec env inp s
  obtain ⟨_, dgs, dpl, _⟩ := drawPhase_spec env inp (beforeDraw env inp s)
  have hl1 := playerAfterUpdate_lives env inp s
  have hp1 : s.game_state = 2 → playerAfterUpdate env inp s = s.player := by
    intro h2
    unfold playerAfterUpdate
    rw [if_neg (by omega)]
  -- the player before the drawing block
  have key : 0 ≤ (beforeDraw env inp s).player.lives ∧ (beforeDraw env inp s).player.lives ≤ 3 ∧
      ((beforeDraw env inp s).game_state = 2 → (beforeDraw env inp s).player.safe_mode = true) ∧
      ((beforeDraw env inp s).player.lives = 0 → (beforeDraw env inp s).game_state = 2) := by
    rw [hgs]
    rcases hk with e | ⟨hns, e⟩
    · rw [e, hl1]
      refine ⟨h0, h3, ?_, ?_⟩
      · intro h2
        have : s.game_state = 2 := by
          by_cases hl : 0 = s.player.lives
          · exact hz hl.symm
          · simpa [hl] using h2
        rw [hp1 this]; exact hg this
      · intro hl; simp [hl]
    · have hne : s.game_state ≠ 2 := by
        intro h2
        rw [hp1 h2, hg h2] at hns
        exact absurd hns (by decide)
      have hl : s.player.lives ≠ 0 := fun hl => hne (hz hl)
      rw [e]
      simp only [Player.kill, hl1]
      refine ⟨by omega, by omega, fun _ => trivial, ?_⟩
      intro hl0; simp [hl0]
  obtain ⟨k0, k3, kg, kz⟩ := key
  rw [tick_eq]
  unfold LivesInv
  rw [dgs, dpl]
  by_cases hr : 2 = (beforeDraw env inp s).game_state ∧ inp.key_space_pressed = true
  · have h20 : ¬ (0 = (beforeDraw env inp s).game_state ∧ inp.key_space_pressed = true) := by
      intro h; omega
    rw [if_neg h20, if_pos hr, if_pos hr]
    refine ⟨by simp [resetPlayer], by simp [resetPlayer], by simp [resetPlayer], ?_⟩
    intro h; omega
  · rw [if_neg hr, if_neg hr]
    refine ⟨k0, k3, ?_, ?_⟩
    · intro hl
      have h2 := kz hl
      have hnp : ¬ inp.key_space_pressed = true := fun hp => hr ⟨h2.symm, hp⟩
      rw [if_neg (fun h => hnp h.2)]
      exact h2
    · intro h2
      apply kg
      by_cases h01 : 0 = (beforeDraw env inp s).game_state ∧ inp.key_space_pressed = true
      · rw [if_pos h01] at h2; omega
      · rw [if_neg h01] at h2; exact h2

theorem Reachable.livesInv {env : Env} {s : Game} (h : Reachable env s) : LivesInv s := by
  induction h with
  | init t1 t2 g =>
    unfold LivesInv
    rw [initGame_player, initGame_game_state]
    simp
  | step inp s _ ih => exact LivesInv_tick env inp ih

/-! ## Fragmentation (C3) -/

theorem createShapeLoop_frame (env : Env) (sz : AsteroidShape) (d : ℚ) (count i : Nat)
    (a : Asteroid) (g : Rand) :
    (Asteroid.createShapeLoop env sz d count i a g).1.active = a.active ∧
    (Asteroid.createShapeLoop env sz d count i a g).1.pos = a.pos ∧
    (Asteroid.createShapeLoop env sz d count i a g).1.size = a.size := by
  induction count generalizing i a g with
  | zero => exact ⟨rfl, rfl, rfl⟩
  | succ count ih =>
    unfold Asteroid.createShapeLoop
    simp only
    obtain ⟨h1, h2, h3⟩ := ih (i + 1)
      { a with
        points := a.points ++ [⟨d * ((i : ℚ) - 1) * env.DEG2RAD,
          (RandRangeF env 32 64 g).1 / (sz.toInt : ℚ)⟩]
        shape := a.shape.set i
          ⟨(RandRangeF env 32 64 g).1 / (sz.toInt : ℚ) * env.cosf (d * ((i : ℚ) - 1) * env.DEG2RAD),
           (RandRangeF env 32 64 g).1 / (sz.toInt : ℚ) *
             -(env.sinf (d * ((i : ℚ) - 1) * env.DEG2RAD))⟩ }
      (RandRangeF env 32 64 g).2
    exact ⟨h1, h2, h3⟩

theorem createShape_frame (env : Env) (a : Asteroid) (sz : AsteroidShape) (g : Rand) :
    (a.createShape env sz g).1.active = a.active ∧ (a.createShape env sz g).1.pos = a.pos ∧
    (a.createShape env sz g).1.size = sz := by
  unfold Asteroid.createShape
  simp only
  generalize hn : (GetRandomValue 6 10 g).1 + 2 = n
  generalize ha1 : ({ a with
      size := sz
      points := a.points ++ [⟨0, 0⟩]
      shape := (List.replicate n.toNat (⟨0, 0⟩ : Vector2)).set 0 Vector2Zero } : Asteroid) = a1
  obtain ⟨h1, h2, h3⟩ := createShapeLoop_frame env sz (360 / ((n - 2 : Int) : ℚ)) (n - 2).toNat 1 a1
    (GetRandomValue 6 10 g).2
  have e1 : a1.active = a.active := by rw [← ha1]
  have e2 : a1.pos = a.pos := by rw [← ha1]
  have e3 : a1.size = sz := by rw [← ha1]
  exact ⟨h1.trans e1, h2.trans e2, h3.trans e3⟩

/-- What `AsteroidRevive` does to the pool: nothing when every slot is active;
otherwise the lowest inactive slot `i` is replaced by an active asteroid of the
requested size, placed at `(x, y)` in each coordinate that is not 0. -/
theorem AsteroidRevive_spec (env : Env) (pool : Pool Asteroid) (sz : AsteroidShape) (x y : Int)
    (g : Rand) :
    ((∀ a ∈ pool.objects, a.active = true) ∧
      (AsteroidRevive env pool sz x y g).2.1 = pool) ∨
    ∃ i a b, pool.objects[i]? = some a ∧ a.active = false ∧
      (∀ j c, j < i → pool.objects[j]? = some c → c.active = true) ∧
      (AsteroidRevive env pool sz x y g).1 = some i ∧
      (AsteroidRevive env pool sz x y g).2.1 =
        { objects := pool.objects.set i b, number_actives := pool.number_actives + 1 } ∧
      b.active = true ∧ b.size = sz ∧ (x ≠ 0 → b.pos.x = (x : ℚ)) ∧ (y ≠ 0 → b.pos.y = (y : ℚ)) := by
  rcases Pool.getObject_cases pool with ⟨hall, hg⟩ | ⟨i, a, ha, hact, hlt, hg⟩
  · left
    refine ⟨hall, ?_⟩
    unfold AsteroidRevive
    rw [hg]
  · right
    have hi : i < pool.objects.length := (List.getElem?_eq_some.mp ha).1
    unfold AsteroidRevive
    rw [hg]
    simp only [List.set_set]
    refine ⟨i, a, _, ha, hact, hlt, rfl, rfl, ?_, ?_, ?_, ?_⟩
    · simp only
      rw [(createShape_frame env _ sz _).1]
      simp [Asteroid.deleteShape, List.getD_eq_getElem?_getD, List.getElem?_set_self hi,
        PoolObject.setActive]
    · simp only
      rw [(createShape_frame env _ sz _).2.2]
    · intro hx
      simp only
      rw [(createShape_frame env _ sz _).2.1]
      simp [Asteroid.deleteShape, if_neg (Ne.symm hx)]
    · intro hy
      simp only
      rw [(createShape_frame env _ sz _).2.1]
      simp [Asteroid.deleteShape, if_neg (Ne.symm hy)]

theorem findHit_some {env : Env} {pt : Vector2} {l : List Asteroid} {i : Nat}
    (h : findHit env pt l = some i) : ∃ a, l[i]? = some a ∧ a.active = true := by
  induction l generalizing i with
  | nil => simp [findHit] at h
  | cons a l ih =>
    unfold findHit at h
    split at h
    · rename_i hc
      cases h
      simp only [Bool.and_eq_true] at hc
      exact ⟨a, by simp, hc.1⟩
    · cases hf : findHit env pt l with
      | none => rw [hf] at h; cases h
      | some k =>
        rw [hf] at h
        cases h
        obtain ⟨b, hb, hbact⟩ := ih hf
        exact ⟨b, by simpa using hb, hbact⟩

theorem countP_set_of_inactive {T : Type} [PoolObject T] {l : List T} {i : Nat} {x b : T}
    (hx : l[i]? = some x) (hax : active x = false) (hb : active b = true) :
    (l.set i b).countP (fun o => active o) = l.countP (fun o => active o) + 1 := by
  induction l generalizing i with
  | nil => simp at hx
  | cons a l ih =>
    cases i with
    | zero =>
      simp at hx; subst hx
      simp [List.countP_cons, hax, hb]
    | succ i =>
      simp at hx
      simp [List.countP_cons, ih hx]
      omega

theorem countP_set_of_active {T : Type} [PoolObject T] {l : List T} {i : Nat} {x b : T}
    (hx : l[i]? = some x) (hax : active x = true) (hb : active b = false) :
    (l.set i b).countP (fun o => active o) + 1 = l.countP (fun o => active o) := by
  induction l generalizing i with
  | nil => simp at hx
  | cons a l ih =>
    cases i with
    | zero =>
      simp at hx; subst hx
      simp [List.countP_cons, hax, hb]
    | succ i =>
      simp at hx
      simp [List.countP_cons, ← ih hx]
      omega

theorem exists_inactive_of_count {T : Type} [PoolObject T] {l : List T}
    (h : l.countP (fun o => active o) < l.length) : ¬ ∀ a ∈ l, active a = true := by
  intro hall
  have : l.countP (fun o => active o) = l.length := by
    rw [List.countP_eq_length]
    intro a ha
    simpa using hall a ha
  omega

/-- The two revivals of lines 377-378 when the pool has two free slots and the
hit asteroid, `Normal` and at a position whose coordinates do not convert to
the integer 0, sits in the active slot `ai`. -/
theorem fragment_spec (env : Env) (ai : Nat) (s : Game) (a : Asteroid)
    (ha : s.asteroid_pool.objects[ai]? = some a) (hact : a.active = true)
    (hnormal : a.size = .Normal)
    (hfree : s.asteroid_pool.activeCount + 2 ≤ s.asteroid_pool.objects.length)
    (hx : floatToInt a.pos.x ≠ 0) (hy : floatToInt a.pos.y ≠ 0) :
    ∃ i j b1 b2, i ≠ j ∧ i ≠ ai ∧ j ≠ ai ∧
      (s.asteroid_pool.objects[i]?).map (fun o => o.active) = some false ∧
      (s.asteroid_pool.objects[j]?).map (fun o => o.active) = some false ∧
      (fragment env ai s).asteroid_pool =
        { objects := (s.asteroid_pool.objects.set i b1).set j b2,
          number_actives := s.asteroid_pool.number_actives + 1 + 1 } ∧
      (b1.active = true ∧ b1.size = .Tiny ∧ b1.pos.x = (floatToInt a.pos.x : ℚ) ∧
        b1.pos.y = (floatToInt a.pos.y : ℚ)) ∧
      (b2.active = true ∧ b2.size = .Tiny ∧ b2.pos.x = (floatToInt a.pos.x : ℚ) ∧
        b2.pos.y = (floatToInt a.pos.y : ℚ)) := by
  have hgd : s.asteroid_pool.objects.getD ai default = a := by
    rw [List.getD_eq_getElem?_getD, ha]; rfl
  have hcount : s.asteroid_pool.objects.countP (fun o => active o) + 2 ≤
      s.asteroid_pool.objects.length := hfree
  unfold fragment
  rw [hgd, if_pos hnormal.symm]
  simp only
  rcases AsteroidRevive_spec env s.asteroid_pool .Tiny (floatToInt a.pos.x) (floatToInt a.pos.y)
    s.rng with ⟨hall, _⟩ | ⟨i, a1, b1, ha1, hact1, _, _, hp1, hb1a, hb1s, hb1x, hb1y⟩
  · exact absurd hall (exists_inactive_of_count (by omega))
  · have hiai : i ≠ ai := by
      intro h
      rw [h, ha] at ha1
      cases ha1
      rw [hact] at hact1
      cases hact1
    rw [hp1]
    have hgd1 : (s.asteroid_pool.objects.set i b1).getD ai default = a := by
      rw [List.getD_eq_getElem?_getD, List.getElem?_set_ne hiai, ha]; rfl
    simp only [hgd1]
    have hc1 := countP_set_of_inactive (b := b1) ha1 hact1 hb1a
    have hi : i < s.asteroid_pool.objects.length := (List.getElem?_eq_some.mp ha1).1
    rcases AsteroidRevive_spec env
        { objects := s.asteroid_pool.objects.set i b1,
          number_actives := s.asteroid_pool.number_actives + 1 }
        .Tiny (floatToInt a.pos.x) (floatToInt a.pos.y)
        (AsteroidRevive env s.asteroid_pool .Tiny (floatToInt a.pos.x) (floatToInt a.pos.y)
          s.rng).2.2 with
      ⟨hall, _⟩ | ⟨j, a2, b2, ha2, hact2, _, _, hp2, hb2a, hb2s, hb2x, hb2y⟩
    · refine absurd hall (exists_inactive_of_count ?_)
      simp only [List.length_set]
      omega
    · simp only at ha2
      have hji : j ≠ i := by
        intro h
        rw [h, List.getElem?_set_self hi] at ha2
        cases ha2
        rw [hb1a] at hact2
        cases hact2
      rw [List.getElem?_set_ne (Ne.symm hji)] at ha2
      have hjai : j ≠ ai := by
        intro h
        rw [h, ha] at ha2
        cases ha2
        rw [hact] at hact2
        cases hact2
      refine ⟨i, j, b1, b2, Ne.symm hji, hiai, hjai, by rw [ha1]; simp [hact1],
        by rw [ha2]; simp [hact2], ?_, ⟨hb1a, hb1s, hb1x hx, hb1y hy⟩,
        ⟨hb2a, hb2s, hb2x hx, hb2y hy⟩⟩
      rw [hp2]

theorem Vector2_eq_of {v : Vector2} {x y : ℚ} (hx : v.x = x) (hy : v.y = y) : v = ⟨x, y⟩ := by
  cases v
  simp only at hx hy
  rw [hx, hy]

/-- The pass of the bullet loop in which bullet `bi` hits the `Normal` asteroid
of slot `ai`, with two free slots in the asteroid pool. -/
theorem bulletStep_fragment (env : Env) (s : Game) (bi ai : Nat) (b : Bullet) (a : Asteroid)
    (hb : s.bullet_pool.objects[bi]? = some b) (hbact : b.active = true)
    (hroom : env.CheckCollisionPointRec (Vector2Add b.pos b.vel) arena = true)
    (hhit : findHit env (Vector2Add b.pos b.vel) s.asteroid_pool.objects = some ai)
    (ha : s.asteroid_pool.objects[ai]? = some a) (hnormal : a.size = .Normal)
    (hfree : s.asteroid_pool.activeCount + 2 ≤ s.asteroid_pool.objects.length)
    (hx : floatToInt a.pos.x ≠ 0) (hy : floatToInt a.pos.y ≠ 0) :
    (bulletStep env bi s).score = s.score + 1 ∧
    ((bulletStep env bi s).bullet_pool.objects[bi]?).map (fun o => o.active) = some false ∧
    (bulletStep env bi s).asteroid_pool.objects[ai]? = some { a with active := false } ∧
    (bulletStep env bi s).asteroid_pool.number_actives = s.asteroid_pool.number_actives + 1 ∧
    (bulletStep env bi s).asteroid_pool.activeCount = s.asteroid_pool.activeCount + 1 ∧
    ∃ i j t1 t2, i ≠ j ∧ i ≠ ai ∧ j ≠ ai ∧
      (s.asteroid_pool.objects[i]?).map (fun o => o.active) = some false ∧
      (s.asteroid_pool.objects[j]?).map (fun o => o.active) = some false ∧
      (bulletStep env bi s).asteroid_pool.objects[i]? = some t1 ∧
      (bulletStep env bi s).asteroid_pool.objects[j]? = some t2 ∧
      (t1.active = true ∧ t1.size = .Tiny ∧
        t1.pos = ⟨(floatToInt a.pos.x : ℚ), (floatToInt a.pos.y : ℚ)⟩) ∧
      (t2.active = true ∧ t2.size = .Tiny ∧
        t2.pos = ⟨(floatToInt a.pos.x : ℚ), (floatToInt a.pos.y : ℚ)⟩) ∧
      (∀ k, k ≠ i → k ≠ j → k ≠ ai →
        (bulletStep env bi s).asteroid_pool.objects[k]? = s.asteroid_pool.objects[k]?) := by
  have hact : a.active = true := by
    obtain ⟨a0, ha0, hact0⟩ := findHit_some hhit
    rw [ha] at ha0
    cases ha0
    exact hact0
  have hbi : bi < s.bullet_pool.objects.length := (List.getElem?_eq_some.mp hb).1
  have hai : ai < s.asteroid_pool.objects.length := (List.getElem?_eq_some.mp ha).1
  rw [bulletStep_hit hb hbact hroom hhit]
  obtain ⟨_, hscore, hbullets⟩ := hitAsteroid_frame env bi ai (moveBullet bi b s)
  refine ⟨by rw [hscore]; rfl, ?_, ?_⟩
  · rw [hbullets]
    simp [moveBullet, Pool.kill, List.getElem?_set_self hbi, PoolObject.setActive]
  · -- the asteroid pool
    unfold hitAsteroid
    simp only
    generalize hs1 : ({ moveBullet bi b s with
        bullet_pool := (moveBullet bi b s).bullet_pool.kill bi
        score := (moveBullet bi b s).score + 1
        particle_pool := _
        rng := _ } : Game) = s1
    have e1 : s1.asteroid_pool = s.asteroid_pool := by rw [← hs1]; rfl
    obtain ⟨i, j, b1, b2, hij, hiai, hjai, hia, hja, hpool, hb1, hb2⟩ :=
      fragment_spec env ai s1 a (by rw [e1]; exact ha) hact hnormal (by rw [e1]; exact hfree) hx hy
    rw [e1] at hia hja hpool
    rw [hpool]
    have hi : i < s.asteroid_pool.objects.length := by
      cases h : s.asteroid_pool.objects[i]? with
      | none => rw [h] at hia; cases hia
      | some x => exact (List.getElem?_eq_some.mp h).1
    have hj : j < s.asteroid_pool.objects.length := by
      cases h : s.asteroid_pool.objects[j]? with
      | none => rw [h] at hja; cases hja
      | some x => exact (List.getElem?_eq_some.mp h).1
    have hai2 : ((s.asteroid_pool.objects.set i b1).set j b2)[ai]? = some a := by
      rw [List.getElem?_set_ne hjai, List.getElem?_set_ne hiai, ha]
    have hkill : (Pool.kill
        ({ objects := (s.asteroid_pool.objects.set i b1).set j b2,
           number_actives := s.asteroid_pool.number_actives + 1 + 1 } : Pool Asteroid) ai) =
        { objects := ((s.asteroid_pool.objects.set i b1).set j b2).set ai { a with active := false },
          number_actives := s.asteroid_pool.number_actives + 1 + 1 - 1 } := by
      simp only [Pool.kill, hai2]
      rfl
    rw [hkill]
    refine ⟨?_, ?_, ?_, i, j, b1, b2, hij, hiai, hjai, hia, hja, ?_, ?_,
      ⟨hb1.1, hb1.2.1, Vector2_eq_of hb1.2.2.1 hb1.2.2.2⟩,
      ⟨hb2.1, hb2.2.1, Vector2_eq_of hb2.2.2.1 hb2.2.2.2⟩, ?_⟩
    · simp only
      rw [List.getElem?_set_self (by simpa using hai)]
    · simp only
      ring
    · -- the number of active slots
      simp only [Pool.activeCount]
      obtain ⟨x1, hx1⟩ : ∃ x1, s.asteroid_pool.objects[i]? = some x1 := by
        cases h : s.asteroid_pool.objects[i]? with
        | none => rw [h] at hia; cases hia
        | some x => exact ⟨x, rfl⟩
      obtain ⟨x2, hx2⟩ : ∃ x2, s.asteroid_pool.objects[j]? = some x2 := by
        cases h : s.asteroid_pool.objects[j]? with
        | none => rw [h] at hja; cases hja
        | some x => exact ⟨x, rfl⟩
      have hx1a : active x1 = false := by rw [hx1] at hia; simpa using hia
      have hx2a : active x2 = false := by rw [hx2] at hja; simpa using hja
      have c1 := countP_set_of_inactive (b := b1) hx1 hx1a hb1.1
      have c2 := countP_set_of_inactive (l := s.asteroid_pool.objects.set i b1) (b := b2)
        (by rw [List.getElem?_set_ne hij]; exact hx2) hx2a hb2.1
      have c3 := countP_set_of_active (b := ({ a with active := false } : Asteroid)) hai2 hact rfl
      omega
    · simp only
      rw [List.getElem?_set_ne (Ne.symm hiai), List.getElem?_set_ne (Ne.symm hij),
        List.getElem?_set_self hi]
    · simp only
      rw [List.getElem?_set_ne (Ne.symm hjai), List.getElem?_set_self (by simpa using hj)]
    · intro k hki hkj hkai
      simp only
      rw [List.getElem?_set_ne (Ne.symm hkai), List.getElem?_set_ne (Ne.symm hkj),
        List.getElem?_set_ne (Ne.symm hki)]

/-- C3, as the code has it. When a bullet hits a `Normal` asteroid at position
`p` while the asteroid pool has at least two inactive slots, and neither
coordinate of `p` converts to the integer 0, the pass of the bullet loop
increases the score by exactly 1, releases the bullet and the slot of the hit
asteroid, and activates exactly two further slots, each holding a `Tiny`
asteroid at `((int)p.x, (int)p.y)`, the coordinates of `p` truncated toward
zero; every other slot is untouched, so the number of active asteroids grows
by exactly 1. -/
theorem C3_fragmentation (env : Env) (s : Game) (bi ai : Nat) (b : Bullet) (a : Asteroid)
    (hb : s.bullet_pool.objects[bi]? = some b) (hbact : b.active = true)
    (hroom : env.CheckCollisionPointRec (Vector2Add b.pos b.vel) arena = true)
    (hhit : findHit env (Vector2Add b.pos b.vel) s.asteroid_pool.objects = some ai)
    (ha : s.asteroid_pool.objects[ai]? = some a) (hnormal : a.size = .Normal)
    (hfree : s.asteroid_pool.activeCount + 2 ≤ s.asteroid_pool.objects.length)
    (hx : floatToInt a.pos.x ≠ 0) (hy : floatToInt a.pos.y ≠ 0) :
    (bulletStep env bi s).score = s.score + 1 ∧
    ((bulletStep env bi s).bullet_pool.objects[bi]?).map (fun o => o.active) = some false ∧
    (bulletStep env bi s).asteroid_pool.objects[ai]? = some { a with active := false } ∧
    (bulletStep env bi s).asteroid_pool.number_actives = s.asteroid_pool.number_actives + 1 ∧
    (bulletStep env bi s).asteroid_pool.activeCount = s.asteroid_pool.activeCount + 1 ∧
    ∃ i j t1 t2, i ≠ j ∧ i ≠ ai ∧ j ≠ ai ∧
      (s.asteroid_pool.objects[i]?).map (fun o => o.active) = some false ∧
      (s.asteroid_pool.objects[j]?).map (fun o => o.active) = some false ∧
      (bulletStep env bi s).asteroid_pool.objects[i]? = some t1 ∧
      (bulletStep env bi s).asteroid_pool.objects[j]? = some t2 ∧
      (t1.active = true ∧ t1.size = .Tiny ∧
        t1.pos = ⟨(floatToInt a.pos.x : ℚ), (floatToInt a.pos.y : ℚ)⟩) ∧
      (t2.active = true ∧ t2.size = .Tiny ∧
        t2.pos = ⟨(floatToInt a.pos.x : ℚ), (floatToInt a.pos.y : ℚ)⟩) ∧
      (∀ k, k ≠ i → k ≠ j → k ≠ ai →
        (bulletStep env bi s).asteroid_pool.objects[k]? = s.asteroid_pool.objects[k]?) :=
  bulletStep_fragment env s bi ai b a hb hbact hroom hhit ha hnormal hfree hx hy

/-- C3 as stated fails. In the concrete environment the bullet of slot 0 hits
the only asteroid, a `Normal` one at `p = (100.5, 200)`, while 49 slots of the
asteroid pool are free. After that pass of the bullet loop the active
asteroids are two `Tiny` ones at `(100, 200)`: no asteroid sits at `p`. -/
theorem C3_same_position_counterexample :
    hitGame.bullet_pool.objects[0]? = some { active := true, pos := ⟨193 / 2, 202⟩, vel := ⟨7, 0⟩ } ∧
    testEnv.CheckCollisionPointRec ⟨207 / 2, 202⟩ arena = true ∧
    findHit testEnv ⟨207 / 2, 202⟩ hitGame.asteroid_pool.objects = some 0 ∧
    (hitGame.asteroid_pool.objects[0]?).map (fun o => (o.active, o.size, o.pos)) =
      some (true, .Normal, ⟨201 / 2, 200⟩) ∧
    hitGame.asteroid_pool.activeCount + 2 ≤ hitGame.asteroid_pool.objects.length ∧
    ((bulletStep testEnv 0 hitGame).asteroid_pool.objects.filter (fun o => o.active)).map
      (fun o => (o.size, o.pos)) = [(.Tiny, ⟨100, 200⟩), (.Tiny, ⟨100, 200⟩)] ∧
    (⟨100, 200⟩ : Vector2) ≠ ⟨201 / 2, 200⟩ := by
  decide!

/-- C3, as amended, on the same pass: the score and the number of active
asteroids each grow by 1. -/
theorem C3_fragmentation_witness :
    (floatToInt (201 / 2) ≠ 0 ∧ floatToInt 200 ≠ 0) ∧
    (bulletStep testEnv 0 hitGame).score = hitGame.score + 1 ∧
    (bulletStep testEnv 0 hitGame).asteroid_pool.number_actives =
      hitGame.asteroid_pool.number_actives + 1 ∧
    (bulletStep testEnv 0 hitGame).asteroid_pool.activeCount =
      hitGame.asteroid_pool.activeCount + 1 :=
  have h := C3_fragmentation testEnv hitGame 0 0
    { active := true, pos := ⟨193 / 2, 202⟩, vel := ⟨7, 0⟩ } (rockAt ⟨201 / 2, 200⟩ ⟨1 / 4, -1 / 8⟩)
    rfl rfl (by decide!) (by decide!) rfl rfl (by decide!) (by decide!) (by decide!)
  ⟨⟨by decide!, by decide!⟩, h.1, h.2.2.2.1, h.2.2.2.2.1⟩

/-! ## Safe mode (C4) and lives (C6) -/

/-- C4. In every state the game loop reaches from the cold start, the flag
`safe_mode` is set exactly when the countdown `safe_mode_count` is positive;
and every `Player::update` of a player in safe mode lowers the countdown by
exactly 1 and clears the flag exactly when the countdown has reached 0. -/
theorem C4_safe_mode_iff_countdown (env : Env) :
    (∀ s : Game, Reachable env s → (s.player.safe_mode = true ↔ 0 < s.player.safe_mode_count)) ∧
    (∀ p : Player, p.safe_mode = true →
      (p.update env).safe_mode_count = p.safe_mode_count - 1 ∧
      ((p.update env).safe_mode = false ↔ (p.update env).safe_mode_count = 0)) := by
  refine ⟨fun s h => h.safeInv, ?_⟩
  intro p hp
  rw [Player.update_safe_mode, Player.update_safe_mode_count, hp]
  simp
  omega

/-- C4 at the state after the first pass of a run with the concrete
environment, and at a player whose countdown stands at 1. -/
theorem C4_safe_mode_iff_countdown_witness :
    ((tick testEnv (idleInput 0) (initGame testEnv 0 0 testRand)).player.safe_mode = true ↔
      0 < (tick testEnv (idleInput 0) (initGame testEnv 0 0 testRand)).player.safe_mode_count) ∧
    ((({ safe_mode := true, safe_mode_count := 1 } : Player).update testEnv).safe_mode_count = 1 - 1 ∧
      ((({ safe_mode := true, safe_mode_count := 1 } : Player).update testEnv).safe_mode = false ↔
       (({ safe_mode := true, safe_mode_count := 1 } : Player).update testEnv).safe_mode_count = 0)) :=
  ⟨(C4_safe_mode_iff_countdown testEnv).1 _ (Reachable.step _ _ (Reachable.init 0 0 testRand)),
   (C4_safe_mode_iff_countdown testEnv).2 _ rfl⟩

/-- C6. In every state the game loop reaches from the cold start, whatever the
inputs, the random draws and the outcomes of the collision tests,
`0 <= lives <= 3`. -/
theorem C6_lives_bounds (env : Env) (s : Game) (h : Reachable env s) :
    0 ≤ s.player.lives ∧ s.player.lives ≤ 3 :=
  ⟨h.livesInv.1, h.livesInv.2.1⟩

/-- C6 at the state after two passes of a run with the concrete environment. -/
theorem C6_lives_bounds_witness :
    Reachable testEnv (tick testEnv (idleInput 1) (tick testEnv (idleInput 0)
      (initGame testEnv 0 0 testRand))) ∧
    0 ≤ (tick testEnv (idleInput 1) (tick testEnv (idleInput 0)
      (initGame testEnv 0 0 testRand))).player.lives ∧
    (tick testEnv (idleInput 1) (tick testEnv (idleInput 0)
      (initGame testEnv 0 0 testRand))).player.lives ≤ 3 :=
  ⟨Reachable.step _ _ (Reachable.step _ _ (Reachable.init 0 0 testRand)),
   C6_lives_bounds testEnv _ (Reachable.step _ _ (Reachable.step _ _ (Reachable.init 0 0 testRand)))⟩

/-! ## Score (C8) -/

theorem tick_score (env : Env) (inp : Input) (s : Game) :
    (tick env inp s).score =
      if 0 = (beforeDraw env inp s).game_state ∧ inp.key_space_pressed = true then 0
      else (beforeDraw env inp s).score := by
  rw [tick_eq, (drawPhase_spec env inp _).2.2.2]

theorem tick_game_state (env : Env) (inp : Input) (s : Game) :
    (tick env inp s).game_state =
      if 0 = (beforeDraw env inp s).game_state ∧ inp.key_space_pressed = true then 1
      else if 2 = (beforeDraw env inp s).game_state ∧ inp.key_space_pressed = true then 0
      else (beforeDraw env inp s).game_state := by
  rw [tick_eq, (drawPhase_spec env inp _).2.1]

theorem beforeDraw_game_state_zero {env : Env} {inp : Input} {s : Game}
    (h : 0 = (beforeDraw env inp s).game_state) : s.game_state = 0 := by
  rw [(beforeDraw_spec env inp s).2.1] at h
  split at h
  · omega
  · exact h.symm

/-- C8. Score monotonicity. Over one pass of the game loop the score either
does not decrease, or the pass started on the title screen (`game_state = 0`)
with the space key pressed, ends in the playing state and leaves the score at
0. Phase by phase: the block run while playing, the asteroid loop, the
game-over check and the particle update leave the score unchanged; one pass of
the bullet loop adds exactly 1 when that bullet hits an asteroid and nothing
otherwise; the drawing block sets the score to 0 exactly on the title screen
when space is pressed and leaves it unchanged otherwise. -/
theorem C8_score_monotone (env : Env) (inp : Input) (s : Game) :
    (s.score ≤ (tick env inp s).score ∨
      (s.game_state = 0 ∧ inp.key_space_pressed = true ∧ (tick env inp s).game_state = 1 ∧
        (tick env inp s).score = 0)) ∧
    (playingPhase env inp s).score = s.score ∧
    (∀ bi : Nat, (bulletStep env bi s).score = s.score + (if bulletHits env bi s then 1 else 0)) ∧
    (asteroidPhase env s).score = s.score ∧
    (gameOverCheck s).score = s.score ∧
    (particlePhase s).score = s.score ∧
    (drawPhase env inp s).score =
      (if 0 = s.game_state ∧ inp.key_space_pressed = true then 0 else s.score) := by
  refine ⟨?_, playingPhase_score env inp s, fun bi => (bulletStep_frame env bi s).2,
    (asteroidPhase_frame env s).1.2.1, (gameOverCheck_spec s).2.1, (particlePhase_spec s).2.2.1,
    (drawPhase_spec env inp s).2.2.2⟩
  rw [tick_score, tick_game_state]
  by_cases h : 0 = (beforeDraw env inp s).game_state ∧ inp.key_space_pressed = true
  · rw [if_pos h, if_pos h]
    exact Or.inr ⟨beforeDraw_game_state_zero h.1, h.2, rfl, rfl⟩
  · rw [if_neg h]
    exact Or.inl (beforeDraw_spec env inp s).2.2.1

/-! ## Shot cadence (C9) -/

theorem tick_time_shoot (env : Env) (inp : Input) (s : Game) :
    (tick env inp s).time_shoot =
      if 1 = s.game_state ∧ shotAdmitted inp s = true then inp.time_shoot_set
      else s.time_shoot := by
  rw [tick_eq, (drawPhase_spec env inp _).1, (beforeDraw_spec env inp s).2.2.2,
    playingPhase_time_shoot]

theorem run_nil (env : Env) (s : Game) : run env [] s = s := by
  simp only [run, List.foldl_nil]

theorem run_cons (env : Env) (inp : Input) (inps : List Input) (s : Game) :
    run env (inp :: inps) s = run env inps (tick env inp s) := by
  simp only [run, List.foldl_cons]

theorem run_append (env : Env) (l1 l2 : List Input) (s : Game) :
    run env (l1 ++ l2) s = run env l2 (run env l1 s) := by
  unfold run
  rw [List.foldl_append]

theorem run_time_shoot_ge (env : Env) (c : ℚ) (inps : List Input) (s : Game)
    (hs : c ≤ s.time_shoot) (hin : ∀ m ∈ inps, c ≤ m.time_shoot_set) :
    c ≤ (run env inps s).time_shoot := by
  induction inps generalizing s with
  | nil => exact hs
  | cons m inps ih =>
    rw [run_cons]
    apply ih
    · rw [tick_time_shoot]
      split
      · exact hin m (List.mem_cons_self _ _)
      · exact hs
    · intro x hx
      exact hin x (List.mem_cons_of_mem _ hx)

/-- C9. Shot cadence. Take a run of the game loop from any state whose clock
readings, in the order in which they are taken, never decrease, and two passes
of it that each admit a shot (the game is in the playing state and the test of
line 341 succeeds). Then the reading at which the later shot is admitted is
more than 0.1 s after the reading stored in `time_shoot` by the earlier one,
hence more than 0.1 s after the reading at which the earlier one was admitted;
nothing is assumed about the bullet reservations. -/
theorem C9_shot_cadence (env : Env) (s : Game) (pre mid post : List Input) (a b : Input)
    (hclock : List.Pairwise (fun x y : ℚ => x ≤ y)
      ((pre ++ a :: (mid ++ b :: post)).flatMap Input.readings))
    (ha : 1 = (run env pre s).game_state ∧ shotAdmitted a (run env pre s) = true)
    (hb : 1 = (run env (pre ++ a :: mid) s).game_state ∧
      shotAdmitted b (run env (pre ++ a :: mid) s) = true) :
    b.time_shoot_test - a.time_shoot_set > 1 / 10 ∧
    b.time_shoot_test - a.time_shoot_test > 1 / 10 ∧
    b.time_shoot_set - a.time_shoot_set > 1 / 10 := by
  -- what the monotone clock gives
  rw [List.flatMap_append, List.pairwise_append] at hclock
  obtain ⟨_, hrest, _⟩ := hclock
  rw [List.flatMap_cons, List.pairwise_append] at hrest
  obtain ⟨hareadings, hrest2, hcross⟩ := hrest
  have hat : a.time_shoot_test ≤ a.time_shoot_set := by
    simp [Input.readings] at hareadings
    exact hareadings.2.2
  have hmid : ∀ m ∈ mid, a.time_shoot_set ≤ m.time_shoot_set := by
    intro m hm
    apply hcross a.time_shoot_set (by simp [Input.readings]) m.time_shoot_set
    rw [List.flatMap_append]
    apply List.mem_append_left
    rw [List.mem_flatMap]
    exact ⟨m, hm, by simp [Input.readings]⟩
  have hbt : b.time_shoot_test ≤ b.time_shoot_set := by
    rw [List.flatMap_append, List.pairwise_append] at hrest2
    obtain ⟨_, hb2, _⟩ := hrest2
    rw [List.flatMap_cons, List.pairwise_append] at hb2
    have := hb2.1
    simp [Input.readings] at this
    exact this.2.2
  -- `time_shoot` when the later shot is tested
  have hts : a.time_shoot_set ≤ (run env (pre ++ a :: mid) s).time_shoot := by
    rw [run_append, run_cons]
    apply run_time_shoot_ge env _ mid _ _ hmid
    rw [tick_time_shoot, if_pos ha]
  have hadm := hb.2
  simp only [shotAdmitted, Bool.and_eq_true, decide_eq_true_eq] at hadm
  have h1 := hadm.1
  refine ⟨?_, ?_, ?_⟩ <;> linarith

/-! ## Rotation damping (C10) -/

theorem Player.update_rot_vel (env : Env) (p : Player) :
    (p.update env).rot_vel = Player.dampRotVel p.rot_vel := by
  unfold Player.update
  simp only
  split <;> rfl

theorem iterate_update_rot_vel (env : Env) (n : Nat) (p : Player) :
    ((Player.update env)^[n] p).rot_vel = Player.dampRotVel^[n] p.rot_vel := by
  induction n generalizing p with
  | zero => rfl
  | succ n ih =>
    rw [Function.iterate_succ_apply, Function.iterate_succ_apply, ih, Player.update_rot_vel]

theorem abs_Clamp_le (w : ℚ) : |Clamp w (-3) 3| ≤ 3 ∧ |Clamp w (-3) 3| ≤ |w| := by
  unfold Clamp
  simp only
  constructor
  · rw [abs_le]
    split_ifs <;> constructor <;> linarith
  · split_ifs with h1 h2 h2
    · linarith
    · rw [abs_of_neg (by linarith : (-3 : ℚ) < 0), abs_of_neg (by linarith : w < 0)]
      linarith
    · rw [abs_of_pos (by linarith : (0 : ℚ) < 3), abs_of_pos (by linarith : 0 < w)]
      linarith
    · exact le_refl _

theorem dampRotVel_abs_le (w : ℚ) :
    |Player.dampRotVel w| ≤ 19 / 20 * 3 ∧ |Player.dampRotVel w| ≤ 19 / 20 * |w| := by
  obtain ⟨h3, hw⟩ := abs_Clamp_le w
  unfold Player.dampRotVel PLAYER_ROTATION_LIMIT
  simp only
  have he : Clamp w (-3) 3 + (0 - Clamp w (-3) 3) * (5 / 100) = 19 / 20 * Clamp w (-3) 3 := by ring
  rw [he]
  have habs : |19 / 20 * Clamp w (-3) 3| = 19 / 20 * |Clamp w (-3) 3| := by
    rw [abs_mul, abs_of_pos (by norm_num : (0 : ℚ) < 19 / 20)]
  split
  · simp only [abs_zero]
    constructor
    · norm_num
    · positivity
  · rw [habs]
    constructor <;> nlinarith

theorem dampRotVel_snap (w : ℚ) (h : 19 / 20 * |w| ≤ 1 / 100) : Player.dampRotVel w = 0 := by
  obtain ⟨_, hw⟩ := abs_Clamp_le w
  unfold Player.dampRotVel PLAYER_ROTATION_LIMIT
  simp only
  have he : Clamp w (-3) 3 + (0 - Clamp w (-3) 3) * (5 / 100) = 19 / 20 * Clamp w (-3) 3 := by ring
  rw [he, if_pos]
  rw [zero_sub, abs_neg, abs_mul, abs_of_pos (by norm_num : (0 : ℚ) < 19 / 20)]
  nlinarith

theorem dampRotVel_zero : Player.dampRotVel 0 = 0 := dampRotVel_snap 0 (by norm_num)

theorem iterate_dampRotVel_abs_le (w : ℚ) (n : Nat) :
    |Player.dampRotVel^[n + 1] w| ≤ 3 * (19 / 20) ^ (n + 1) := by
  induction n with
  | zero =>
    rw [Function.iterate_one]
    have := (dampRotVel_abs_le w).1
    norm_num at this ⊢
    linarith
  | succ n ih =>
    rw [Function.iterate_succ_apply']
    have h := (dampRotVel_abs_le (Player.dampRotVel^[n + 1] w)).2
    calc |Player.dampRotVel (Player.dampRotVel^[n + 1] w)|
        ≤ 19 / 20 * |Player.dampRotVel^[n + 1] w| := h
      _ ≤ 19 / 20 * (3 * (19 / 20) ^ (n + 1)) := by nlinarith
      _ = 3 * (19 / 20) ^ (n + 1 + 1) := by ring

theorem iterate_dampRotVel_112 (w : ℚ) : Player.dampRotVel^[112] w = 0 := by
  rw [show (112 : Nat) = 110 + 1 + 1 from rfl, Function.iterate_succ_apply']
  apply dampRotVel_snap
  have h := iterate_dampRotVel_abs_le w 110
  have hnum : (19 / 20 : ℚ) * (3 * (19 / 20) ^ (110 + 1)) ≤ 1 / 100 := by norm_num
  linarith

theorem iterate_dampRotVel_eq_zero (w : ℚ) (n : Nat) (hn : 112 ≤ n) :
    Player.dampRotVel^[n] w = 0 := by
  obtain ⟨k, rfl⟩ := Nat.exists_eq_add_of_le hn
  rw [Nat.add_comm, Function.iterate_add_apply, iterate_dampRotVel_112]
  clear hn
  induction k with
  | zero => rfl
  | succ k ih => rw [Function.iterate_succ_apply', ih, dampRotVel_zero]

/-- C10. Rotation damping. Whatever the rotational velocity is at the start,
after 112 consecutive calls of `Player::update`, and so after 150, it is
exactly 0 and it stays 0 on every later call; between the calls the keys leave
it alone as long as neither `A` nor `D` is held. -/
theorem C10_rotation_damping (env : Env) (p : Player) :
    (∀ n : Nat, 150 ≤ n → ((Player.update env)^[n] p).rot_vel = 0) ∧
    (∀ n : Nat, 112 ≤ n → ((Player.update env)^[n] p).rot_vel = 0) ∧
    (∀ inp : Input, inp.key_a = false → inp.key_d = false →
      (applyKeys env inp p).rot_vel = p.rot_vel) := by
  refine ⟨fun n hn => ?_, fun n hn => ?_, ?_⟩
  · rw [iterate_update_rot_vel]; exact iterate_dampRotVel_eq_zero _ n (by omega)
  · rw [iterate_update_rot_vel]; exact iterate_dampRotVel_eq_zero _ n hn
  · intro inp ha hd
    unfold applyKeys
    rw [ha, hd]
    simp only [Bool.false_eq_true, if_false]
    split <;> rfl

/-! ## Wrapping (C7) -/

theorem SameBody_refl (a : Asteroid) : SameBody a a := ⟨rfl, rfl, rfl, rfl, rfl, rfl⟩

theorem SameBody_trans {a b c : Asteroid} (h1 : SameBody a b) (h2 : SameBody b c) :
    SameBody a c :=
  ⟨h2.1.trans h1.1, h2.2.1.trans h1.2.1, h2.2.2.1.trans h1.2.2.1, h2.2.2.2.1.trans h1.2.2.2.1,
   h2.2.2.2.2.1.trans h1.2.2.2.2.1, h2.2.2.2.2.2.trans h1.2.2.2.2.2⟩

theorem vertexStep_asteroid (env : Env) (i : Nat) (st : VertexState) :
    SameBody st.asteroid (vertexStep env i st).asteroid := by
  have key : ∀ (v : Vector2), SameBody st.asteroid
      { st.asteroid with
        points := st.asteroid.points.set i
          { st.asteroid.points.getD i ⟨0, 0⟩ with
            radians := (st.asteroid.points.getD i ⟨0, 0⟩).radians + 1 * env.DEG2RAD }
        shape := st.asteroid.shape.set i v } := by
    intro v
    refine ⟨rfl, rfl, rfl, rfl, by simp, ?_⟩
    simp only
    cases i with
    | zero =>
      cases hp : st.asteroid.points with
      | nil => simp
      | cons pp rest => simp
    | succ i => rw [List.getElem?_set_ne (by omega)]
  unfold vertexStep
  simp only
  split
  · exact key _
  · exact key _

theorem vertexLoop_spec (env : Env) (l : List Nat) (st : VertexState) :
    SameBody st.asteroid (l.foldl (fun st i => vertexStep env i st) st).asteroid ∧
    KillStep st.player (l.foldl (fun st i => vertexStep env i st) st).player :=
  foldl_preserves (fun st i => vertexStep env i st)
    (fun t => SameBody st.asteroid t.asteroid ∧ KillStep st.player t.player) l st
    ⟨SameBody_refl _, KillStep_refl _⟩
    (fun t i h => ⟨SameBody_trans h.1 (vertexStep_asteroid env i t),
      KillStep_trans h.2 (vertexStep_player env i t)⟩)

theorem asteroidStep_other (env : Env) {i j : Nat} (hij : j ≠ i) (s : Game) :
    (asteroidStep env j s).asteroid_pool.objects[i]? = s.asteroid_pool.objects[i]? := by
  unfold asteroidStep
  split
  · rfl
  · split
    · rfl
    · exact List.getElem?_set_ne hij

theorem asteroidStep_inactive (env : Env) {i : Nat} {s : Game} {a : Asteroid}
    (ha : s.asteroid_pool.objects[i]? = some a) (hact : a.active = false) :
    asteroidStep env i s = s := by
  simp [asteroidStep, ha, hact]

theorem asteroidStep_none (env : Env) {i : Nat} {s : Game}
    (ha : s.asteroid_pool.objects[i]? = none) : asteroidStep env i s = s := by
  simp [asteroidStep, ha]

theorem asteroidStep_self (env : Env) {i : Nat} {s : Game} {a : Asteroid}
    (ha : s.asteroid_pool.objects[i]? = some a) (hact : a.active = true) :
    ∃ b, (asteroidStep env i s).asteroid_pool.objects[i]? = some b ∧
      SameBody (asteroidMove a) b := by
  have hi : i < s.asteroid_pool.objects.length := (List.getElem?_eq_some.mp ha).1
  unfold asteroidStep
  simp only [ha, hact, Bool.not_true, Bool.false_eq_true, if_false]
  refine ⟨_, List.getElem?_set_self hi, ?_⟩
  exact (vertexLoop_spec env _ _).1

theorem asteroidStep_number_actives (env : Env) (i : Nat) (s : Game) :
    (asteroidStep env i s).asteroid_pool.number_actives = s.asteroid_pool.number_actives ∧
    (asteroidStep env i s).asteroid_pool.objects.length = s.asteroid_pool.objects.length := by
  unfold asteroidStep
  split
  · exact ⟨rfl, rfl⟩
  · split
    · exact ⟨rfl, rfl⟩
    · exact ⟨rfl, by simp⟩

/-- A loop over the slots `0 .. n-1` whose pass `j` leaves slot `i` alone for
`j ≠ i`: slot `i` is what pass `i` makes of it, and pass `i` finds it as it was. -/
theorem foldl_range_slot {σ α : Type} (f : Nat → σ → σ) (get : σ → α) (i : Nat)
    (hother : ∀ j s, j ≠ i → get (f j s) = get s) (n : Nat) (s : σ) :
    get ((List.range n).foldl (fun st j => f j st) s) =
      (if i < n then get (f i ((List.range i).foldl (fun st j => f j st) s)) else get s) ∧
    get ((List.range (min n i)).foldl (fun st j => f j st) s) = get s := by
  induction n with
  | zero => simp
  | succ n ih =>
    obtain ⟨ih1, ih2⟩ := ih
    rw [List.range_succ, List.foldl_append, List.foldl_cons, List.foldl_nil]
    constructor
    · by_cases hin : i < n
      · rw [if_pos (by omega), hother n _ (by omega), ih1, if_pos hin]
      · by_cases hn : i = n
        · subst hn; simp
        · rw [if_neg (by omega), hother n _ (Ne.symm hn), ih1, if_neg hin]
    · by_cases hin : n + 1 ≤ i
      · rw [Nat.min_eq_left hin, List.range_succ, List.foldl_append, List.foldl_cons,
          List.foldl_nil, hother n _ (by omega)]
        rw [Nat.min_eq_left (by omega)] at ih2
        exact ih2
      · rw [Nat.min_eq_right (by omega)]
        rw [Nat.min_eq_right (by omega)] at ih2
        exact ih2

theorem asteroidPhase_slot (env : Env) (i : Nat) (s : Game) :
    ∃ t : Game, t.asteroid_pool.objects[i]? = s.asteroid_pool.objects[i]? ∧
      (asteroidPhase env s).asteroid_pool.objects[i]? =
        (if i < POOL_SIZE then (asteroidStep env i t).asteroid_pool.objects[i]?
         else s.asteroid_pool.objects[i]?) := by
  obtain ⟨h1, h2⟩ := foldl_range_slot (fun j st => asteroidStep env j st)
    (fun st : Game => st.asteroid_pool.objects[i]?) i
    (fun j st hj => asteroidStep_other env hj st) POOL_SIZE s
  by_cases hi : i < POOL_SIZE
  · refine ⟨(List.range i).foldl (fun st j => asteroidStep env j st) s, ?_, ?_⟩
    · rw [Nat.min_eq_right (by omega)] at h2
      exact h2
    · rw [if_pos hi]
      unfold asteroidPhase
      rw [h1, if_pos hi]
  · refine ⟨s, rfl, ?_⟩
    rw [if_neg hi]
    unfold asteroidPhase
    rw [h1, if_neg hi]

theorem wrapCoord_bounds (c : ℚ) (limit : Int) (h : 0 ≤ limit) :
    0 ≤ Player.wrapCoord c limit ∧ Player.wrapCoord c limit ≤ (limit : ℚ) := by
  have hl : (0 : ℚ) ≤ (limit : ℚ) := by exact_mod_cast h
  unfold Player.wrapCoord
  simp only
  split_ifs <;> constructor <;> linarith

theorem asteroidWrap_bounds (c : ℚ) (limit : Int) (h : 0 ≤ limit) :
    0 ≤ asteroidWrap c limit ∧ asteroidWrap c limit ≤ (limit : ℚ) := by
  have hl : (0 : ℚ) ≤ (limit : ℚ) := by exact_mod_cast h
  unfold asteroidWrap
  simp only
  split_ifs <;> constructor <;> linarith

theorem Player.update_pos (env : Env) (p : Player) :
    (p.update env).pos =
      ⟨Player.wrapCoord
          (p.pos.x + (env.Vector2ClampValue p.vel (-PLAYER_SPEED_LIMIT) PLAYER_SPEED_LIMIT).x)
          WINDOW_WIDTH,
       Player.wrapCoord
          (p.pos.y + (env.Vector2ClampValue p.vel (-PLAYER_SPEED_LIMIT) PLAYER_SPEED_LIMIT).y)
          WINDOW_HEIGHT⟩ := by
  unfold Player.update
  simp only [Vector2Add]
  split <;> rfl

theorem update_pos_bounds (env : Env) (p : Player) :
    (0 ≤ (p.update env).pos.x ∧ (p.update env).pos.x ≤ 1024) ∧
    (0 ≤ (p.update env).pos.y ∧ (p.update env).pos.y ≤ 768) := by
  rw [Player.update_pos]
  have hx := wrapCoord_bounds
    (p.pos.x + (env.Vector2ClampValue p.vel (-PLAYER_SPEED_LIMIT) PLAYER_SPEED_LIMIT).x)
    WINDOW_WIDTH (by decide)
  have hy := wrapCoord_bounds
    (p.pos.y + (env.Vector2ClampValue p.vel (-PLAYER_SPEED_LIMIT) PLAYER_SPEED_LIMIT).y)
    WINDOW_HEIGHT (by decide)
  simp only [WINDOW_WIDTH, WINDOW_HEIGHT] at hx hy
  norm_num at hx hy
  exact ⟨hx, hy⟩

theorem asteroidMove_pos_bounds (a : Asteroid) :
    (0 ≤ (asteroidMove a).pos.x ∧ (asteroidMove a).pos.x ≤ 1024) ∧
    (0 ≤ (asteroidMove a).pos.y ∧ (asteroidMove a).pos.y ≤ 768) := by
  unfold asteroidMove
  simp only
  have hx := asteroidWrap_bounds (Vector2Add a.pos a.vel).x WINDOW_WIDTH (by decide)
  have hy := asteroidWrap_bounds (Vector2Add a.pos a.vel).y WINDOW_HEIGHT (by decide)
  simp only [WINDOW_WIDTH, WINDOW_HEIGHT] at hx hy ⊢
  norm_num at hx hy
  exact ⟨hx, hy⟩

theorem asteroidPhase_pos_bounds (env : Env) (s : Game)
    (hlen : s.asteroid_pool.objects.length = POOL_SIZE) (i : Nat) (a : Asteroid)
    (ha : (asteroidPhase env s).asteroid_pool.objects[i]? = some a) (hact : a.active = true) :
    (0 ≤ a.pos.x ∧ a.pos.x ≤ 1024) ∧ (0 ≤ a.pos.y ∧ a.pos.y ≤ 768) := by
  obtain ⟨t, ht, hphase⟩ := asteroidPhase_slot env i s
  rw [hphase] at ha
  by_cases hi : i < POOL_SIZE
  · rw [if_pos hi] at ha
    cases hti : t.asteroid_pool.objects[i]? with
    | none => rw [asteroidStep_none env hti, hti] at ha; cases ha
    | some a0 =>
      rcases Bool.eq_false_or_eq_true a0.active with h0 | h0
      · obtain ⟨b, hb, hsame⟩ := asteroidStep_self env hti h0
        rw [hb] at ha
        cases ha
        rw [hsame.2.1]
        exact asteroidMove_pos_bounds a0
      · rw [asteroidStep_inactive env hti h0, hti] at ha
        cases ha
        rw [h0] at hact
        cases hact
  · rw [if_neg hi, List.getElem?_eq_none (by omega)] at ha
    cases ha

/-- C7, as the code has it. After `Player::update` the position of the player,
and after the asteroid loop the position of every active asteroid, lies in the
closed rectangle `0 <= x <= 1024`, `0 <= y <= 768`, for every starting position
and velocity. -/
theorem C7_wrap_closed_arena (env : Env) (p : Player) (s : Game)
    (hlen : s.asteroid_pool.objects.length = POOL_SIZE) :
    ((0 ≤ (p.update env).pos.x ∧ (p.update env).pos.x ≤ 1024) ∧
      (0 ≤ (p.update env).pos.y ∧ (p.update env).pos.y ≤ 768)) ∧
    (∀ (i : Nat) (a : Asteroid),
      (asteroidPhase env s).asteroid_pool.objects[i]? = some a → a.active = true →
      (0 ≤ a.pos.x ∧ a.pos.x ≤ 1024) ∧ (0 ≤ a.pos.y ∧ a.pos.y ≤ 768)) :=
  ⟨update_pos_bounds env p, asteroidPhase_pos_bounds env s hlen⟩

/-! ## The invulnerability window (C5) -/

theorem KillStep_of_safe {p q : Player} (h : KillStep p q) (hs : p.safe_mode = true) : q = p := by
  rcases h with e | ⟨hns, _⟩
  · exact e
  · rw [hs] at hns; cases hns

theorem tick_player (env : Env) (inp : Input) (s : Game) :
    (tick env inp s).player =
      if 2 = (beforeDraw env inp s).game_state ∧ inp.key_space_pressed = true then
        resetPlayer (beforeDraw env inp s).player
      else (beforeDraw env inp s).player := by
  rw [tick_eq, (drawPhase_spec env inp _).2.2.1]

/-- One pass in the playing state with the countdown at 2 or more: the player
stays in safe mode, the countdown drops by 1 and no life is lost. -/
theorem tick_safe (env : Env) (inp : Input) (s : Game) (hg : s.game_state = 1)
    (hs : s.player.safe_mode = true) (hk : 2 ≤ s.player.safe_mode_count)
    (hl : s.player.lives ≠ 0) :
    (tick env inp s).game_state = 1 ∧ (tick env inp s).player.safe_mode = true ∧
    (tick env inp s).player.safe_mode_count = s.player.safe_mode_count - 1 ∧
    (tick env inp s).player.lives = s.player.lives := by
  obtain ⟨hkill, hgs, _, _⟩ := beforeDraw_spec env inp s
  have hp1 : playerAfterUpdate env inp s = (applyKeys env inp s.player).update env := by
    unfold playerAfterUpdate
    rw [if_pos hg.symm]
  obtain ⟨k1, k2, k3, _⟩ := applyKeys_frame env inp s.player
  have hsafe1 : (playerAfterUpdate env inp s).safe_mode = true := by
    rw [hp1, Player.update_safe_mode, k2, k3, hs]
    simp
    omega
  have hbd : (beforeDraw env inp s).player = playerAfterUpdate env inp s :=
    KillStep_of_safe hkill hsafe1
  have hlives : (beforeDraw env inp s).player.lives = s.player.lives := by
    rw [hbd, playerAfterUpdate_lives]
  have hgbd : (beforeDraw env inp s).game_state = 1 := by
    rw [hgs, hlives, if_neg (fun h => hl h.symm), hg]
  rw [tick_game_state, tick_player, hgbd]
  simp only [show ¬ ((0 : Int) = 1) by decide, show ¬ ((2 : Int) = 1) by decide, false_and,
    if_false]
  refine ⟨trivial, ?_, ?_, hlives⟩
  · rw [hbd]; exact hsafe1
  · rw [hbd, hp1, Player.update_safe_mode_count, k2, k3, hs]
    simp

theorem run_safe (env : Env) (inps : List Input) (s : Game) (hg : s.game_state = 1)
    (hs : s.player.safe_mode = true) (hk : (inps.length : Int) + 1 ≤ s.player.safe_mode_count)
    (hl : s.player.lives ≠ 0) :
    (run env inps s).game_state = 1 ∧ (run env inps s).player.safe_mode = true ∧
    (run env inps s).player.safe_mode_count = s.player.safe_mode_count - inps.length ∧
    (run env inps s).player.lives = s.player.lives := by
  induction inps generalizing s with
  | nil => rw [run_nil]; simp [hg, hs]
  | cons inp inps ih =>
    rw [run_cons]
    simp only [List.length_cons, Nat.cast_add, Nat.cast_one] at hk ⊢
    obtain ⟨t1, t2, t3, t4⟩ := tick_safe env inp s hg hs (by omega) hl
    obtain ⟨r1, r2, r3, r4⟩ := ih (tick env inp s) t1 t2 (by rw [t3]; omega) (by rw [t4]; exact hl)
    refine ⟨r1, r2, ?_, by rw [r4, t4]⟩
    rw [r3, t3]; ring

/-- A pass that starts in the playing state and costs a life without ending
the match leaves the player in safe mode with the countdown at 250. -/
theorem tick_killed (env : Env) (inp : Input) (s : Game) (hg : s.game_state = 1)
    (hkill : (tick env inp s).player.lives < s.player.lives)
    (hleft : 0 < (tick env inp s).player.lives) :
    (tick env inp s).game_state = 1 ∧ (tick env inp s).player.safe_mode = true ∧
    (tick env inp s).player.safe_mode_count = 250 := by
  obtain ⟨hk, hgs, _, _⟩ := beforeDraw_spec env inp s
  have hl1 := playerAfterUpdate_lives env inp s
  rw [tick_player] at hkill hleft
  by_cases hr : 2 = (beforeDraw env inp s).game_state ∧ inp.key_space_pressed = true
  · -- a reset in the same pass would leave 3 lives, which is no loss
    rw [if_pos hr] at hkill
    simp only [resetPlayer] at hkill
    have h0 : (beforeDraw env inp s).player.lives = 0 := by
      by_contra hne
      rw [hgs, if_neg (fun h => hne h.symm), hg] at hr
      exact absurd hr.1 (by decide)
    rcases hk with e | ⟨_, e⟩
    · rw [e, hl1] at h0; omega
    · rw [e] at h0
      simp only [Player.kill, hl1] at h0
      omega
  · rw [if_neg hr] at hkill hleft
    rw [tick_game_state, tick_player, if_neg hr]
    have hgbd : (beforeDraw env inp s).game_state = 1 := by
      rw [hgs, if_neg (by omega), hg]
    rw [hgbd]
    simp only [show ¬ ((0 : Int) = 1) by decide, show ¬ ((2 : Int) = 1) by decide, false_and,
      if_false]
    rcases hk with e | ⟨_, e⟩
    · rw [e, hl1] at hkill; omega
    · rw [e]
      exact ⟨trivial, rfl, rfl⟩

/-- C5, as the code has it. If a pass of the game loop that starts in the
playing state costs the player a life and the player has a life left, then
over the next 249 passes, whatever their inputs and whatever the collision
tests return, `lives` does not change, the game stays in the playing state and
the player stays in safe mode. -/
theorem C5_invulnerability_window (env : Env) (s : Game) (inp : Input) (inps : List Input)
    (hplay : s.game_state = 1)
    (hkill : (tick env inp s).player.lives < s.player.lives)
    (hleft : 0 < (tick env inp s).player.lives)
    (hlen : inps.length ≤ 249) :
    (run env inps (tick env inp s)).player.lives = (tick env inp s).player.lives ∧
    (run env inps (tick env inp s)).game_state = 1 ∧
    (run env inps (tick env inp s)).player.safe_mode = true := by
  obtain ⟨k1, k2, k3⟩ := tick_killed env inp s hplay hkill hleft
  obtain ⟨r1, r2, _, r4⟩ := run_safe env inps (tick env inp s) k1 k2 (by rw [k3]; omega) (by omega)
  exact ⟨r4, r1, r2⟩

/-! ### A parked game -/

theorem playingPhase_idle (env : Env) (s : Game) (hg : s.game_state = 1)
    (hmax : s.asteroids_max ≤ s.asteroid_pool.number_actives)
    (ht : s.time_asteroids_increment = 0) :
    playingPhase env (idleInput 0) s = { s with player := s.player.update env } := by
  have h1 : topUp env s = s := by
    unfold topUp
    rw [if_neg (by omega)]
  have h2 : maxIncrement (idleInput 0) s = s := by
    unfold maxIncrement
    rw [if_neg]
    rw [ht]
    simp [idleInput]
  have h3 : applyKeys env (idleInput 0) s.player = s.player := by
    simp [applyKeys, idleInput]
  unfold playingPhase
  rw [if_pos hg.symm]
  simp only [h1, h2, h3]
  unfold shoot shotAdmitted
  simp [idleInput]

theorem bulletPhase_idle (env : Env) (s : Game)
    (h : ∀ b ∈ s.bullet_pool.objects, b.active = false) : bulletPhase env s = s := by
  unfold bulletPhase
  refine foldl_preserves (fun st bi => bulletStep env bi st) (fun t => t = s) _ s rfl ?_
  intro t bi ht
  subst ht
  cases hb : t.bullet_pool.objects[bi]? with
  | none => exact bulletStep_none hb
  | some b =>
    exact bulletStep_inactive hb (h b (List.getElem?_mem hb))

theorem drawPhase_idle (env : Env) (t : ℚ) (s : Game) : drawPhase env (idleInput t) s = s := by
  simp [drawPhase, startMatch, resetGame, idleInput]

theorem tick_idle (env : Env) (s : Game) (hg : s.game_state = 1)
    (hmax : s.asteroids_max ≤ s.asteroid_pool.number_actives)
    (ht : s.time_asteroids_increment = 0)
    (hb : ∀ b ∈ s.bullet_pool.objects, b.active = false) :
    tick env (idleInput 0) s =
      particlePhase (gameOverCheck (asteroidPhase env { s with player := s.player.update env })) := by
  unfold tick
  rw [drawPhase_idle, playingPhase_idle env s hg hmax ht]
  rw [bulletPhase_idle env { s with player := s.player.update env } hb]

theorem gameOverCheck_frame (s : Game) :
    (gameOverCheck s).bullet_pool = s.bullet_pool ∧ (gameOverCheck s).asteroid_pool = s.asteroid_pool ∧
    (gameOverCheck s).asteroids_max = s.asteroids_max ∧
    (gameOverCheck s).time_asteroids_increment = s.time_asteroids_increment := by
  unfold gameOverCheck
  split <;> exact ⟨rfl, rfl, rfl, rfl⟩

theorem particlePhase_frame (s : Game) :
    (particlePhase s).bullet_pool = s.bullet_pool ∧ (particlePhase s).asteroid_pool = s.asteroid_pool ∧
    (particlePhase s).asteroids_max = s.asteroids_max ∧
    (particlePhase s).time_asteroids_increment = s.time_asteroids_increment := by
  unfold particlePhase
  exact ⟨rfl, rfl, rfl, rfl⟩

theorem asteroidPhase_number_actives (env : Env) (s : Game) :
    (asteroidPhase env s).asteroid_pool.number_actives = s.asteroid_pool.number_actives := by
  unfold asteroidPhase
  refine foldl_preserves (fun st ai => asteroidStep env ai st)
    (fun t => t.asteroid_pool.number_actives = s.asteroid_pool.number_actives) _ s rfl ?_
  intro t ai ht
  rw [(asteroidStep_number_actives env ai t).1, ht]

/-- The effect of `Player::update` on a player at rest at the centre with rotation 0. -/
theorem update_parked (env : Env) (p : Player)
    (hclamp : env.Vector2ClampValue ⟨0, 0⟩ (-PLAYER_SPEED_LIMIT) PLAYER_SPEED_LIMIT = ⟨0, 0⟩)
    (hpos : p.pos = ⟨512, 384⟩) (hvel : p.vel = ⟨0, 0⟩) (hrot : p.rot = 0) (hrv : p.rot_vel = 0)
    (hbh : p.base_height = 45) :
    (p.update env).pos = ⟨512, 384⟩ ∧ (p.update env).vel = ⟨0, 0⟩ ∧ (p.update env).rot = 0 ∧
    (p.update env).rot_vel = 0 ∧ (p.update env).base_height = 45 ∧
    (p.update env).shape = centreShape env := by
  have hc0 : Clamp 0 (-PLAYER_ROTATION_LIMIT) PLAYER_ROTATION_LIMIT = 0 := by
    simp only [Clamp, PLAYER_ROTATION_LIMIT]
    norm_num
  have hw1 : Player.wrapCoord (512 + 0) WINDOW_WIDTH = 512 := by
    simp [Player.wrapCoord, WINDOW_WIDTH]; norm_num
  have hw2 : Player.wrapCoord (384 + 0) WINDOW_HEIGHT = 384 := by
    simp [Player.wrapCoord, WINDOW_HEIGHT]; norm_num
  unfold centreShape Player.update
  simp only [hpos, hvel, hrot, hrv, hbh, hclamp, Vector2Add, hc0, dampRotVel_zero, hw1, hw2]
  split <;> exact ⟨rfl, rfl, by norm_num, rfl, rfl, by norm_num⟩

theorem vertexStep_zero_kill (env : Env) (st : VertexState) (pp : PolarPoint)
    (rest : List PolarPoint) (hpts : st.asteroid.points = pp :: rest) (hd : pp.distance = 0)
    (hpos : st.asteroid.pos = ⟨512, 384⟩) (hsafe : st.player.safe_mode = false)
    (hcol : env.CheckCollisionPointTriangle ⟨512, 384⟩ st.player.shape.1 st.player.shape.2.1
      st.player.shape.2.2 = true) :
    (vertexStep env 0 st).player = st.player.kill := by
  unfold vertexStep
  simp only [hpts, List.getD_cons_zero, hd, mul_zero, add_zero, sub_zero, hpos, hsafe, hcol,
    Bool.not_false, Bool.and_self, if_true]

theorem asteroidMove_parked (a : Asteroid) (hpos : a.pos = ⟨512, 384⟩) (hvel : a.vel = ⟨0, 0⟩) :
    (asteroidMove a).pos = ⟨512, 384⟩ ∧ (asteroidMove a).points = a.points ∧
    (asteroidMove a).vel = ⟨0, 0⟩ ∧ (asteroidMove a).active = a.active := by
  have hw1 : asteroidWrap (512 + 0) WINDOW_WIDTH = 512 := by
    simp [asteroidWrap, WINDOW_WIDTH]; norm_num
  have hw2 : asteroidWrap (384 + 0) WINDOW_HEIGHT = 384 := by
    simp [asteroidWrap, WINDOW_HEIGHT]; norm_num
  refine ⟨?_, rfl, ?_, rfl⟩
  · unfold asteroidMove
    simp only [hpos, hvel, Vector2Add, hw1, hw2]
  · unfold asteroidMove
    exact hvel

/-- The pass of the asteroid loop for a slot whose asteroid rests at the centre,
with the player out of safe mode and the centre inside the player's triangle:
the player is killed. -/
theorem asteroidStep_parked_kill (env : Env) (i : Nat) (s : Game) (a : Asteroid)
    (ha : s.asteroid_pool.objects[i]? = some a) (hact : a.active = true)
    (hpos : a.pos = ⟨512, 384⟩) (hvel : a.vel = ⟨0, 0⟩)
    (hd : (a.points[0]?).map (fun pp => pp.distance) = some 0)
    (hsafe : s.player.safe_mode = false)
    (hcol : env.CheckCollisionPointTriangle ⟨512, 384⟩ s.player.shape.1 s.player.shape.2.1
      s.player.shape.2.2 = true) :
    (asteroidStep env i s).player = s.player.kill := by
  obtain ⟨m1, m2, _, _⟩ := asteroidMove_parked a hpos hvel
  cases hpts : a.points with
  | nil => rw [hpts] at hd; simp at hd
  | cons pp rest =>
    have hdist : pp.distance = 0 := by
      rw [hpts] at hd
      simpa using hd
    unfold asteroidStep
    simp only [ha, hact, Bool.not_true, Bool.false_eq_true, if_false]
    rw [m2, hpts, List.length_cons, List.range_succ_eq_map, List.foldl_cons]
    generalize hst : ({ asteroid := asteroidMove a, particle_pool := s.particle_pool,
                        player := s.player, rng := s.rng } : VertexState) = st
    have e1 : st.asteroid = asteroidMove a := by rw [← hst]
    have e2 : st.player = s.player := by rw [← hst]
    have h0 := vertexStep_zero_kill env st pp rest (by rw [e1, m2, hpts]) hdist (by rw [e1, m1])
      (by rw [e2, hsafe]) (by rw [e2]; exact hcol)
    have hk := (vertexLoop_spec env (List.map Nat.succ (List.range rest.length))
      (vertexStep env 0 st)).2
    rw [h0, e2] at hk
    exact KillStep_of_safe hk rfl

theorem asteroidPhase_parked_kill (env : Env) (s : Game) (a : Asteroid)
    (ha : s.asteroid_pool.objects[0]? = some a) (hact : a.active = true)
    (hpos : a.pos = ⟨512, 384⟩) (hvel : a.vel = ⟨0, 0⟩)
    (hd : (a.points[0]?).map (fun pp => pp.distance) = some 0)
    (hsafe : s.player.safe_mode = false)
    (hcol : env.CheckCollisionPointTriangle ⟨512, 384⟩ s.player.shape.1 s.player.shape.2.1
      s.player.shape.2.2 = true) :
    (asteroidPhase env s).player = s.player.kill := by
  have h0 := asteroidStep_parked_kill env 0 s a ha hact hpos hvel hd hsafe hcol
  unfold asteroidPhase POOL_SIZE
  rw [List.range_succ_eq_map, List.foldl_cons]
  have hk : KillStep (asteroidStep env 0 s).player
      ((List.map Nat.succ (List.range 49)).foldl (fun st ai => asteroidStep env ai st)
        (asteroidStep env 0 s)).player :=
    foldl_preserves (fun st ai => asteroidStep env ai st)
      (fun t => KillStep (asteroidStep env 0 s).player t.player) _ _ (KillStep_refl _)
      (fun t ai h => KillStep_trans h (asteroidStep_frame env ai t).2)
  rw [h0] at hk
  exact KillStep_of_safe hk rfl

/-- The asteroid of slot 0 of a parked game after the asteroid loop. -/
theorem asteroidPhase_parked_slot (env : Env) (s : Game) (a : Asteroid)
    (ha : s.asteroid_pool.objects[0]? = some a) (hact : a.active = true)
    (hpos : a.pos = ⟨512, 384⟩) (hvel : a.vel = ⟨0, 0⟩)
    (hd : (a.points[0]?).map (fun pp => pp.distance) = some 0) :
    ∃ b, (asteroidPhase env s).asteroid_pool.objects[0]? = some b ∧ b.active = true ∧
      b.pos = ⟨512, 384⟩ ∧ b.vel = ⟨0, 0⟩ ∧ (b.points[0]?).map (fun pp => pp.distance) = some 0 := by
  obtain ⟨t, ht, hphase⟩ := asteroidPhase_slot env 0 s
  rw [if_pos (by decide)] at hphase
  rw [ha] at ht
  obtain ⟨b, hb, h1, h2, h3, _, _, h6⟩ := asteroidStep_self env ht hact
  obtain ⟨m1, m2, m3, m4⟩ := asteroidMove_parked a hpos hvel
  refine ⟨b, by rw [hphase, hb], by rw [h1, m4, hact], by rw [h2, m1], by rw [h3, m3], ?_⟩
  rw [h6, m2, hd]

/-- A parked game in the playing state stays parked over an idle pass. -/
theorem Parked_tick (env : Env) (s : Game)
    (hclamp : env.Vector2ClampValue ⟨0, 0⟩ (-PLAYER_SPEED_LIMIT) PLAYER_SPEED_LIMIT = ⟨0, 0⟩)
    (hg : s.game_state = 1) (h : Parked s) : Parked (tick env (idleInput 0) s) := by
  obtain ⟨hmax, ht, hb, hpos, hvel, hrot, hrv, hbh, a, ha, hact, hapos, havel, hd⟩ := h
  rw [tick_idle env s hg hmax ht hb]
  obtain ⟨u1, u2, u3, u4, u5, _⟩ := update_parked env s.player hclamp hpos hvel hrot hrv hbh
  generalize hs1 : ({ s with player := s.player.update env } : Game) = s1
  have e1 : s1.player = s.player.update env := by rw [← hs1]
  have e2 : s1.asteroid_pool = s.asteroid_pool := by rw [← hs1]
  have e3 : s1.bullet_pool = s.bullet_pool := by rw [← hs1]
  have e4 : s1.asteroids_max = s.asteroids_max := by rw [← hs1]
  have e5 : s1.time_asteroids_increment = s.time_asteroids_increment := by rw [← hs1]
  obtain ⟨⟨_, _, _, f4, f5, f6⟩, hk⟩ := asteroidPhase_frame env s1
  obtain ⟨g1, g2, g3, g4⟩ := gameOverCheck_frame (asteroidPhase env s1)
  obtain ⟨p1, p2, p3, p4⟩ := particlePhase_frame (gameOverCheck (asteroidPhase env s1))
  obtain ⟨q1, _, _, _⟩ := particlePhase_spec (gameOverCheck (asteroidPhase env s1))
  obtain ⟨r1, _, _, _⟩ := gameOverCheck_spec (asteroidPhase env s1)
  obtain ⟨b, hb1, hb2, hb3, hb4, hb5⟩ := asteroidPhase_parked_slot env s1 a (by rw [e2]; exact ha)
    hact hapos havel hd
  have hn := asteroidPhase_number_actives env s1
  have hpl : (asteroidPhase env s1).player.pos = ⟨512, 384⟩ ∧
      (asteroidPhase env s1).player.vel = ⟨0, 0⟩ ∧ (asteroidPhase env s1).player.rot = 0 ∧
      (asteroidPhase env s1).player.rot_vel = 0 ∧
      (asteroidPhase env s1).player.base_height = 45 := by
    rcases hk with e | ⟨_, e⟩
    · rw [e, e1]; exact ⟨u1, u2, u3, u4, u5⟩
    · rw [e, e1]
      refine ⟨?_, rfl, u3, u4, u5⟩
      simp only [Player.kill, WINDOW_WIDTH, WINDOW_HEIGHT]
      norm_num
  unfold Parked
  rw [p1, p2, p3, p4, q1, g1, g2, g3, g4, r1, f4, f5, f6, hn, e2, e3, e4, e5]
  exact ⟨hmax, ht, hb, hpl.1, hpl.2.1, hpl.2.2.1, hpl.2.2.2.1, hpl.2.2.2.2, b, hb1, hb2, hb3,
    hb4, hb5⟩

/-- An idle pass of a parked game in the playing state in which `Player::update`
leaves the player out of safe mode costs a life, when the centre of the room
lies inside the player's triangle. -/
theorem tick_parked_kill (env : Env) (s : Game)
    (hclamp : env.Vector2ClampValue ⟨0, 0⟩ (-PLAYER_SPEED_LIMIT) PLAYER_SPEED_LIMIT = ⟨0, 0⟩)
    (hcol : env.CheckCollisionPointTriangle ⟨512, 384⟩ (centreShape env).1 (centreShape env).2.1
      (centreShape env).2.2 = true)
    (hg : s.game_state = 1) (h : Parked s)
    (hsafe : (s.player.update env).safe_mode = false) :
    (tick env (idleInput 0) s).player.lives = s.player.lives - 1 := by
  obtain ⟨hmax, ht, hb, hpos, hvel, hrot, hrv, hbh, a, ha, hact, hapos, havel, hd⟩ := h
  rw [tick_idle env s hg hmax ht hb]
  obtain ⟨_, _, _, _, _, u6⟩ := update_parked env s.player hclamp hpos hvel hrot hrv hbh
  generalize hs1 : ({ s with player := s.player.update env } : Game) = s1
  have e1 : s1.player = s.player.update env := by rw [← hs1]
  have e2 : s1.asteroid_pool = s.asteroid_pool := by rw [← hs1]
  rw [(particlePhase_spec _).1, (gameOverCheck_spec _).1]
  rw [asteroidPhase_parked_kill env s1 a (by rw [e2]; exact ha) hact hapos havel hd
    (by rw [e1]; exact hsafe) (by rw [e1, u6]; exact hcol), e1]
  simp only [Player.kill, Player.update_lives]

theorem testEnv_clamp_zero :
    testEnv.Vector2ClampValue ⟨0, 0⟩ (-PLAYER_SPEED_LIMIT) PLAYER_SPEED_LIMIT = ⟨0, 0⟩ := by
  decide!

theorem testEnv_centre_hit :
    testEnv.CheckCollisionPointTriangle ⟨512, 384⟩ (centreShape testEnv).1
      (centreShape testEnv).2.1 (centreShape testEnv).2.2 = true := by
  decide!

theorem parkedGame_parked : Parked parkedGame := by
  refine ⟨by decide, rfl, ?_, rfl, rfl, rfl, rfl, rfl, rockAt ⟨512, 384⟩ ⟨0, 0⟩, rfl, rfl, rfl, rfl,
    rfl⟩
  intro b hb
  rw [List.eq_of_mem_replicate hb]
  rfl

/-- Idle passes of a parked game in the playing state while the countdown lasts. -/
theorem run_parked (env : Env)
    (hclamp : env.Vector2ClampValue ⟨0, 0⟩ (-PLAYER_SPEED_LIMIT) PLAYER_SPEED_LIMIT = ⟨0, 0⟩)
    (n : Nat) (s : Game) (hp : Parked s) (hg : s.game_state = 1)
    (hs : s.player.safe_mode = true) (hk : (n : Int) + 1 ≤ s.player.safe_mode_count)
    (hl : s.player.lives ≠ 0) :
    Parked (run env (List.replicate n (idleInput 0)) s) := by
  induction n generalizing s with
  | zero => rw [List.replicate_zero, run_nil]; exact hp
  | succ n ih =>
    rw [List.replicate_succ, run_cons]
    obtain ⟨t1, t2, t3, t4⟩ := tick_safe env (idleInput 0) s hg hs (by omega) hl
    exact ih _ (Parked_tick env s hclamp hg hp) t1 t2 (by rw [t3]; push_cast at hk ⊢; omega)
      (by rw [t4]; exact hl)

/-- The parked game after the pass that kills the player for the first time. -/
theorem parkedGame_first_kill :
    (tick testEnv (idleInput 0) parkedGame).player.lives = 2 ∧
    (tick testEnv (idleInput 0) parkedGame).game_state = 1 ∧
    (tick testEnv (idleInput 0) parkedGame).player.safe_mode = true ∧
    (tick testEnv (idleInput 0) parkedGame).player.safe_mode_count = 250 ∧
    Parked (tick testEnv (idleInput 0) parkedGame) := by
  have hl : (tick testEnv (idleInput 0) parkedGame).player.lives = 2 := by
    rw [tick_parked_kill testEnv parkedGame testEnv_clamp_zero testEnv_centre_hit rfl
      parkedGame_parked (by rw [Player.update_safe_mode]; rfl)]
    rfl
  obtain ⟨k1, k2, k3⟩ := tick_killed testEnv (idleInput 0) parkedGame rfl
    (by rw [hl]; decide) (by rw [hl]; decide)
  exact ⟨hl, k1, k2, k3, Parked_tick testEnv parkedGame testEnv_clamp_zero rfl parkedGame_parked⟩

/-- C5 as stated fails. In the concrete environment take a match in which the
player and an asteroid rest at the centre of the room and no key is touched.
The first pass kills the player (`lives` goes from 3 to 2). After the next 249
passes `lives` is still 2, and the 250th pass after the kill takes another
life: `Player::update` of that pass brings the countdown to 0 and clears the
flag before the collision test of the same pass. -/
theorem C5_window_250_counterexample :
    parkedGame.game_state = 1 ∧
    (tick testEnv (idleInput 0) parkedGame).player.lives < parkedGame.player.lives ∧
    (run testEnv (List.replicate 249 (idleInput 0))
      (tick testEnv (idleInput 0) parkedGame)).player.lives = 2 ∧
    (run testEnv (List.replicate 249 (idleInput 0))
      (tick testEnv (idleInput 0) parkedGame)).game_state = 1 ∧
    (run testEnv (List.replicate 250 (idleInput 0))
      (tick testEnv (idleInput 0) parkedGame)).player.lives = 1 := by
  obtain ⟨hl, hg, hs, hk, hp⟩ := parkedGame_first_kill
  obtain ⟨r1, r2, r3, r4⟩ := run_safe testEnv (List.replicate 249 (idleInput 0))
    (tick testEnv (idleInput 0) parkedGame) hg hs (by rw [hk, List.length_replicate]; decide)
    (by rw [hl]; decide)
  have hpark := run_parked testEnv testEnv_clamp_zero 249 _ hp hg hs (by rw [hk]; decide)
    (by rw [hl]; decide)
  rw [List.length_replicate, hk] at r3
  refine ⟨rfl, by rw [hl]; decide, by rw [r4, hl], r1, ?_⟩
  rw [show (250 : Nat) = 249 + 1 from rfl, List.replicate_succ', run_append, run_cons, run_nil,
    tick_parked_kill testEnv _ testEnv_clamp_zero testEnv_centre_hit r1 hpark
      (by rw [Player.update_safe_mode, r2, r3]; rfl), r4, hl]
  rfl

/-- C5, as amended, on the same match: over the 249 passes after the kill
`lives` stays at 2. -/
theorem C5_invulnerability_window_witness :
    (parkedGame.game_state = 1 ∧
      (tick testEnv (idleInput 0) parkedGame).player.lives < parkedGame.player.lives ∧
      0 < (tick testEnv (idleInput 0) parkedGame).player.lives ∧
      (List.replicate 249 (idleInput 0)).length ≤ 249) ∧
    ((run testEnv (List.replicate 249 (idleInput 0))
        (tick testEnv (idleInput 0) parkedGame)).player.lives =
      (tick testEnv (idleInput 0) parkedGame).player.lives ∧
     (run testEnv (List.replicate 249 (idleInput 0))
        (tick testEnv (idleInput 0) parkedGame)).game_state = 1 ∧
     (run testEnv (List.replicate 249 (idleInput 0))
        (tick testEnv (idleInput 0) parkedGame)).player.safe_mode = true) :=
  have hl := parkedGame_first_kill.1
  ⟨⟨rfl, by rw [hl]; decide, by rw [hl]; decide, by rw [List.length_replicate]⟩,
   C5_invulnerability_window testEnv parkedGame (idleInput 0) (List.replicate 249 (idleInput 0))
     rfl (by rw [hl]; decide) (by rw [hl]; decide) (by rw [List.length_replicate])⟩

/-! ## Spawning asteroids and the number of active ones (C12, C14) -/

theorem AsteroidRevive_count (env : Env) (pool : Pool Asteroid) (sz : AsteroidShape) (x y : Int)
    (g : Rand) (hinv : pool.CountInv) (hlt : pool.number_actives < 50) :
    (AsteroidRevive env pool sz x y g).2.1.CountInv ∧
    (AsteroidRevive env pool sz x y g).2.1.number_actives = pool.number_actives + 1 ∧
    ((∀ a ∈ pool.objects, a.active = true → a.size = sz) →
      ∀ a ∈ (AsteroidRevive env pool sz x y g).2.1.objects, a.active = true → a.size = sz) := by
  rcases AsteroidRevive_spec env pool sz x y g with ⟨hall, _⟩ |
    ⟨i, a, b, ha, hact, _, _, hpool, hb, hsz, _, _⟩
  · exfalso
    have hc : pool.objects.countP (fun o => active o) = pool.objects.length := by
      rw [List.countP_eq_length]
      intro a ha
      simpa using hall a ha
    have h2 := hinv.2
    have h1 := hinv.1
    unfold Pool.activeCount at h2
    rw [hc, h1] at h2
    simp only [POOL_SIZE] at h2
    omega
  · rw [hpool]
    refine ⟨⟨?_, ?_⟩, rfl, ?_⟩
    · simpa using hinv.1
    · have hc := countP_set_of_inactive (b := b) ha hact hb
      simp only [Pool.activeCount]
      rw [hc, hinv.2]
      simp [Pool.activeCount]
    · intro hn c hc hca
      rcases List.mem_or_eq_of_mem_set hc with h | h
      · exact hn c h hca
      · rw [h]; exact hsz

theorem AsteroidSpawnRandomLoop_count (env : Env) (more : Nat) (pool : Pool Asteroid) (g : Rand)
    (hinv : pool.CountInv) (hlt : pool.number_actives + more < 50) :
    (AsteroidSpawnRandomLoop env more pool g).1.CountInv ∧
    (AsteroidSpawnRandomLoop env more pool g).1.number_actives = pool.number_actives + more + 1 ∧
    ((∀ a ∈ pool.objects, a.active = true → a.size = AsteroidShape.Normal) →
      ∀ a ∈ (AsteroidSpawnRandomLoop env more pool g).1.objects,
        a.active = true → a.size = AsteroidShape.Normal) := by
  induction more generalizing pool g with
  | zero =>
    have h := AsteroidRevive_count env pool .Normal 0 0 g hinv (by omega)
    simp only [AsteroidSpawnRandomLoop]
    exact ⟨h.1, by rw [h.2.1]; simp, h.2.2⟩
  | succ k ih =>
    have h := AsteroidRevive_count env pool .Normal 0 0 g hinv (by omega)
    simp only [AsteroidSpawnRandomLoop]
    have h2 := ih (AsteroidRevive env pool .Normal 0 0 g).2.1 (AsteroidRevive env pool .Normal 0 0 g).2.2
      h.1 (by rw [h.2.1]; omega)
    refine ⟨h2.1, ?_, fun hn => h2.2.2 (h.2.2 hn)⟩
    rw [h2.2.1, h.2.1]
    push_cast
    ring

theorem AsteroidClearAll_spec (p : Pool Asteroid) :
    (AsteroidClearAll p).number_actives = 0 ∧
    ∀ a ∈ (AsteroidClearAll p).objects, a.active = false := by
  refine ⟨rfl, ?_⟩
  intro a ha
  simp only [AsteroidClearAll, List.mem_map] at ha
  obtain ⟨c, _, rfl⟩ := ha
  rfl

/-- The eight asteroids spawned on a cleared pool. -/
theorem spawn_start_number (env : Env) (p : Pool Asteroid) (g : Rand)
    (hlen : p.objects.length = POOL_SIZE) :
    (AsteroidSpawnRandom env (AsteroidClearAll p) ASTEROID_START_NUMBER g).1.CountInv ∧
    (AsteroidSpawnRandom env (AsteroidClearAll p) ASTEROID_START_NUMBER g).1.number_actives = 8 ∧
    ∀ a ∈ (AsteroidSpawnRandom env (AsteroidClearAll p) ASTEROID_START_NUMBER g).1.objects,
      a.active = true → a.size = AsteroidShape.Normal := by
  have hc := AsteroidClearAll_countInv p hlen
  have hs := AsteroidClearAll_spec p
  have h := AsteroidSpawnRandomLoop_count env 7 (AsteroidClearAll p) g hc (by rw [hs.1]; norm_num)
  have he : AsteroidSpawnRandom env (AsteroidClearAll p) ASTEROID_START_NUMBER g =
      AsteroidSpawnRandomLoop env 7 (AsteroidClearAll p) g := rfl
  rw [he]
  refine ⟨h.1, ?_, h.2.2 ?_⟩
  · rw [h.2.1, hs.1]; norm_num
  · intro a ha hact
    rw [hs.2 a ha] at hact
    exact absurd hact (by simp)

theorem topUp_count (env : Env) (s : Game) (hinv : s.asteroid_pool.CountInv)
    (hM : s.asteroids_max ≤ 50) :
    (topUp env s).asteroid_pool.CountInv ∧
    (topUp env s).asteroids_max = s.asteroids_max ∧
    (topUp env s).asteroid_pool.number_actives =
      if s.asteroid_pool.number_actives < s.asteroids_max then s.asteroid_pool.number_actives + 1
      else s.asteroid_pool.number_actives := by
  unfold topUp
  by_cases h : s.asteroid_pool.number_actives < s.asteroids_max
  · rw [if_pos h, if_pos h]
    have he : AsteroidSpawnRandom env s.asteroid_pool 1 s.rng =
        AsteroidSpawnRandomLoop env 0 s.asteroid_pool s.rng := rfl
    have hl := AsteroidSpawnRandomLoop_count env 0 s.asteroid_pool s.rng hinv (by omega)
    simp only [he]
    exact ⟨hl.1, trivial, by rw [hl.2.1]; simp⟩
  · rw [if_neg h, if_neg h]
    exact ⟨hinv, rfl, rfl⟩

theorem playingPhase_asteroid_pool (env : Env) (inp : Input) (s : Game) (hg : s.game_state = 1) :
    (playingPhase env inp s).asteroid_pool = (topUp env s).asteroid_pool := by
  unfold playingPhase
  rw [if_pos hg.symm]
  simp only
  unfold shoot
  split
  · simp only
    unfold maxIncrement
    split <;> rfl
  · simp only
    unfold maxIncrement
    split <;> rfl

/-! ## `Choose` (C11) -/

theorem Choose_eq (env : Env) (a b : Int) (g : Rand) :
    (Choose env a b g).1 = if (rand env g).1 = 0 then a else b := by
  unfold Choose
  simp only
  by_cases h : (rand env g).1 = 0
  · rw [h]; norm_num
  · rw [if_neg h, if_pos]
    have h1 : 1 ≤ (rand env g).1 := Nat.one_le_iff_ne_zero.mpr h
    have h2 : (1 : ℚ) ≤ ((rand env g).1 : ℚ) := by exact_mod_cast h1
    linarith

theorem rand_constRand (env : Env) (d : Nat) (hd : d ≤ env.RAND_MAX) :
    (rand env (constRand d)).1 = d := by
  simp only [rand, constRand]
  exact Nat.mod_eq_of_lt (by omega)

theorem filter_range_eq_zero (p : Nat → Bool) (n : Nat) (h0 : p 0 = true)
    (hs : ∀ k, p (k + 1) = false) : (List.range (n + 1)).filter p = [0] := by
  rw [List.range_succ_eq_map, List.filter_cons, h0, if_pos rfl]
  congr 1
  rw [List.filter_eq_nil_iff]
  intro a ha
  rw [List.mem_map] at ha
  obtain ⟨k, _, rfl⟩ := ha
  simp [hs k]

/-- C11 fails on the code. `Choose(a, b)` returns `a` only when `rand()`
returns 0 and `b` for every other draw: of the `RAND_MAX + 1` possible draws
exactly one, the draw 0, gives `a` (for `a ≠ b`). With `RAND_MAX = 2147483647`
the draw 12345, far below the midpoint, gives `b`. -/
theorem C11_choose_one_draw_in_all :
    (∀ (env : Env) (a b : Int) (g : Rand),
      (Choose env a b g).1 = if (rand env g).1 = 0 then a else b) ∧
    (∀ (env : Env) (a b : Int), a ≠ b →
      (List.range (env.RAND_MAX + 1)).filter
        (fun d => decide ((Choose env a b (constRand d)).1 = a)) = [0]) ∧
    ((rand testEnv testRand).1 = 12345 ∧ 2 * 12345 < testEnv.RAND_MAX ∧
      (Choose testEnv 10 20 testRand).1 = 20) := by
  refine ⟨Choose_eq, ?_, by decide!⟩
  intro env a b hab
  have key : ∀ d, d ∈ List.range (env.RAND_MAX + 1) →
      (decide ((Choose env a b (constRand d)).1 = a)) = decide (d = 0) := by
    intro d hd
    rw [List.mem_range] at hd
    rw [Choose_eq, rand_constRand env d (by omega)]
    by_cases h0 : d = 0
    · simp [h0]
    · simp [h0, Ne.symm hab]
  rw [List.filter_congr key]
  exact filter_range_eq_zero (fun d => decide (d = 0)) env.RAND_MAX (by simp) (by simp)

/-! ## `Player::kill` (C15) -/

/-- C15. For every player state `Player::kill` puts the player at the centre of
the room `(512, 384)`, sets the velocity to `(0, 0)`, `safe_mode` to true and
the countdown to 250, lowers `lives` by exactly 1 and leaves the rotation, the
rotational velocity and the shape cache (and the two constants of the ship)
unchanged. -/
theorem C15_kill_effect (p : Player) :
    p.kill.pos = ⟨512, 384⟩ ∧ p.kill.vel = ⟨0, 0⟩ ∧ p.kill.safe_mode = true ∧
    p.kill.safe_mode_count = 250 ∧ p.kill.lives = p.lives - 1 ∧
    p.kill.rot = p.rot ∧ p.kill.rot_vel = p.rot_vel ∧ p.kill.shape = p.shape ∧
    p.kill.base_height = p.base_height ∧ p.kill.bullet_speed_ratio = p.bullet_speed_ratio := by
  refine ⟨?_, rfl, rfl, rfl, rfl, rfl, rfl, rfl, rfl, rfl⟩
  simp only [Player.kill, WINDOW_WIDTH, WINDOW_HEIGHT]
  norm_num

/-! ## The top-up of the asteroids (C12) -/

/-- C12, amended. In a Playing pass, for every asteroid pool that satisfies the
count invariant and every maximum `M ≤ 20`, the top-up step (lines 313-316)
spawns one asteroid when fewer than `M` are active and none otherwise: the
number of active asteroids after it is `n + 1` if `n < M` and `n` if not, `n`
being the number before; the count invariant is kept, `M` is unchanged and the
rest of the block `if(1 == game_state)` does not touch the asteroid pool. -/
theorem C12_top_up_one_per_tick (env : Env) (inp : Input) (s : Game) (hg : s.game_state = 1)
    (hinv : s.asteroid_pool.CountInv) (hM : s.asteroids_max ≤ 20) :
    (topUp env s).asteroid_pool.CountInv ∧
    (topUp env s).asteroids_max = s.asteroids_max ∧
    ((topUp env s).asteroid_pool.activeCount : Int) =
      (if (s.asteroid_pool.activeCount : Int) < s.asteroids_max
        then (s.asteroid_pool.activeCount : Int) + 1 else (s.asteroid_pool.activeCount : Int)) ∧
    (playingPhase env inp s).asteroid_pool = (topUp env s).asteroid_pool := by
  have h := topUp_count env s hinv (by omega)
  refine ⟨h.1, h.2.1, ?_, playingPhase_asteroid_pool env inp s hg⟩
  rw [← h.1.2, ← hinv.2]
  exact h.2.2

/-- C12 as stated fails. With 5 asteroids active and `asteroids_max = 8` the
top-up step of a Playing pass spawns one asteroid: 6 are active after it, and
after the whole block `if(1 == game_state)`, fewer than 8. -/
theorem C12_top_up_below_max_counterexample :
    thinGame.game_state = 1 ∧ thinGame.asteroids_max = 8 ∧
    thinGame.asteroid_pool.activeCount = 5 ∧ thinGame.asteroid_pool.number_actives = 5 ∧
    (topUp testEnv thinGame).asteroid_pool.activeCount = 6 ∧
    (topUp testEnv thinGame).asteroid_pool.number_actives = 6 ∧
    (playingPhase testEnv (idleInput 0) thinGame).asteroid_pool.activeCount = 6 ∧
    ¬ ((topUp testEnv thinGame).asteroids_max ≤
        ((topUp testEnv thinGame).asteroid_pool.activeCount : Int)) := by
  decide!

/-- C12 (amended) at the match with 5 active asteroids and `asteroids_max = 8`. -/
theorem C12_top_up_one_per_tick_witness :
    (thinGame.game_state = 1 ∧ thinGame.asteroid_pool.CountInv ∧ thinGame.asteroids_max ≤ 20) ∧
    ((topUp testEnv thinGame).asteroid_pool.CountInv ∧
     (topUp testEnv thinGame).asteroids_max = thinGame.asteroids_max ∧
     ((topUp testEnv thinGame).asteroid_pool.activeCount : Int) =
      (if (thinGame.asteroid_pool.activeCount : Int) < thinGame.asteroids_max
        then (thinGame.asteroid_pool.activeCount : Int) + 1
        else (thinGame.asteroid_pool.activeCount : Int)) ∧
     (playingPhase testEnv (idleInput 0) thinGame).asteroid_pool =
       (topUp testEnv thinGame).asteroid_pool) :=
  ⟨⟨rfl, ⟨by decide!, by decide!⟩, by decide!⟩,
   C12_top_up_one_per_tick testEnv (idleInput 0) thinGame rfl ⟨by decide!, by decide!⟩
     (by decide!)⟩

/-! ## The two transitions of the drawing block (C14) -/

theorem startMatch_pressed (env : Env) (inp : Input) (s : Game) (hg : s.game_state = 0)
    (hp : inp.key_space_pressed = true) :
    startMatch env inp s =
      { s with
        game_state := 1
        score := 0
        asteroid_pool :=
          (AsteroidSpawnRandom env (AsteroidClearAll s.asteroid_pool) ASTEROID_START_NUMBER s.rng).1
        rng :=
          (AsteroidSpawnRandom env (AsteroidClearAll s.asteroid_pool) ASTEROID_START_NUMBER s.rng).2 } := by
  unfold startMatch
  rw [if_pos hg.symm, if_pos hp]

theorem startMatch_other (env : Env) (inp : Input) (s : Game) (hg : s.game_state ≠ 0) :
    startMatch env inp s = s := by
  unfold startMatch
  rw [if_neg (Ne.symm hg)]

theorem resetGame_pressed (env : Env) (inp : Input) (s : Game) (hg : s.game_state = 2)
    (hp : inp.key_space_pressed = true) :
    resetGame env inp s =
      { s with
        game_state := 0
        player := resetPlayer s.player
        asteroids_max := 8
        asteroid_pool :=
          (AsteroidSpawnRandom env (AsteroidClearAll s.asteroid_pool) ASTEROID_START_NUMBER s.rng).1
        rng :=
          (AsteroidSpawnRandom env (AsteroidClearAll s.asteroid_pool) ASTEROID_START_NUMBER s.rng).2 } := by
  unfold resetGame
  rw [if_pos hg.symm, if_pos hp]
  rfl

theorem resetGame_other (env : Env) (inp : Input) (s : Game) (hg : s.game_state ≠ 2) :
    resetGame env inp s = s := by
  unfold resetGame
  rw [if_neg (Ne.symm hg)]

theorem resetPlayer_pos (p : Player) : (resetPlayer p).pos = ⟨512, 384⟩ := by
  simp only [resetPlayer, WINDOW_WIDTH, WINDOW_HEIGHT]
  norm_num

theorem activeCount_of_countInv (p : Pool Asteroid) (n : Nat) (h : p.CountInv)
    (hn : p.number_actives = (n : Int)) : p.activeCount = n := by
  have h2 := h.2
  rw [hn] at h2
  exact_mod_cast h2.symm

/-- C14. A press of the space key on the game-over screen yields `game_state = 0`
(Title), the player at `(512, 384)` with `lives = 3`, `safe_mode = false` and a
countdown of 0, `asteroids_max = 8` and exactly 8 active asteroids, all of size
`Normal` (`number_actives = 8`, whatever the 50 slots of the asteroid pool held
before), and leaves the score unchanged; a press on the title screen yields
`game_state = 1` (Playing), `score = 0` and exactly 8 active `Normal`
asteroids. -/
theorem C14_match_reset (env : Env) (inp : Input) (s : Game)
    (hlen : s.asteroid_pool.objects.length = POOL_SIZE) (hp : inp.key_space_pressed = true) :
    (s.game_state = 2 →
      (drawPhase env inp s).game_state = 0 ∧
      (drawPhase env inp s).player.pos = ⟨512, 384⟩ ∧
      (drawPhase env inp s).player.lives = 3 ∧
      (drawPhase env inp s).player.safe_mode = false ∧
      (drawPhase env inp s).player.safe_mode_count = 0 ∧
      (drawPhase env inp s).asteroids_max = 8 ∧
      (drawPhase env inp s).asteroid_pool.number_actives = 8 ∧
      (drawPhase env inp s).asteroid_pool.activeCount = 8 ∧
      (∀ a ∈ (drawPhase env inp s).asteroid_pool.objects,
        a.active = true → a.size = AsteroidShape.Normal) ∧
      (drawPhase env inp s).score = s.score) ∧
    (s.game_state = 0 →
      (drawPhase env inp s).game_state = 1 ∧
      (drawPhase env inp s).score = 0 ∧
      (drawPhase env inp s).asteroid_pool.number_actives = 8 ∧
      (drawPhase env inp s).asteroid_pool.activeCount = 8 ∧
      (∀ a ∈ (drawPhase env inp s).asteroid_pool.objects,
        a.active = true → a.size = AsteroidShape.Normal)) := by
  have hs := spawn_start_number env s.asteroid_pool s.rng hlen
  have hc := activeCount_of_countInv _ 8 hs.1 hs.2.1
  constructor
  · intro hg
    have h1 : startMatch env inp s = s := startMatch_other env inp s (by rw [hg]; decide)
    unfold drawPhase
    rw [h1, resetGame_pressed env inp s hg hp]
    generalize AsteroidSpawnRandom env (AsteroidClearAll s.asteroid_pool) ASTEROID_START_NUMBER
      s.rng = r at hs hc
    exact ⟨rfl, resetPlayer_pos s.player, rfl, rfl, rfl, rfl, hs.2.1, hc, hs.2.2, rfl⟩
  · intro hg
    unfold drawPhase
    rw [startMatch_pressed env inp s hg hp]
    generalize AsteroidSpawnRandom env (AsteroidClearAll s.asteroid_pool) ASTEROID_START_NUMBER
      s.rng = r at hs hc
    rw [resetGame_other _ _ _ (by show (1 : Int) ≠ 2; decide)]
    exact ⟨rfl, rfl, hs.2.1, hc, hs.2.2⟩

/-- C14 at a concrete game-over state (score 7, `asteroids_max = 11`, no life
left) and at the title screen of the cold start. -/
theorem C14_match_reset_witness :
    (overGame.asteroid_pool.objects.length = POOL_SIZE ∧
      (fireInput 0).key_space_pressed = true ∧ overGame.game_state = 2 ∧
      (initGame testEnv 0 0 testRand).game_state = 0) ∧
    ((drawPhase testEnv (fireInput 0) overGame).game_state = 0 ∧
      (drawPhase testEnv (fireInput 0) overGame).player.pos = ⟨512, 384⟩ ∧
      (drawPhase testEnv (fireInput 0) overGame).player.lives = 3 ∧
      (drawPhase testEnv (fireInput 0) overGame).player.safe_mode = false ∧
      (drawPhase testEnv (fireInput 0) overGame).player.safe_mode_count = 0 ∧
      (drawPhase testEnv (fireInput 0) overGame).asteroids_max = 8 ∧
      (drawPhase testEnv (fireInput 0) overGame).asteroid_pool.number_actives = 8 ∧
      (drawPhase testEnv (fireInput 0) overGame).asteroid_pool.activeCount = 8 ∧
      (∀ a ∈ (drawPhase testEnv (fireInput 0) overGame).asteroid_pool.objects,
        a.active = true → a.size = AsteroidShape.Normal) ∧
      (drawPhase testEnv (fireInput 0) overGame).score = overGame.score) ∧
    ((drawPhase testEnv (fireInput 0) (initGame testEnv 0 0 testRand)).game_state = 1 ∧
      (drawPhase testEnv (fireInput 0) (initGame testEnv 0 0 testRand)).score = 0 ∧
      (drawPhase testEnv (fireInput 0) (initGame testEnv 0 0 testRand)).asteroid_pool.number_actives
        = 8 ∧
      (drawPhase testEnv (fireInput 0) (initGame testEnv 0 0 testRand)).asteroid_pool.activeCount
        = 8 ∧
      (∀ a ∈ (drawPhase testEnv (fireInput 0) (initGame testEnv 0 0 testRand)).asteroid_pool.objects,
        a.active = true → a.size = AsteroidShape.Normal)) :=
  ⟨⟨by decide!, rfl, rfl, rfl⟩,
   (C14_match_reset testEnv (fireInput 0) overGame (by decide!) rfl).1 rfl,
   (C14_match_reset testEnv (fireInput 0) (initGame testEnv 0 0 testRand) (by decide!) rfl).2 rfl⟩

/-! ## `ParticleBurst` (C18) -/

theorem BurstSlot_trans {x y : ℚ} {p q r : Particle} (h1 : BurstSlot x y p q)
    (h2 : BurstSlot x y q r) : BurstSlot x y p r := by
  rcases h1 with rfl | ⟨hp, hq, hpos, hlife⟩
  · exact h2
  · rcases h2 with rfl | ⟨hq2, _⟩
    · exact Or.inr ⟨hp, hq, hpos, hlife⟩
    · rw [hq] at hq2
      exact absurd hq2 (by simp)

theorem ParticleBurstLoop_full (env : Env) (x y : ℚ) (more : Nat) (pool : Pool Particle) (g : Rand)
    (hall : ∀ p ∈ pool.objects, active p = true) :
    ParticleBurstLoop env x y more pool g = (pool, g) := by
  rcases Pool.getObject_cases pool with ⟨_, hg⟩ | ⟨i, p, hp, hact, _, _⟩
  · unfold ParticleBurstLoop
    rw [hg]
  · have := hall p (List.mem_iff_getElem?.mpr ⟨i, hp⟩)
    rw [hact] at this
    exact absurd this (by simp)

/-- One pass of the loop of `ParticleBurst` that reserves slot `i`. -/
theorem ParticleBurstLoop_pass (env : Env) (x y : ℚ) (more : Nat) (pool : Pool Particle) (g : Rand)
    (i : Nat) (p : Particle) (hp : pool.objects[i]? = some p)
    (hg : pool.getObject = (some i, { objects := pool.objects.set i (setActive p true),
                                      number_actives := pool.number_actives + 1 })) :
    ∃ (q : Particle) (g1 : Rand), q.active = true ∧ q.pos = ⟨x, y⟩ ∧
      q.life_current = q.life_start ∧
      ParticleBurstLoop env x y more pool g =
        match more with
        | 0 => ({ objects := pool.objects.set i q, number_actives := pool.number_actives + 1 }, g1)
        | k + 1 => ParticleBurstLoop env x y k
            { objects := pool.objects.set i q, number_actives := pool.number_actives + 1 } g1 := by
  have hi : i < pool.objects.length := by
    rcases List.getElem?_eq_some_iff.mp hp with ⟨h, _⟩
    exact h
  refine ⟨{ (setActive p true : Particle) with
      pos := ⟨x, y⟩
      vel := ⟨(RandRangeF env (-1) 1 g).1, (RandRangeF env (-1) 1 (RandRangeF env (-1) 1 g).2).1⟩
      life_start := (GetRandomValue 60 120 (RandRangeF env (-1) 1 (RandRangeF env (-1) 1 g).2).2).1
      life_current := (GetRandomValue 60 120 (RandRangeF env (-1) 1 (RandRangeF env (-1) 1 g).2).2).1
      size := (GetRandomValue 4 12
        (GetRandomValue 60 120 (RandRangeF env (-1) 1 (RandRangeF env (-1) 1 g).2).2).2).1
      rot_speed := (RandRangeF env (-2) 2 (GetRandomValue 4 12
        (GetRandomValue 60 120 (RandRangeF env (-1) 1 (RandRangeF env (-1) 1 g).2).2).2).2).1 },
    (RandRangeF env (-2) 2 (GetRandomValue 4 12
        (GetRandomValue 60 120 (RandRangeF env (-1) 1 (RandRangeF env (-1) 1 g).2).2).2).2).2,
    rfl, rfl, rfl, ?_⟩
  cases more with
  | zero =>
    unfold ParticleBurstLoop
    rw [hg]
    simp only [Pool.modify, List.getElem?_set_self hi, List.set_set]
  | succ k =>
    rw [ParticleBurstLoop]
    rw [hg]
    simp only [Pool.modify, List.getElem?_set_self hi, List.set_set]

theorem activeCount_lt_of_inactive {T : Type} [PoolObject T] {l : List T} {i : Nat} {p : T}
    (hp : l[i]? = some p) (hact : active p = false) :
    l.countP (fun o => active o) < l.length := by
  by_contra hge
  have hle : l.countP (fun o => active o) ≤ l.length := List.countP_le_length _
  have heq : l.countP (fun o => active o) = l.length := by omega
  rw [List.countP_eq_length] at heq
  have := heq p (List.mem_iff_getElem?.mpr ⟨i, hp⟩)
  simp only [hact] at this
  exact absurd this (by simp)

theorem ParticleBurstLoop_spec (env : Env) (x y : ℚ) (more : Nat) (pool : Pool Particle)
    (g : Rand) :
    (ParticleBurstLoop env x y more pool g).1.objects.length = pool.objects.length ∧
    (ParticleBurstLoop env x y more pool g).1.activeCount =
      pool.activeCount + min (more + 1) (pool.objects.length - pool.activeCount) ∧
    (ParticleBurstLoop env x y more pool g).1.number_actives =
      pool.number_actives + (min (more + 1) (pool.objects.length - pool.activeCount) : Nat) ∧
    ∀ (i : Nat) (p : Particle), pool.objects[i]? = some p →
      ∃ q, (ParticleBurstLoop env x y more pool g).1.objects[i]? = some q ∧ BurstSlot x y p q := by
  induction more generalizing pool g with
  | zero =>
    rcases Pool.getObject_cases pool with ⟨hall, _⟩ | ⟨i, p, hp, hact, _, hg⟩
    · rw [ParticleBurstLoop_full env x y 0 pool g hall]
      have hc : pool.activeCount = pool.objects.length := by
        unfold Pool.activeCount
        rw [List.countP_eq_length]
        intro a ha
        simpa using hall a ha
      refine ⟨rfl, ?_, ?_, fun j p hj => ⟨p, hj, Or.inl rfl⟩⟩
      · rw [hc]; simp
      · rw [hc]; simp
    · obtain ⟨q, g1, hq, hpos, hlife, he⟩ := ParticleBurstLoop_pass env x y 0 pool g i p hp hg
      rw [he]
      have hlt := activeCount_lt_of_inactive hp hact
      have hcnt := countP_set_of_inactive (b := q) hp hact hq
      have hm : min (0 + 1) (pool.objects.length - pool.activeCount) = 1 := by
        unfold Pool.activeCount
        omega
      refine ⟨by simp, ?_, ?_, ?_⟩
      · rw [hm]
        exact hcnt
      · rw [hm]; simp
      · intro j p1 hj
        by_cases hji : j = i
        · subst hji
          rw [hp] at hj
          cases hj
          have hi : j < pool.objects.length := (List.getElem?_eq_some_iff.mp hp).1
          exact ⟨q, by simp [List.getElem?_set_self hi], Or.inr ⟨hact, hq, hpos, hlife⟩⟩
        · refine ⟨p1, ?_, Or.inl rfl⟩
          simp only
          rw [List.getElem?_set_ne (Ne.symm hji)]
          exact hj
  | succ k ih =>
    rcases Pool.getObject_cases pool with ⟨hall, _⟩ | ⟨i, p, hp, hact, _, hg⟩
    · rw [ParticleBurstLoop_full env x y (k + 1) pool g hall]
      have hc : pool.activeCount = pool.objects.length := by
        unfold Pool.activeCount
        rw [List.countP_eq_length]
        intro a ha
        simpa using hall a ha
      refine ⟨rfl, ?_, ?_, fun j p hj => ⟨p, hj, Or.inl rfl⟩⟩
      · rw [hc]; simp
      · rw [hc]; simp
    · obtain ⟨q, g1, hq, hpos, hlife, he⟩ :=
        ParticleBurstLoop_pass env x y (k + 1) pool g i p hp hg
      rw [he]
      have hlt := activeCount_lt_of_inactive hp hact
      have hcnt := countP_set_of_inactive (b := q) hp hact hq
      obtain ⟨h1, h2, h3, h4⟩ := ih
        { objects := pool.objects.set i q, number_actives := pool.number_actives + 1 } g1
      have hlen : (pool.objects.set i q).length = pool.objects.length := by simp
      have hm : min (k + 1) (pool.objects.length - (pool.activeCount + 1)) + 1 =
          min (k + 1 + 1) (pool.objects.length - pool.activeCount) := by
        unfold Pool.activeCount
        omega
      simp only [Pool.activeCount] at h2 h3 hm ⊢
      simp only [hlen, hcnt] at h1 h2 h3
      refine ⟨h1, ?_, ?_, ?_⟩
      · rw [h2, ← hm]; omega
      · rw [h3, ← hm]; push_cast; ring
      · intro j p1 hj
        by_cases hji : j = i
        · subst hji
          rw [hp] at hj
          cases hj
          have hi : j < pool.objects.length := (List.getElem?_eq_some_iff.mp hp).1
          obtain ⟨r, hr, hrel⟩ := h4 j q (by simp [List.getElem?_set_self hi])
          exact ⟨r, hr, BurstSlot_trans (Or.inr ⟨hact, hq, hpos, hlife⟩) hrel⟩
        · have : (pool.objects.set i q)[j]? = some p1 := by
            rw [List.getElem?_set_ne (Ne.symm hji)]
            exact hj
          exact h4 j p1 this

theorem ParticleBurstAttempts_full (env : Env) (x y : ℚ) (more : Nat) (pool : Pool Particle)
    (g : Rand) (hall : ∀ p ∈ pool.objects, active p = true) :
    ParticleBurstAttempts env x y more pool g = 1 := by
  rcases Pool.getObject_cases pool with ⟨_, hg⟩ | ⟨i, p, hp, hact, _, _⟩
  · unfold ParticleBurstAttempts
    rw [hg]
  · have := hall p (List.mem_iff_getElem?.mpr ⟨i, hp⟩)
    rw [hact] at this
    exact absurd this (by simp)

/-- One counted pass of the loop of `ParticleBurst` that reserves slot `i`:
the loop goes on from the same pool and generators as `ParticleBurstLoop`. -/
theorem ParticleBurstAttempts_pass (env : Env) (x y : ℚ) (more : Nat) (pool : Pool Particle)
    (g : Rand) (i : Nat) (p : Particle) (hp : pool.objects[i]? = some p)
    (hg : pool.getObject = (some i, { objects := pool.objects.set i (setActive p true),
                                      number_actives := pool.number_actives + 1 })) :
    ∃ (q : Particle) (g1 : Rand), q.active = true ∧
      ParticleBurstAttempts env x y more pool g =
        match more with
        | 0 => 1
        | k + 1 => 1 + ParticleBurstAttempts env x y k
            { objects := pool.objects.set i q, number_actives := pool.number_actives + 1 } g1 := by
  have hi : i < pool.objects.length := by
    rcases List.getElem?_eq_some_iff.mp hp with ⟨h, _⟩
    exact h
  refine ⟨{ (setActive p true : Particle) with
      pos := ⟨x, y⟩
      vel := ⟨(RandRangeF env (-1) 1 g).1, (RandRangeF env (-1) 1 (RandRangeF env (-1) 1 g).2).1⟩
      life_start := (GetRandomValue 60 120 (RandRangeF env (-1) 1 (RandRangeF env (-1) 1 g).2).2).1
      life_current := (GetRandomValue 60 120 (RandRangeF env (-1) 1 (RandRangeF env (-1) 1 g).2).2).1
      size := (GetRandomValue 4 12
        (GetRandomValue 60 120 (RandRangeF env (-1) 1 (RandRangeF env (-1) 1 g).2).2).2).1
      rot_speed := (RandRangeF env (-2) 2 (GetRandomValue 4 12
        (GetRandomValue 60 120 (RandRangeF env (-1) 1 (RandRangeF env (-1) 1 g).2).2).2).2).1 },
    (RandRangeF env (-2) 2 (GetRandomValue 4 12
        (GetRandomValue 60 120 (RandRangeF env (-1) 1 (RandRangeF env (-1) 1 g).2).2).2).2).2,
    rfl, ?_⟩
  cases more with
  | zero =>
    unfold ParticleBurstAttempts
    rw [hg]
  | succ k =>
    rw [ParticleBurstAttempts]
    rw [hg]
    simp only [Pool.modify, List.getElem?_set_self hi, List.set_set]

theorem ParticleBurstAttempts_spec (env : Env) (x y : ℚ) (more : Nat) (pool : Pool Particle)
    (g : Rand) :
    ParticleBurstAttempts env x y more pool g =
      min (more + 1) (pool.objects.length - pool.activeCount + 1) := by
  induction more generalizing pool g with
  | zero =>
    rcases Pool.getObject_cases pool with ⟨hall, _⟩ | ⟨i, p, hp, hact, _, hg⟩
    · rw [ParticleBurstAttempts_full env x y 0 pool g hall]
      omega
    · obtain ⟨q, g1, hq, he⟩ := ParticleBurstAttempts_pass env x y 0 pool g i p hp hg
      rw [he]
      simp only
      omega
  | succ k ih =>
    rcases Pool.getObject_cases pool with ⟨hall, _⟩ | ⟨i, p, hp, hact, _, hg⟩
    · rw [ParticleBurstAttempts_full env x y (k + 1) pool g hall]
      have hc : pool.activeCount = pool.objects.length := by
        unfold Pool.activeCount
        rw [List.countP_eq_length]
        intro a ha
        simpa using hall a ha
      rw [hc]
      omega
    · obtain ⟨q, g1, hq, he⟩ := ParticleBurstAttempts_pass env x y (k + 1) pool g i p hp hg
      rw [he]
      simp only
      have hlt := activeCount_lt_of_inactive hp hact
      have hcnt := countP_set_of_inactive (b := q) hp hact hq
      rw [ih]
      have hlen : (pool.objects.set i q).length = pool.objects.length := by simp
      simp only [Pool.activeCount, hlen, hcnt]
      omega

/-- C18, amended. For every `n` (also `n ≤ 0`) and every particle pool that
satisfies the count invariant, with `f = 50 - activeCount` inactive slots,
`ParticleBurst(pool, x, y, n)` makes `min(max(n, 1), f + 1)` reservation
attempts and activates exactly `min(max(n, 1), f)` particles: the loop body
runs once before `n` is tested, and a failed attempt ends the burst. Every slot
is either unchanged or was inactive and now holds an active particle at
`(x, y)` with `life_current = life_start`; in particular every previously
active particle is unchanged. When the pool is full the pool and the random
generators are returned unchanged. The function is total: no error is raised. -/
theorem C18_burst_truncation (env : Env) (pool : Pool Particle) (x y : ℚ) (n : Int) (g : Rand)
    (hinv : pool.CountInv) :
    (ParticleBurst env pool x y n g).1.CountInv ∧
    ParticleBurstAttempts env x y (n - 1).toNat pool g =
      min (max n 1).toNat (POOL_SIZE - pool.activeCount + 1) ∧
    (ParticleBurst env pool x y n g).1.activeCount =
      pool.activeCount + min (max n 1).toNat (POOL_SIZE - pool.activeCount) ∧
    (∀ (i : Nat) (p : Particle), pool.objects[i]? = some p →
      ∃ q, (ParticleBurst env pool x y n g).1.objects[i]? = some q ∧ BurstSlot x y p q) ∧
    (∀ (i : Nat) (p : Particle), pool.objects[i]? = some p → p.active = true →
      (ParticleBurst env pool x y n g).1.objects[i]? = some p) ∧
    (pool.activeCount = POOL_SIZE → ParticleBurst env pool x y n g = (pool, g)) := by
  have h := ParticleBurstLoop_spec env x y (n - 1).toNat pool g
  have ha := ParticleBurstAttempts_spec env x y (n - 1).toNat pool g
  have hn : (n - 1).toNat + 1 = (max n 1).toNat := by omega
  unfold ParticleBurst
  rw [hn, hinv.1] at h ha
  obtain ⟨h1, h2, h3, h4⟩ := h
  refine ⟨⟨h1, ?_⟩, ha, h2, h4, ?_, ?_⟩
  · rw [h3, h2, hinv.2]
    push_cast
    rfl
  · intro i p hp hact
    obtain ⟨q, hq, hrel⟩ := h4 i p hp
    rcases hrel with rfl | ⟨hp2, _⟩
    · exact hq
    · rw [hact] at hp2
      exact absurd hp2 (by simp)
  · intro hfull
    apply ParticleBurstLoop_full
    have hc : pool.objects.countP (fun o => active o) = pool.objects.length := by
      rw [hinv.1, ← hfull]
      rfl
    rw [List.countP_eq_length] at hc
    intro p hp
    simpa using hc p hp

/-- C18 as stated fails for `n = 0`. On a pool with 50 inactive slots
`ParticleBurst(pool, 100, 200, 0)` makes one reservation attempt and activates
one particle, at `(100, 200)`, where `n = 0` and `min(n, f) = 0`. -/
theorem C18_burst_zero_counterexample :
    (Pool.empty : Pool Particle).activeCount = 0 ∧
    ParticleBurstAttempts testEnv 100 200 ((0 : Int) - 1).toNat Pool.empty testRand = 1 ∧
    (ParticleBurst testEnv Pool.empty 100 200 0 testRand).1.activeCount = 1 ∧
    (ParticleBurst testEnv Pool.empty 100 200 0 testRand).1.number_actives = 1 ∧
    ((ParticleBurst testEnv Pool.empty 100 200 0 testRand).1.objects[0]?).map
      (fun p => (p.active, p.pos)) = some (true, ⟨100, 200⟩) ∧
    (ParticleBurst testEnv Pool.empty 100 200 0 testRand).1.activeCount ≠
      min (0 : Int).toNat (POOL_SIZE - (Pool.empty : Pool Particle).activeCount) := by
  decide!

/-- C18 (amended) for a burst of 10 on a fresh pool. -/
theorem C18_burst_truncation_witness :
    (Pool.empty : Pool Particle).CountInv ∧
    (ParticleBurst testEnv Pool.empty 100 200 10 testRand).1.activeCount =
      (Pool.empty : Pool Particle).activeCount +
        min (max (10 : Int) 1).toNat (POOL_SIZE - (Pool.empty : Pool Particle).activeCount) :=
  ⟨Pool.countInv_empty rfl,
   (C18_burst_truncation testEnv Pool.empty 100 200 10 testRand
     (Pool.countInv_empty rfl)).2.2.1⟩

/-! ## The vertex cache of a new asteroid (C17) -/

theorem createShapeLoop_shape_zero (env : Env) (sz : AsteroidShape) (d : ℚ) (count i : Nat)
    (a : Asteroid) (g : Rand) (hi : 1 ≤ i) :
    (Asteroid.createShapeLoop env sz d count i a g).1.shape[0]? = a.shape[0]? := by
  induction count generalizing i a g with
  | zero => rfl
  | succ count ih =>
    unfold Asteroid.createShapeLoop
    simp only
    rw [ih (i + 1) _ _ (by omega)]
    simp only
    rw [List.getElem?_set_ne (by omega)]

theorem GetRandomValue_ge (lo hi : Int) (g : Rand) (h : lo ≤ hi) :
    lo ≤ (GetRandomValue lo hi g).1 := by
  unfold GetRandomValue
  simp only
  have : 0 ≤ (g.ray_draws g.ray_used : Int) % (hi - lo + 1) := Int.emod_nonneg _ (by omega)
  omega

theorem createShape_shape_zero (env : Env) (a : Asteroid) (sz : AsteroidShape) (g : Rand) :
    (a.createShape env sz g).1.shape[0]? = some ⟨0, 0⟩ := by
  unfold Asteroid.createShape
  simp only
  have hge := GetRandomValue_ge 6 10 g (by norm_num)
  generalize hn : (GetRandomValue 6 10 g).1 + 2 = n
  have hn8 : 8 ≤ n := by omega
  generalize ha1 : ({ a with
      size := sz
      points := a.points ++ [⟨0, 0⟩]
      shape := (List.replicate n.toNat (⟨0, 0⟩ : Vector2)).set 0 Vector2Zero } : Asteroid) = a1
  have h0 : a1.shape[0]? = some ⟨0, 0⟩ := by
    rw [← ha1]
    simp only
    rw [List.getElem?_set_self (by simp; omega)]
    rfl
  rw [List.getElem?_set_ne (by omega)]
  rw [createShapeLoop_shape_zero env sz _ _ 1 a1 _ (le_refl 1)]
  exact h0

/-- The asteroid written by `AsteroidRevive`: its first cached vertex is
`(0, 0)`, wherever the asteroid is placed. -/
theorem AsteroidRevive_shape_zero (env : Env) (pool : Pool Asteroid) (sz : AsteroidShape)
    (x y : Int) (g : Rand) (i : Nat) (h : (AsteroidRevive env pool sz x y g).1 = some i) :
    ∃ b, (AsteroidRevive env pool sz x y g).2.1.objects[i]? = some b ∧ b.active = true ∧
      (x ≠ 0 → b.pos.x = (x : ℚ)) ∧ (y ≠ 0 → b.pos.y = (y : ℚ)) ∧
      b.shape[0]? = some ⟨0, 0⟩ := by
  rcases Pool.getObject_cases pool with ⟨hall, hg⟩ | ⟨k, a, ha, hact, hlt, hg⟩
  · unfold AsteroidRevive at h
    rw [hg] at h
    cases h
  · have hk : k < pool.objects.length := (List.getElem?_eq_some.mp ha).1
    unfold AsteroidRevive at h ⊢
    rw [hg] at h ⊢
    simp only at h
    cases h
    simp only [List.set_set]
    refine ⟨_, List.getElem?_set_self hk, ?_, ?_, ?_, ?_⟩
    · simp only
      rw [(createShape_frame env _ sz _).1]
      simp [Asteroid.deleteShape, List.getD_eq_getElem?_getD, List.getElem?_set_self hk,
        PoolObject.setActive]
    · intro hx
      simp only
      rw [(createShape_frame env _ sz _).2.1]
      simp [Asteroid.deleteShape, if_neg (Ne.symm hx)]
    · intro hy
      simp only
      rw [(createShape_frame env _ sz _).2.1]
      simp [Asteroid.deleteShape, if_neg (Ne.symm hy)]
    · simp only
      exact createShape_shape_zero env _ sz _

/-- C17 fails on the code. `createShape` caches the vertices relative to the
origin and `AsteroidRevive` does not add the position: for every environment,
pool, size, position and random state the asteroid written by `AsteroidRevive`
has first cached vertex `(0, 0)`, not `pos`. A `Tiny` asteroid created at
`(500, 400)` has `V[0] = (0, 0)` and `V[1] = (distance_1, 0)`, not
`(500 + distance_1, 400)`. In a Playing pass whose top-up spawns an asteroid at
`(1065, 1015)`, a bullet that moves to `(10, 5)` is inside the cached outline of
that asteroid: the bullet loop counts a hit and the score goes from 0 to 1. -/
theorem C17_shape_local_at_creation :
    (∀ (env : Env) (pool : Pool Asteroid) (sz : AsteroidShape) (x y : Int) (g : Rand) (i : Nat),
      (AsteroidRevive env pool sz x y g).1 = some i →
      ∃ b, (AsteroidRevive env pool sz x y g).2.1.objects[i]? = some b ∧ b.active = true ∧
        (x ≠ 0 → b.pos.x = (x : ℚ)) ∧ (y ≠ 0 → b.pos.y = (y : ℚ)) ∧
        b.shape[0]? = some ⟨0, 0⟩) ∧
    ((AsteroidRevive testEnv Pool.empty .Tiny 500 400 testRand).1 = some 0 ∧
      ((AsteroidRevive testEnv Pool.empty .Tiny 500 400 testRand).2.1.objects[0]?).map
        (fun a => (a.active, a.pos, a.shape[0]?, a.shape[1]?, a.points[1]?)) =
        some (true, ⟨500, 400⟩, some ⟨0, 0⟩, some ⟨34359935872 / 2147483647, 0⟩,
          some ⟨0, 34359935872 / 2147483647⟩)) ∧
    (cornerGame.game_state = 1 ∧ cornerGame.score = 0 ∧
      (cornerGame.bullet_pool.objects[0]?).map (fun b => Vector2Add b.pos b.vel) =
        some ⟨10, 5⟩ ∧
      ((playingPhase testEnv (idleInput 0) cornerGame).asteroid_pool.objects[0]?).map
        (fun a => (a.active, a.pos, a.shape[0]?)) = some (true, ⟨1065, 1015⟩, some ⟨0, 0⟩) ∧
      (playingPhase testEnv (idleInput 0) cornerGame).asteroid_pool.activeCount = 1 ∧
      bulletHits testEnv 0 (playingPhase testEnv (idleInput 0) cornerGame) = true ∧
      (tick testEnv (idleInput 0) cornerGame).score = 1) :=
  ⟨AsteroidRevive_shape_zero, by decide!, by decide!⟩

/-! ## The velocity clamp of `Player::update` (C16) -/

theorem Player.update_vel (env : Env) (p : Player) :
    (p.update env).vel = env.Vector2ClampValue p.vel (-PLAYER_SPEED_LIMIT) PLAYER_SPEED_LIMIT := by
  unfold Player.update
  simp only
  split <;> rfl

/-- The raymath clamp with limits `-3` and `3` on a vector whose computed
length `sqrtf (x*x + y*y)` is not negative. -/
theorem Vector2ClampValue_speed (sqrtf : ℚ → ℚ) (v : Vector2)
    (hs : 0 ≤ sqrtf (v.x * v.x + v.y * v.y)) :
    Vector2ClampValue sqrtf v (-PLAYER_SPEED_LIMIT) PLAYER_SPEED_LIMIT =
      (if 0 < v.x * v.x + v.y * v.y ∧ 3 < sqrtf (v.x * v.x + v.y * v.y) then
        ⟨v.x * (3 / sqrtf (v.x * v.x + v.y * v.y)), v.y * (3 / sqrtf (v.x * v.x + v.y * v.y))⟩
       else v) := by
  unfold Vector2ClampValue
  simp only [PLAYER_SPEED_LIMIT, gt_iff_lt]
  by_cases hq : 0 < v.x * v.x + v.y * v.y
  · rw [if_pos hq, if_neg (by linarith)]
    by_cases h3 : 3 < sqrtf (v.x * v.x + v.y * v.y)
    · rw [if_pos h3, if_pos ⟨hq, h3⟩]
    · rw [if_neg h3, if_neg (fun h => h3 h.2)]
      simp
  · rw [if_neg hq, if_neg (fun h => hq h.1)]

/-- C16, amended. Let the environment's `Vector2ClampValue` be the raymath
function over a square root `sqrtf`, and let `s = sqrtf (vx*vx + vy*vy)` be the
computed length of the incoming velocity `v`, `s ≥ 0`. `Player::update`
replaces `v` by `(vx * 3/s, vy * 3/s)` when `v` is not zero and `s > 3`, and
leaves it unchanged otherwise: the length is clamped, not the components.
Where `s` is the exact length (`s * s = vx*vx + vy*vy`), `v` is unchanged when
`vx*vx + vy*vy ≤ 9` and the new velocity has length 3 (`x*x + y*y = 9`) when
`vx*vx + vy*vy > 9`. When `s > 3` for a velocity with both components in
`[-3, 3]`, the new velocity differs from the component-wise clamp. The new
velocity is then added to the position (which is wrapped). -/
theorem C16_velocity_clamp (env : Env) (sqrtf : ℚ → ℚ) (p : Player)
    (hclamp : env.Vector2ClampValue = Vector2ClampValue sqrtf)
    (hs : 0 ≤ sqrtf (p.vel.x * p.vel.x + p.vel.y * p.vel.y)) :
    PLAYER_SPEED_LIMIT = 3 ∧
    (p.update env).vel =
      (if 0 < p.vel.x * p.vel.x + p.vel.y * p.vel.y ∧
          3 < sqrtf (p.vel.x * p.vel.x + p.vel.y * p.vel.y) then
        ⟨p.vel.x * (3 / sqrtf (p.vel.x * p.vel.x + p.vel.y * p.vel.y)),
         p.vel.y * (3 / sqrtf (p.vel.x * p.vel.x + p.vel.y * p.vel.y))⟩
       else p.vel) ∧
    (sqrtf (p.vel.x * p.vel.x + p.vel.y * p.vel.y) *
        sqrtf (p.vel.x * p.vel.x + p.vel.y * p.vel.y) =
        p.vel.x * p.vel.x + p.vel.y * p.vel.y →
      (p.vel.x * p.vel.x + p.vel.y * p.vel.y ≤ 9 → (p.update env).vel = p.vel) ∧
      (9 < p.vel.x * p.vel.x + p.vel.y * p.vel.y →
        (p.update env).vel.x * (p.update env).vel.x +
          (p.update env).vel.y * (p.update env).vel.y = 9)) ∧
    (3 < sqrtf (p.vel.x * p.vel.x + p.vel.y * p.vel.y) →
      0 < p.vel.x * p.vel.x + p.vel.y * p.vel.y →
      -3 ≤ p.vel.x → p.vel.x ≤ 3 → -3 ≤ p.vel.y → p.vel.y ≤ 3 →
      (p.update env).vel ≠ ⟨Clamp p.vel.x (-3) 3, Clamp p.vel.y (-3) 3⟩) ∧
    (p.update env).pos =
      ⟨Player.wrapCoord (p.pos.x + (p.update env).vel.x) WINDOW_WIDTH,
       Player.wrapCoord (p.pos.y + (p.update env).vel.y) WINDOW_HEIGHT⟩ := by
  have hv : (p.update env).vel =
      (if 0 < p.vel.x * p.vel.x + p.vel.y * p.vel.y ∧
          3 < sqrtf (p.vel.x * p.vel.x + p.vel.y * p.vel.y) then
        ⟨p.vel.x * (3 / sqrtf (p.vel.x * p.vel.x + p.vel.y * p.vel.y)),
         p.vel.y * (3 / sqrtf (p.vel.x * p.vel.x + p.vel.y * p.vel.y))⟩
       else p.vel) := by
    rw [Player.update_vel, hclamp, Vector2ClampValue_speed sqrtf p.vel hs]
  generalize hq : p.vel.x * p.vel.x + p.vel.y * p.vel.y = q at hs hv
  generalize hsq : sqrtf q = s at hs hv
  refine ⟨rfl, hv, ?_, ?_, ?_⟩
  · intro hex
    constructor
    · intro h9
      rw [hv, if_neg]
      intro h
      nlinarith [h.2]
    · intro h9
      have h3 : 3 < s := by
        by_contra hle
        have : s ≤ 3 := not_lt.mp hle
        nlinarith
      have hs0 : s ≠ 0 := by linarith
      rw [hv, if_pos ⟨by linarith, h3⟩]
      simp only
      have : p.vel.x * (3 / s) * (p.vel.x * (3 / s)) + p.vel.y * (3 / s) * (p.vel.y * (3 / s)) =
          9 * (p.vel.x * p.vel.x + p.vel.y * p.vel.y) / (s * s) := by
        field_simp
        ring
      rw [this, hq, hex]
      have hq0 : q ≠ 0 := by linarith
      field_simp
  · intro h3 hq0 hx1 hx2 hy1 hy2
    rw [hv, if_pos ⟨hq0, h3⟩]
    have hcx : Clamp p.vel.x (-3) 3 = p.vel.x := by
      unfold Clamp
      simp only
      rw [if_neg (not_lt.mpr hx1), if_neg (not_lt.mpr hx2)]
    have hcy : Clamp p.vel.y (-3) 3 = p.vel.y := by
      unfold Clamp
      simp only
      rw [if_neg (not_lt.mpr hy1), if_neg (not_lt.mpr hy2)]
    rw [hcx, hcy]
    intro heq
    have hs0 : s ≠ 0 := by linarith
    have hne : (3 : ℚ) / s ≠ 1 := by
      intro h1
      rw [div_eq_one_iff_eq hs0] at h1
      linarith
    have e1 : p.vel.x * (3 / s) = p.vel.x := congrArg Vector2.x heq
    have e2 : p.vel.y * (3 / s) = p.vel.y := congrArg Vector2.y heq
    have hx0 : p.vel.x = 0 := by
      have hz : p.vel.x * (3 / s - 1) = 0 := by linarith
      rcases mul_eq_zero.mp hz with h | h
      · exact h
      · exact absurd (by linarith) hne
    have hy0 : p.vel.y = 0 := by
      have hz : p.vel.y * (3 / s - 1) = 0 := by linarith
      rcases mul_eq_zero.mp hz with h | h
      · exact h
      · exact absurd (by linarith) hne
    rw [hx0, hy0] at hq
    linarith
  · rw [Player.update_pos, ← Player.update_vel]

/-- C16 (amended) in the concrete environment at the velocity `(3, 4)`, whose
length 5 the square root returns exactly. -/
theorem C16_velocity_clamp_witness :
    (testEnv.Vector2ClampValue = Vector2ClampValue approxSqrt ∧
      0 ≤ approxSqrt ((3 : ℚ) * 3 + 4 * 4) ∧ approxSqrt ((3 : ℚ) * 3 + 4 * 4) = 5) ∧
    (Player.update testEnv { pos := ⟨512, 384⟩, vel := ⟨3, 4⟩ }).vel =
      (if 0 < (3 : ℚ) * 3 + 4 * 4 ∧ 3 < approxSqrt ((3 : ℚ) * 3 + 4 * 4) then
        ⟨3 * (3 / approxSqrt ((3 : ℚ) * 3 + 4 * 4)), 4 * (3 / approxSqrt ((3 : ℚ) * 3 + 4 * 4))⟩
       else ⟨3, 4⟩) :=
  ⟨⟨rfl, by decide!, by decide!⟩,
   (C16_velocity_clamp testEnv approxSqrt { pos := ⟨512, 384⟩, vel := ⟨3, 4⟩ } rfl
     (by decide!)).2.1⟩

/-- C16 as stated fails. With the length clamp of raymath the velocity
`(3, 4)`, of length 5, becomes `(9/5, 12/5)`, of length 3, and the position
moves from `(512, 384)` to `(513.8, 386.4)`; the component-wise clamp would give
`(3, 3)`. -/
theorem C16_componentwise_counterexample :
    (Player.update testEnv { pos := ⟨512, 384⟩, vel := ⟨3, 4⟩ }).vel = ⟨9 / 5, 12 / 5⟩ ∧
    (⟨Clamp 3 (-3) 3, Clamp 4 (-3) 3⟩ : Vector2) = ⟨3, 3⟩ ∧
    (Player.update testEnv { pos := ⟨512, 384⟩, vel := ⟨3, 4⟩ }).vel ≠
      ⟨Clamp 3 (-3) 3, Clamp 4 (-3) 3⟩ ∧
    (Player.update testEnv { pos := ⟨512, 384⟩, vel := ⟨3, 4⟩ }).pos = ⟨2569 / 5, 1932 / 5⟩ := by
  decide!

/-! ## The mode machine (C13) -/

/-- The part of a pass before the drawing block changes `game_state` only from
1 to 2, and then `lives` is 0. -/
theorem ModeInv_beforeDraw {s : Game} (env : Env) (inp : Input) (h : ModeInv s) :
    ((beforeDraw env inp s).game_state = s.game_state ∨
      (s.game_state = 1 ∧ (beforeDraw env inp s).game_state = 2 ∧
        (beforeDraw env inp s).player.lives = 0)) ∧
    ((beforeDraw env inp s).game_state = 0 →
      (beforeDraw env inp s).player.lives = 3 ∨
        ((beforeDraw env inp s).player.lives = 2 ∧
          (beforeDraw env inp s).player.safe_mode = true)) := by
  obtain ⟨hm, hj⟩ := h
  obtain ⟨hk, hgs, _, _⟩ := beforeDraw_spec env inp s
  rcases hm with h0 | h1 | h2
  · have hp : playerAfterUpdate env inp s = s.player := by
      unfold playerAfterUpdate
      rw [if_neg (by omega)]
    rw [hp] at hk
    have hl : (beforeDraw env inp s).player.lives = 3 ∨
        ((beforeDraw env inp s).player.lives = 2 ∧
          (beforeDraw env inp s).player.safe_mode = true) := by
      rcases hk with hk | ⟨hsafe, hk⟩
      · rw [hk]; exact hj h0
      · rw [hk]
        rcases hj h0 with h3 | ⟨_, hs⟩
        · right
          exact ⟨by simp [Player.kill, h3], rfl⟩
        · rw [hsafe] at hs
          exact absurd hs (by simp)
    have hne : ¬ (0 = (beforeDraw env inp s).player.lives) := by
      rcases hl with h | ⟨h, _⟩ <;> omega
    rw [if_neg hne] at hgs
    exact ⟨Or.inl hgs, fun _ => hl⟩
  · by_cases hz : 0 = (beforeDraw env inp s).player.lives
    · rw [if_pos hz] at hgs
      exact ⟨Or.inr ⟨h1, hgs, hz.symm⟩, fun h => by omega⟩
    · rw [if_neg hz] at hgs
      exact ⟨Or.inl hgs, fun h => by omega⟩
  · have hb : (beforeDraw env inp s).game_state = 2 := by
      rw [hgs, h2]
      split <;> rfl
    exact ⟨Or.inl (by rw [hb, h2]), fun h => by omega⟩

theorem ModeInv_tick {s : Game} (env : Env) (inp : Input) (h : ModeInv s) :
    ModeInv (tick env inp s) := by
  obtain ⟨hb, hbj⟩ := ModeInv_beforeDraw env inp h
  obtain ⟨_, dgs, dpl, _⟩ := drawPhase_spec env inp (beforeDraw env inp s)
  have hm := h.1
  rw [tick_eq]
  unfold ModeInv
  rw [dgs, dpl]
  by_cases hp : inp.key_space_pressed = true
  · by_cases hb0 : 0 = (beforeDraw env inp s).game_state
    · rw [if_pos ⟨hb0, hp⟩]
      exact ⟨Or.inr (Or.inl rfl), fun h => by omega⟩
    · by_cases hb2 : 2 = (beforeDraw env inp s).game_state
      · rw [if_neg (fun h => hb0 h.1), if_pos ⟨hb2, hp⟩, if_pos ⟨hb2, hp⟩]
        exact ⟨Or.inl rfl, fun _ => Or.inl rfl⟩
      · rw [if_neg (fun h => hb0 h.1), if_neg (fun h => hb2 h.1), if_neg (fun h => hb2 h.1)]
        refine ⟨?_, hbj⟩
        rcases hb with hb | ⟨_, hb, _⟩ <;> omega
  · rw [if_neg (fun h => hp h.2), if_neg (fun h => hp h.2), if_neg (fun h => hp h.2)]
    refine ⟨?_, hbj⟩
    rcases hb with hb | ⟨_, hb, _⟩ <;> omega

theorem Reachable.modeInv {env : Env} {s : Game} (h : Reachable env s) : ModeInv s := by
  induction h with
  | init t1 t2 g =>
    unfold ModeInv
    rw [initGame_player, initGame_game_state]
    exact ⟨Or.inl rfl, fun _ => Or.inl rfl⟩
  | step inp s _ ih => exact ModeInv_tick env inp ih

/-- C13. The loop is entered with `game_state = 0` (Title). At the start of
every pass of every run `game_state` is 0, 1 or 2, and during the pass it
changes only as follows: before the drawing block only from 1 to 2, at the
check after the asteroid loop and with `lives = 0`; in the drawing block only
from 0 to 1 or from 2 to 0, and only when the space key is pressed. Hence a
pass that starts in Title does not end in GameOver and a pass that starts in
GameOver does not end in Playing. -/
theorem C13_mode_machine (env : Env) (inp : Input) (s : Game) (hr : Reachable env s) :
    (∀ (t_shoot t_increment : ℚ) (g : Rand),
      (initGame env t_shoot t_increment g).game_state = 0) ∧
    (s.game_state = 0 ∨ s.game_state = 1 ∨ s.game_state = 2) ∧
    (asteroidPhase env (bulletPhase env (playingPhase env inp s))).game_state = s.game_state ∧
    ((beforeDraw env inp s).game_state = s.game_state ∨
      (s.game_state = 1 ∧ (beforeDraw env inp s).game_state = 2 ∧
        (beforeDraw env inp s).player.lives = 0)) ∧
    ((tick env inp s).game_state = (beforeDraw env inp s).game_state ∨
      ((beforeDraw env inp s).game_state = 0 ∧ inp.key_space_pressed = true ∧
        (tick env inp s).game_state = 1) ∨
      ((beforeDraw env inp s).game_state = 2 ∧ inp.key_space_pressed = true ∧
        (tick env inp s).game_state = 0)) ∧
    (s.game_state = 0 → (tick env inp s).game_state ≠ 2) ∧
    (s.game_state = 2 → (tick env inp s).game_state ≠ 1) := by
  have hinv := Reachable.modeInv hr
  obtain ⟨hb, hbj⟩ := ModeInv_beforeDraw env inp hinv
  obtain ⟨_, dgs, _, _⟩ := drawPhase_spec env inp (beforeDraw env inp s)
  have hd : (tick env inp s).game_state = (beforeDraw env inp s).game_state ∨
      ((beforeDraw env inp s).game_state = 0 ∧ inp.key_space_pressed = true ∧
        (tick env inp s).game_state = 1) ∨
      ((beforeDraw env inp s).game_state = 2 ∧ inp.key_space_pressed = true ∧
        (tick env inp s).game_state = 0) := by
    rw [tick_eq, dgs]
    by_cases h0 : 0 = (beforeDraw env inp s).game_state ∧ inp.key_space_pressed = true
    · rw [if_pos h0]
      exact Or.inr (Or.inl ⟨h0.1.symm, h0.2, rfl⟩)
    · rw [if_neg h0]
      by_cases h2 : 2 = (beforeDraw env inp s).game_state ∧ inp.key_space_pressed = true
      · rw [if_pos h2]
        exact Or.inr (Or.inr ⟨h2.1.symm, h2.2, rfl⟩)
      · rw [if_neg h2]
        exact Or.inl rfl
  have hph : (asteroidPhase env (bulletPhase env (playingPhase env inp s))).game_state =
      s.game_state := by
    rw [(asteroidPhase_frame env _).1.1, (bulletPhase_frame env _).1.2.1,
      playingPhase_game_state]
  refine ⟨initGame_game_state env, hinv.1, hph, hb, hd, ?_, ?_⟩
  · intro h0
    rcases hb with hb | ⟨h1, _, _⟩
    · rcases hd with hd | ⟨_, _, hd⟩ | ⟨hd2, _, _⟩ <;> omega
    · omega
  · intro h2
    rcases hb with hb | ⟨h1, _, _⟩
    · rcases hd with hd | ⟨hd0, _, _⟩ | ⟨_, _, hd⟩ <;> omega
    · omega

/-- C13 at the first pass of a run in the concrete environment, with the space
key pressed on the title screen. -/
theorem C13_mode_machine_witness :
    Reachable testEnv (initGame testEnv 0 0 testRand) ∧
    ((initGame testEnv 0 0 testRand).game_state = 0 →
      (tick testEnv (fireInput 0) (initGame testEnv 0 0 testRand)).game_state ≠ 2) ∧
    (tick testEnv (fireInput 0) (initGame testEnv 0 0 testRand)).game_state = 1 :=
  ⟨Reachable.init 0 0 testRand,
   (C13_mode_machine testEnv (fireInput 0) (initGame testEnv 0 0 testRand)
     (Reachable.init 0 0 testRand)).2.2.2.2.2.1,
   by decide!⟩

/-! ## The draws of the random generators through the program -/

theorem SameDraws_refl (g : Rand) : SameDraws g g := ⟨rfl, rfl⟩

theorem SameDraws_trans {g h k : Rand} (h1 : SameDraws g h) (h2 : SameDraws h k) :
    SameDraws g k := ⟨h2.1.trans h1.1, h2.2.trans h1.2⟩

theorem rand_sameDraws (env : Env) (g : Rand) : SameDraws g (rand env g).2 := ⟨rfl, rfl⟩

theorem GetRandomValue_sameDraws (lo hi : Int) (g : Rand) :
    SameDraws g (GetRandomValue lo hi g).2 := ⟨rfl, rfl⟩

theorem RandRangeF_sameDraws (env : Env) (lo hi : ℚ) (g : Rand) :
    SameDraws g (RandRangeF env lo hi g).2 := ⟨rfl, rfl⟩

theorem Choose_sameDraws (env : Env) (a b : Int) (g : Rand) :
    SameDraws g (Choose env a b g).2 := ⟨rfl, rfl⟩

theorem ParticleBurstLoop_sameDraws (env : Env) (x y : ℚ) (more : Nat) (pool : Pool Particle)
    (g : Rand) : SameDraws g (ParticleBurstLoop env x y more pool g).2 := by
  induction more generalizing pool g with
  | zero =>
    unfold ParticleBurstLoop
    split
    · exact SameDraws_refl g
    · exact ⟨rfl, rfl⟩
  | succ k ih =>
    rw [ParticleBurstLoop]
    split
    · exact SameDraws_refl g
    · simp only
      exact SameDraws_trans ⟨rfl, rfl⟩ (ih _ _)

theorem ParticleBurst_sameDraws (env : Env) (pool : Pool Particle) (x y : ℚ) (n : Int)
    (g : Rand) : SameDraws g (ParticleBurst env pool x y n g).2 :=
  ParticleBurstLoop_sameDraws env x y _ pool g

theorem vertexStep_sameDraws (env : Env) (i : Nat) (st : VertexState) :
    SameDraws st.rng (vertexStep env i st).rng := by
  unfold vertexStep
  simp only
  split
  · exact ParticleBurst_sameDraws env _ _ _ _ _
  · exact SameDraws_refl _

theorem asteroidStep_sameDraws (env : Env) (ai : Nat) (s : Game) :
    SameDraws s.rng (asteroidStep env ai s).rng := by
  unfold asteroidStep
  split
  · exact SameDraws_refl _
  · split
    · exact SameDraws_refl _
    · simp only
      exact foldl_preserves (fun st i => vertexStep env i st)
        (fun st => SameDraws s.rng st.rng) _ _ (SameDraws_refl _)
        (fun st i h => SameDraws_trans h (vertexStep_sameDraws env i st))

theorem asteroidPhase_sameDraws (env : Env) (s : Game) :
    SameDraws s.rng (asteroidPhase env s).rng := by
  unfold asteroidPhase
  exact foldl_preserves (fun st ai => asteroidStep env ai st)
    (fun t => SameDraws s.rng t.rng) _ s (SameDraws_refl _)
    (fun t ai h => SameDraws_trans h (asteroidStep_sameDraws env ai t))

theorem createShapeLoop_sameDraws (env : Env) (sz : AsteroidShape) (d : ℚ) (count i : Nat)
    (a : Asteroid) (g : Rand) :
    SameDraws g (Asteroid.createShapeLoop env sz d count i a g).2 := by
  induction count generalizing i a g with
  | zero => exact SameDraws_refl g
  | succ count ih =>
    unfold Asteroid.createShapeLoop
    simp only
    exact SameDraws_trans (RandRangeF_sameDraws env 32 64 g) (ih _ _ _)

theorem createShape_sameDraws (env : Env) (a : Asteroid) (sz : AsteroidShape) (g : Rand) :
    SameDraws g (a.createShape env sz g).2 := by
  unfold Asteroid.createShape
  simp only
  exact SameDraws_trans (GetRandomValue_sameDraws 6 10 g) (createShapeLoop_sameDraws _ _ _ _ _ _ _)

theorem createShapeLoop_points_zero (env : Env) (sz : AsteroidShape) (d : ℚ) (count i : Nat)
    (a : Asteroid) (g : Rand) (pp : PolarPoint) (h : a.points[0]? = some pp) :
    (Asteroid.createShapeLoop env sz d count i a g).1.points[0]? = some pp := by
  induction count generalizing i a g with
  | zero => exact h
  | succ count ih =>
    unfold Asteroid.createShapeLoop
    simp only
    apply ih
    simp only
    rw [List.getElem?_append_left]
    · exact h
    · exact (List.getElem?_eq_some.mp h).1

theorem createShape_points_zero (env : Env) (a : Asteroid) (sz : AsteroidShape) (g : Rand)
    (h : a.points = []) : (a.createShape env sz g).1.points[0]? = some ⟨0, 0⟩ := by
  unfold Asteroid.createShape
  simp only
  rw [List.getElem?_append_left]
  · apply createShapeLoop_points_zero
    simp [h]
  · have := createShapeLoop_points_zero env sz
      (360 / ((((GetRandomValue 6 10 g).1 + 2 - 2 : Int)) : ℚ))
      ((GetRandomValue 6 10 g).1 + 2 - 2).toNat 1
      { a with size := sz, points := a.points ++ [⟨0, 0⟩],
               shape := (List.replicate ((GetRandomValue 6 10 g).1 + 2).toNat
                 (⟨0, 0⟩ : Vector2)).set 0 Vector2Zero }
      (GetRandomValue 6 10 g).2 ⟨0, 0⟩ (by simp [h])
    exact (List.getElem?_eq_some.mp this).1

/-! ## Asteroids spawned from `slowRand` -/

theorem rand_slow (g : Rand) (hs : SameDraws slowRand g) : (rand testEnv g).1 = slowDraw := by
  unfold rand
  simp only
  rw [hs.1]
  simp [slowRand, testEnv, slowDraw]

theorem GetRandomValue_slow (lo hi : Int) (g : Rand) (hs : SameDraws slowRand g) :
    (GetRandomValue lo hi g).1 = lo := by
  unfold GetRandomValue
  simp only
  rw [hs.2]
  simp [slowRand]

theorem RandRangeF_slow (g : Rand) (hs : SameDraws slowRand g) :
    (RandRangeF testEnv (-1) 1 g).1 = -driftSpeed := by
  unfold RandRangeF
  simp only
  rw [rand_slow g hs]
  simp only [slowDraw, driftSpeed, testEnv]
  norm_num

theorem Choose_slow (a b : Int) (g : Rand) (hs : SameDraws slowRand g) :
    (Choose testEnv a b g).1 = b := by
  rw [Choose_eq, rand_slow g hs]
  simp [slowDraw]

theorem AsteroidRevive_sameDraws (env : Env) (pool : Pool Asteroid) (sz : AsteroidShape)
    (x y : Int) (g : Rand) : SameDraws g (AsteroidRevive env pool sz x y g).2.2 := by
  unfold AsteroidRevive
  split
  · exact SameDraws_refl g
  · simp only
    have hx : SameDraws g (if 0 = x then
        Choose env (GetRandomValue (-64) 128 g).1
          (GetRandomValue (WINDOW_WIDTH - 128) (WINDOW_WIDTH + 64) (GetRandomValue (-64) 128 g).2).1
          (GetRandomValue (WINDOW_WIDTH - 128) (WINDOW_WIDTH + 64) (GetRandomValue (-64) 128 g).2).2
        else (x, g)).2 := by
      split
      · exact ⟨rfl, rfl⟩
      · exact SameDraws_refl g
    generalize (if 0 = x then
        Choose env (GetRandomValue (-64) 128 g).1
          (GetRandomValue (WINDOW_WIDTH - 128) (WINDOW_WIDTH + 64) (GetRandomValue (-64) 128 g).2).1
          (GetRandomValue (WINDOW_WIDTH - 128) (WINDOW_WIDTH + 64) (GetRandomValue (-64) 128 g).2).2
        else (x, g)) = xr at hx ⊢
    have hy : SameDraws xr.2 (if 0 = y then
        Choose env (GetRandomValue (-64) 128 xr.2).1
          (GetRandomValue (WINDOW_WIDTH - 128) (WINDOW_WIDTH + 64) (GetRandomValue (-64) 128 xr.2).2).1
          (GetRandomValue (WINDOW_WIDTH - 128) (WINDOW_WIDTH + 64) (GetRandomValue (-64) 128 xr.2).2).2
        else (y, xr.2)).2 := by
      split
      · exact ⟨rfl, rfl⟩
      · exact SameDraws_refl _
    generalize (if 0 = y then
        Choose env (GetRandomValue (-64) 128 xr.2).1
          (GetRandomValue (WINDOW_WIDTH - 128) (WINDOW_WIDTH + 64) (GetRandomValue (-64) 128 xr.2).2).1
          (GetRandomValue (WINDOW_WIDTH - 128) (WINDOW_WIDTH + 64) (GetRandomValue (-64) 128 xr.2).2).2
        else (y, xr.2)) = yr at hy ⊢
    refine SameDraws_trans (SameDraws_trans hx hy) ?_
    exact ⟨(createShape_sameDraws env _ sz yr.2).1, (createShape_sameDraws env _ sz yr.2).2⟩

theorem spawnCoord_slow (g : Rand) (hs : SameDraws slowRand g) :
    (Choose testEnv (GetRandomValue (-64) 128 g).1
      (GetRandomValue (WINDOW_WIDTH - 128) (WINDOW_WIDTH + 64) (GetRandomValue (-64) 128 g).2).1
      (GetRandomValue (WINDOW_WIDTH - 128) (WINDOW_WIDTH + 64) (GetRandomValue (-64) 128 g).2).2).1
      = 896 ∧
    SameDraws slowRand (Choose testEnv (GetRandomValue (-64) 128 g).1
      (GetRandomValue (WINDOW_WIDTH - 128) (WINDOW_WIDTH + 64) (GetRandomValue (-64) 128 g).2).1
      (GetRandomValue (WINDOW_WIDTH - 128) (WINDOW_WIDTH + 64) (GetRandomValue (-64) 128 g).2).2).2
      := by
  have h1 : SameDraws slowRand (GetRandomValue (-64) 128 g).2 := hs
  have h2 : SameDraws slowRand
      (GetRandomValue (WINDOW_WIDTH - 128) (WINDOW_WIDTH + 64) (GetRandomValue (-64) 128 g).2).2 :=
    hs
  refine ⟨?_, hs⟩
  rw [Choose_slow _ _ _ h2, GetRandomValue_slow _ _ _ h1]
  rfl

/-- What `AsteroidRevive` without a position does to the pool when the random
generators draw as `slowRand`: nothing when every slot is active; otherwise the
lowest inactive slot is replaced by an active asteroid at `(896, 896)` with
velocity `(-u, -u)` whose first polar point is its centre. -/
theorem AsteroidRevive_slow (pool : Pool Asteroid) (g : Rand) (hs : SameDraws slowRand g) :
    ((∀ a ∈ pool.objects, a.active = true) ∧
      (AsteroidRevive testEnv pool .Normal 0 0 g).2.1 = pool) ∨
    ∃ i a b, pool.objects[i]? = some a ∧ a.active = false ∧
      (∀ j c, j < i → pool.objects[j]? = some c → c.active = true) ∧
      (AsteroidRevive testEnv pool .Normal 0 0 g).2.1 =
        { objects := pool.objects.set i b, number_actives := pool.number_actives + 1 } ∧
      b.active = true ∧ b.pos = ⟨896, 896⟩ ∧ b.vel = ⟨-driftSpeed, -driftSpeed⟩ ∧
      (b.points[0]?).map (fun pp => pp.distance) = some 0 := by
  rcases Pool.getObject_cases pool with ⟨hall, hg⟩ | ⟨i, a, ha, hact, hlt, hg⟩
  · left
    refine ⟨hall, ?_⟩
    unfold AsteroidRevive
    rw [hg]
  · right
    have hi : i < pool.objects.length := (List.getElem?_eq_some.mp ha).1
    obtain ⟨hx, hsx⟩ := spawnCoord_slow g hs
    generalize hxr : Choose testEnv (GetRandomValue (-64) 128 g).1
      (GetRandomValue (WINDOW_WIDTH - 128) (WINDOW_WIDTH + 64) (GetRandomValue (-64) 128 g).2).1
      (GetRandomValue (WINDOW_WIDTH - 128) (WINDOW_WIDTH + 64) (GetRandomValue (-64) 128 g).2).2
      = xr at hx hsx
    obtain ⟨hy, hsy⟩ := spawnCoord_slow xr.2 hsx
    generalize hyr : Choose testEnv (GetRandomValue (-64) 128 xr.2).1
      (GetRandomValue (WINDOW_WIDTH - 128) (WINDOW_WIDTH + 64) (GetRandomValue (-64) 128 xr.2).2).1
      (GetRandomValue (WINDOW_WIDTH - 128) (WINDOW_WIDTH + 64) (GetRandomValue (-64) 128 xr.2).2).2
      = yr at hy hsy
    unfold AsteroidRevive
    rw [hg]
    simp only [List.set_set, if_true, hxr, hyr]
    refine ⟨i, a, _, ha, hact, hlt, rfl, ?_, ?_, ?_, ?_⟩
    · simp only
      rw [(createShape_frame testEnv _ .Normal _).1]
      simp [Asteroid.deleteShape, List.getD_eq_getElem?_getD, List.getElem?_set_self hi,
        PoolObject.setActive]
    · simp only
      rw [(createShape_frame testEnv _ .Normal _).2.1]
      simp [Asteroid.deleteShape, hx, hy]
    · simp only
      have hc := SameDraws_trans hsy (createShape_sameDraws testEnv
        (Asteroid.deleteShape { (List.getD (pool.objects.set i (setActive a true)) i default) with
          pos := ⟨(xr.1 : ℚ), (yr.1 : ℚ)⟩ }) .Normal yr.2)
      rw [RandRangeF_slow _ hc, RandRangeF_slow _ (SameDraws_trans hc (RandRangeF_sameDraws _ _ _ _))]
    · simp only
      rw [createShape_points_zero testEnv _ .Normal _ rfl]
      rfl

theorem AsteroidRevive_keeps_zero (env : Env) (pool : Pool Asteroid) (sz : AsteroidShape)
    (x y : Int) (g : Rand) (b0 : Asteroid) (h0 : pool.objects[0]? = some b0)
    (hact : b0.active = true) :
    (AsteroidRevive env pool sz x y g).2.1.objects[0]? = some b0 := by
  rcases AsteroidRevive_spec env pool sz x y g with ⟨_, hp⟩ | ⟨i, a, b, ha, hia, _, _, hp, _⟩
  · rw [hp]; exact h0
  · rw [hp]
    simp only
    have hi : i ≠ 0 := by
      intro hi
      subst hi
      rw [h0] at ha
      cases ha
      rw [hact] at hia
      cases hia
    rw [List.getElem?_set_ne hi]
    exact h0

theorem AsteroidSpawnRandomLoop_keeps_zero (env : Env) (more : Nat) (pool : Pool Asteroid)
    (g : Rand) (b0 : Asteroid) (h0 : pool.objects[0]? = some b0) (hact : b0.active = true) :
    (AsteroidSpawnRandomLoop env more pool g).1.objects[0]? = some b0 := by
  induction more generalizing pool g with
  | zero =>
    simp only [AsteroidSpawnRandomLoop]
    exact AsteroidRevive_keeps_zero env pool .Normal 0 0 g b0 h0 hact
  | succ k ih =>
    simp only [AsteroidSpawnRandomLoop]
    exact ih _ _ (AsteroidRevive_keeps_zero env pool .Normal 0 0 g b0 h0 hact)

theorem AsteroidSpawnRandomLoop_sameDraws (env : Env) (more : Nat) (pool : Pool Asteroid)
    (g : Rand) : SameDraws g (AsteroidSpawnRandomLoop env more pool g).2 := by
  induction more generalizing pool g with
  | zero =>
    simp only [AsteroidSpawnRandomLoop]
    exact AsteroidRevive_sameDraws env pool .Normal 0 0 g
  | succ k ih =>
    simp only [AsteroidSpawnRandomLoop]
    exact SameDraws_trans (AsteroidRevive_sameDraws env pool .Normal 0 0 g) (ih _ _)

theorem AsteroidRevive_slow_zero (pool : Pool Asteroid) (g : Rand) (hs : SameDraws slowRand g)
    (a0 : Asteroid) (h0 : pool.objects[0]? = some a0) (hact : a0.active = false) :
    ∃ b, (AsteroidRevive testEnv pool .Normal 0 0 g).2.1.objects[0]? = some b ∧
      b.active = true ∧ b.pos = driftPos 0 ∧ b.vel = ⟨-driftSpeed, -driftSpeed⟩ ∧
      (b.points[0]?).map (fun pp => pp.distance) = some 0 := by
  rcases AsteroidRevive_slow pool g hs with ⟨hall, _⟩ |
    ⟨i, a, b, ha, _, hlt, hp, hb1, hb2, hb3, hb4⟩
  · have := hall a0 (List.mem_iff_getElem?.mpr ⟨0, h0⟩)
    rw [hact] at this
    cases this
  · have hi : i = 0 := by
      by_contra hne
      have := hlt 0 a0 (Nat.pos_of_ne_zero hne) h0
      rw [hact] at this
      cases this
    subst hi
    have hlen : 0 < pool.objects.length := (List.getElem?_eq_some.mp ha).1
    refine ⟨b, ?_, hb1, hb2, hb3, hb4⟩
    rw [hp]
    exact List.getElem?_set_self hlen

theorem AsteroidSpawnRandomLoop_succ (env : Env) (more : Nat) (pool : Pool Asteroid) (g : Rand) :
    AsteroidSpawnRandomLoop env (more + 1) pool g =
      AsteroidSpawnRandomLoop env more (AsteroidRevive env pool .Normal 0 0 g).2.1
        (AsteroidRevive env pool .Normal 0 0 g).2.2 := rfl

theorem AsteroidSpawnRandom_start (env : Env) (pool : Pool Asteroid) (g : Rand) :
    AsteroidSpawnRandom env pool ASTEROID_START_NUMBER g =
      AsteroidSpawnRandomLoop env 7 pool g := rfl

/-- The asteroids spawned on a cleared pool when the random generators draw
as `slowRand`. -/
theorem spawn_slow (p : Pool Asteroid) (g : Rand) (hlen : p.objects.length = POOL_SIZE)
    (hs : SameDraws slowRand g) :
    (AsteroidSpawnRandom testEnv (AsteroidClearAll p) ASTEROID_START_NUMBER g).1.objects.length
      = POOL_SIZE ∧
    (AsteroidSpawnRandom testEnv (AsteroidClearAll p) ASTEROID_START_NUMBER g).1.number_actives
      = 8 ∧
    (∃ b, (AsteroidSpawnRandom testEnv (AsteroidClearAll p) ASTEROID_START_NUMBER g).1.objects[0]?
        = some b ∧
      b.active = true ∧ b.pos = driftPos 0 ∧ b.vel = ⟨-driftSpeed, -driftSpeed⟩ ∧
      (b.points[0]?).map (fun pp => pp.distance) = some 0) ∧
    SameDraws slowRand
      (AsteroidSpawnRandom testEnv (AsteroidClearAll p) ASTEROID_START_NUMBER g).2 := by
  have hcnt := spawn_start_number testEnv p g hlen
  have he := AsteroidSpawnRandom_start testEnv (AsteroidClearAll p) g
  refine ⟨hcnt.1.1, hcnt.2.1, ?_, ?_⟩
  · rw [he]
    have hc := AsteroidClearAll_countInv p hlen
    have hpos : 0 < (AsteroidClearAll p).objects.length := by
      rw [hc.1]; decide
    obtain ⟨a0, ha0⟩ : ∃ a0, (AsteroidClearAll p).objects[0]? = some a0 :=
      ⟨_, List.getElem?_eq_getElem hpos⟩
    have hin := (AsteroidClearAll_spec p).2 a0 (List.mem_iff_getElem?.mpr ⟨0, ha0⟩)
    obtain ⟨b, hb, hb1, hb2, hb3, hb4⟩ :=
      AsteroidRevive_slow_zero (AsteroidClearAll p) g hs a0 ha0 hin
    refine ⟨b, ?_, hb1, hb2, hb3, hb4⟩
    rw [AsteroidSpawnRandomLoop_succ testEnv 6]
    exact AsteroidSpawnRandomLoop_keeps_zero testEnv 6 _ _ b hb hb1
  · rw [he]
    exact SameDraws_trans hs (AsteroidSpawnRandomLoop_sameDraws testEnv 7 _ g)

/-! ## The track of a slow asteroid -/

theorem driftSpeed_bounds : 0 < driftSpeed ∧ driftSpeed * 40000 < 401 := by
  unfold driftSpeed
  constructor <;> norm_num

theorem asteroidWrap_id (c : ℚ) (limit : Int) (h0 : 0 ≤ c) (h1 : c ≤ (limit : ℚ)) :
    asteroidWrap c limit = c := by
  unfold asteroidWrap
  simp only
  rw [if_neg (not_lt.mpr h0), if_neg (not_lt.mpr h1)]

theorem asteroidWrap_high (c : ℚ) (limit : Int) (h0 : 0 ≤ c) (h1 : (limit : ℚ) < c) :
    asteroidWrap c limit = 0 := by
  unfold asteroidWrap
  simp only
  rw [if_neg (not_lt.mpr h0), if_pos h1]

theorem asteroidWrap_low (c : ℚ) (limit : Int) (h0 : c < 0) :
    asteroidWrap c limit = (limit : ℚ) := by
  unfold asteroidWrap
  simp only
  rw [if_pos h0, if_neg (lt_irrefl _)]

theorem asteroidMove_pos (a : Asteroid) :
    (asteroidMove a).pos =
      ⟨asteroidWrap (a.pos.x + a.vel.x) WINDOW_WIDTH,
       asteroidWrap (a.pos.y + a.vel.y) WINDOW_HEIGHT⟩ := rfl

theorem driftPos_zero : driftPos 0 = ⟨896, 896⟩ := rfl

theorem driftPos_one : driftPos 1 = ⟨896 - driftSpeed, 0⟩ := rfl

theorem driftPos_of_ge (k : Nat) (hk : 2 ≤ k) :
    driftPos k = ⟨896 - (k : ℚ) * driftSpeed, 768 - ((k : ℚ) - 2) * driftSpeed⟩ := by
  unfold driftPos
  rw [if_neg (by omega), if_neg (by omega)]

theorem asteroidMove_drift (a : Asteroid) (k : Nat) (hpos : a.pos = driftPos k)
    (hvel : a.vel = ⟨-driftSpeed, -driftSpeed⟩) (hk : k < 40000) :
    (asteroidMove a).pos = driftPos (k + 1) := by
  obtain ⟨hu0, hu1⟩ := driftSpeed_bounds
  have hkq : (k : ℚ) < 40000 := by exact_mod_cast hk
  have hk0 : (0 : ℚ) ≤ (k : ℚ) := Nat.cast_nonneg k
  have hku : (k : ℚ) * driftSpeed < 401 := by nlinarith
  rw [asteroidMove_pos, hpos, hvel]
  simp only [WINDOW_WIDTH, WINDOW_HEIGHT]
  rcases Nat.lt_or_ge k 2 with hlt | hge
  · interval_cases k
    · rw [driftPos_zero, driftPos_one]
      simp only
      rw [asteroidWrap_id _ _ (by linarith) (by push_cast; linarith),
        asteroidWrap_high _ _ (by linarith) (by push_cast; linarith)]
      congr 1
      ring
    · rw [driftPos_one, driftPos_of_ge 2 (le_refl 2)]
      simp only
      rw [asteroidWrap_id _ _ (by linarith) (by push_cast; linarith),
        asteroidWrap_low _ _ (by linarith)]
      push_cast
      congr 1 <;> ring
  · have hk2 : (2 : ℚ) ≤ (k : ℚ) := by exact_mod_cast hge
    rw [driftPos_of_ge k hge, driftPos_of_ge (k + 1) (by omega)]
    simp only
    rw [asteroidWrap_id _ _ (by linarith) (by push_cast; nlinarith),
      asteroidWrap_id _ _ (by nlinarith) (by push_cast; nlinarith)]
    push_cast
    congr 1 <;> ring

/-! ## The window in which a slow asteroid is inside the ship -/

theorem convex_pos (a b t : ℚ) (ha : 0 < a) (hb : 0 < b) (h0 : 0 ≤ t) (h1 : t ≤ 1) :
    0 < (1 - t) * a + t * b := by
  rcases eq_or_lt_of_le h0 with h | h
  · rw [← h]; simpa using ha
  · have : 0 ≤ (1 - t) * a := mul_nonneg (by linarith) ha.le
    have : 0 < t * b := mul_pos h hb
    linarith

/-- The triangle test of raylib holds on the segment between two points at
which it holds. -/
theorem pointInTriangle_segment (P Q A B C : Vector2) (t : ℚ) (h0 : 0 ≤ t) (h1 : t ≤ 1)
    (hP : pointInTriangle P A B C = true) (hQ : pointInTriangle Q A B C = true) :
    pointInTriangle ⟨(1 - t) * P.x + t * Q.x, (1 - t) * P.y + t * Q.y⟩ A B C = true := by
  unfold pointInTriangle at *
  simp only [Bool.and_eq_true, decide_eq_true_eq, gt_iff_lt] at *
  obtain ⟨⟨a1, b1⟩, c1⟩ := hP
  obtain ⟨⟨a2, b2⟩, c2⟩ := hQ
  refine ⟨⟨?_, ?_⟩, ?_⟩
  · have := convex_pos _ _ t a1 a2 h0 h1
    calc (0 : ℚ) < _ := this
      _ = _ := by ring
  · have := convex_pos _ _ t b1 b2 h0 h1
    calc (0 : ℚ) < _ := this
      _ = _ := by ring
  · have := convex_pos _ _ t c1 c2 h0 h1
    calc (0 : ℚ) < _ := this
      _ = _ := by ring

theorem drift_inside_ends :
    pointInTriangle (driftPos 38000) (centreShape testEnv).1 (centreShape testEnv).2.1
      (centreShape testEnv).2.2 = true ∧
    pointInTriangle (driftPos 39000) (centreShape testEnv).1 (centreShape testEnv).2.1
      (centreShape testEnv).2.2 = true := by
  decide!

/-- After 38000 to 39000 passes of the asteroid loop a slow asteroid has its
centre inside the triangle of a ship that rests at the centre of the room. -/
theorem drift_inside (k : Nat) (h1 : 38000 ≤ k) (h2 : k ≤ 39000) :
    testEnv.CheckCollisionPointTriangle (driftPos k) (centreShape testEnv).1
      (centreShape testEnv).2.1 (centreShape testEnv).2.2 = true := by
  have hk1 : (38000 : ℚ) ≤ (k : ℚ) := by exact_mod_cast h1
  have hk2 : (k : ℚ) ≤ 39000 := by exact_mod_cast h2
  have hseg := pointInTriangle_segment (driftPos 38000) (driftPos 39000)
    (centreShape testEnv).1 (centreShape testEnv).2.1 (centreShape testEnv).2.2
    (((k : ℚ) - 38000) / 1000) (by apply div_nonneg <;> linarith)
    (by rw [div_le_one (by norm_num)]; linarith) drift_inside_ends.1 drift_inside_ends.2
  have e : driftPos k =
      ⟨(1 - ((k : ℚ) - 38000) / 1000) * (driftPos 38000).x +
         ((k : ℚ) - 38000) / 1000 * (driftPos 39000).x,
       (1 - ((k : ℚ) - 38000) / 1000) * (driftPos 38000).y +
         ((k : ℚ) - 38000) / 1000 * (driftPos 39000).y⟩ := by
    rw [driftPos_of_ge k (by omega), driftPos_of_ge 38000 (by norm_num),
      driftPos_of_ge 39000 (by norm_num)]
    simp only
    push_cast
    congr 1 <;> ring
  rw [e]
  exact hseg

/-! ## A collision that is certain -/

theorem vertexStep_first_kill (env : Env) (st : VertexState) (pp : PolarPoint)
    (rest : List PolarPoint) (hpts : st.asteroid.points = pp :: rest) (hd : pp.distance = 0)
    (hsafe : st.player.safe_mode = false)
    (hcol : env.CheckCollisionPointTriangle ⟨st.asteroid.pos.x, st.asteroid.pos.y⟩
      st.player.shape.1 st.player.shape.2.1 st.player.shape.2.2 = true) :
    (vertexStep env 0 st).player = st.player.kill := by
  unfold vertexStep
  simp only [hpts, List.getD_cons_zero, hd, mul_zero, add_zero, sub_zero, hsafe, hcol,
    Bool.not_false, Bool.and_self, if_true]

/-- The pass of the asteroid loop for an active asteroid whose first polar
point is its centre and whose centre, after the move, is inside the triangle of
a player that is not in safe mode: the player is killed. -/
theorem asteroidStep_first_kill (env : Env) (i : Nat) (s : Game) (a : Asteroid)
    (ha : s.asteroid_pool.objects[i]? = some a) (hact : a.active = true)
    (hd : (a.points[0]?).map (fun pp => pp.distance) = some 0)
    (hsafe : s.player.safe_mode = false)
    (hcol : env.CheckCollisionPointTriangle (asteroidMove a).pos s.player.shape.1
      s.player.shape.2.1 s.player.shape.2.2 = true) :
    (asteroidStep env i s).player = s.player.kill := by
  cases hpts : a.points with
  | nil => rw [hpts] at hd; simp at hd
  | cons pp rest =>
    have hdist : pp.distance = 0 := by
      rw [hpts] at hd
      simpa using hd
    have m2 : (asteroidMove a).points = a.points := rfl
    unfold asteroidStep
    simp only [ha, hact, Bool.not_true, Bool.false_eq_true, if_false]
    rw [m2, hpts, List.length_cons, List.range_succ_eq_map, List.foldl_cons]
    generalize hst : ({ asteroid := asteroidMove a, particle_pool := s.particle_pool,
                        player := s.player, rng := s.rng } : VertexState) = st
    have e1 : st.asteroid = asteroidMove a := by rw [← hst]
    have e2 : st.player = s.player := by rw [← hst]
    have h0 := vertexStep_first_kill env st pp rest (by rw [e1, m2, hpts]) hdist
      (by rw [e2, hsafe]) (by rw [e1, e2]; exact hcol)
    have hk := (vertexLoop_spec env (List.map Nat.succ (List.range rest.length))
      (vertexStep env 0 st)).2
    rw [h0, e2] at hk
    exact KillStep_of_safe hk rfl

theorem asteroidPhase_first_kill (env : Env) (s : Game) (a : Asteroid)
    (ha : s.asteroid_pool.objects[0]? = some a) (hact : a.active = true)
    (hd : (a.points[0]?).map (fun pp => pp.distance) = some 0)
    (hsafe : s.player.safe_mode = false)
    (hcol : env.CheckCollisionPointTriangle (asteroidMove a).pos s.player.shape.1
      s.player.shape.2.1 s.player.shape.2.2 = true) :
    (asteroidPhase env s).player = s.player.kill := by
  have h0 := asteroidStep_first_kill env 0 s a ha hact hd hsafe hcol
  unfold asteroidPhase POOL_SIZE
  rw [List.range_succ_eq_map, List.foldl_cons]
  have hk : KillStep (asteroidStep env 0 s).player
      ((List.map Nat.succ (List.range 49)).foldl (fun st ai => asteroidStep env ai st)
        (asteroidStep env 0 s)).player :=
    foldl_preserves (fun st ai => asteroidStep env ai st)
      (fun t => KillStep (asteroidStep env 0 s).player t.player) _ _ (KillStep_refl _)
      (fun t ai h => KillStep_trans h (asteroidStep_frame env ai t).2)
  rw [h0] at hk
  exact KillStep_of_safe hk rfl

/-- The asteroid of slot 0 after the asteroid loop: moved once. -/
theorem asteroidPhase_drift_slot (env : Env) (s : Game) (k : Nat) (hk : k < 40000)
    (h : Drifting k s) : Drifting (k + 1) (asteroidPhase env s) := by
  obtain ⟨a, ha, hact, hpos, hvel, hd⟩ := h
  obtain ⟨t, ht, hphase⟩ := asteroidPhase_slot env 0 s
  rw [if_pos (by decide)] at hphase
  rw [ha] at ht
  obtain ⟨b, hb, h1, h2, h3, _, _, h6⟩ := asteroidStep_self env ht hact
  have m2 : (asteroidMove a).points = a.points := rfl
  have m3 : (asteroidMove a).vel = a.vel := rfl
  have m4 : (asteroidMove a).active = a.active := rfl
  refine ⟨b, by rw [hphase, hb], by rw [h1, m4, hact], ?_, by rw [h3, m3, hvel], ?_⟩
  · rw [h2]
    exact asteroidMove_drift a k hpos hvel hk
  · rw [h6, m2, hd]

theorem asteroidPhase_length (env : Env) (s : Game) :
    (asteroidPhase env s).asteroid_pool.objects.length = s.asteroid_pool.objects.length := by
  unfold asteroidPhase
  refine foldl_preserves (fun st ai => asteroidStep env ai st)
    (fun t => t.asteroid_pool.objects.length = s.asteroid_pool.objects.length) _ s rfl ?_
  intro t ai ht
  rw [(asteroidStep_number_actives env ai t).2, ht]

/-! ## Passes of a calm game -/

theorem kill_parked (p : Player) :
    p.kill.pos = ⟨512, 384⟩ ∧ p.kill.vel = ⟨0, 0⟩ ∧ p.kill.rot = p.rot ∧
    p.kill.rot_vel = p.rot_vel ∧ p.kill.base_height = p.base_height ∧ p.kill.shape = p.shape := by
  refine ⟨?_, rfl, rfl, rfl, rfl, rfl⟩
  simp only [Player.kill, WINDOW_WIDTH, WINDOW_HEIGHT]
  norm_num

theorem gameOverCheck_rng (s : Game) : (gameOverCheck s).rng = s.rng := by
  unfold gameOverCheck
  split <;> rfl

theorem particlePhase_rng (s : Game) : (particlePhase s).rng = s.rng := by
  unfold particlePhase
  rfl

/-- The asteroid loop, the game-over check and the particle update on a calm
game. -/
theorem Calm_asteroids (s : Game) (hc : Calm s) :
    Calm (particlePhase (gameOverCheck (asteroidPhase testEnv s))) ∧
    KillStep s.player (particlePhase (gameOverCheck (asteroidPhase testEnv s))).player ∧
    (particlePhase (gameOverCheck (asteroidPhase testEnv s))).game_state =
      (if 0 = (particlePhase (gameOverCheck (asteroidPhase testEnv s))).player.lives then 2
       else s.game_state) ∧
    (particlePhase (gameOverCheck (asteroidPhase testEnv s))).player.shape = s.player.shape ∧
    (particlePhase (gameOverCheck (asteroidPhase testEnv s))).asteroid_pool =
      (asteroidPhase testEnv s).asteroid_pool ∧
    (particlePhase (gameOverCheck (asteroidPhase testEnv s))).player =
      (asteroidPhase testEnv s).player := by
  obtain ⟨c1, c2, c3, c4, c5, c6, c7, c8, c9, c10, c11⟩ := hc
  obtain ⟨⟨f1, _, _, f4, f5, f6⟩, hk⟩ := asteroidPhase_frame testEnv s
  obtain ⟨g1, g2, g3, g4⟩ := gameOverCheck_frame (asteroidPhase testEnv s)
  obtain ⟨p1, p2, p3, p4⟩ := particlePhase_frame (gameOverCheck (asteroidPhase testEnv s))
  obtain ⟨q1, q2, _, _⟩ := particlePhase_spec (gameOverCheck (asteroidPhase testEnv s))
  obtain ⟨r1, _, r3, _⟩ := gameOverCheck_spec (asteroidPhase testEnv s)
  have hn := asteroidPhase_number_actives testEnv s
  have hl := asteroidPhase_length testEnv s
  have hr := asteroidPhase_sameDraws testEnv s
  have hrng : (particlePhase (gameOverCheck (asteroidPhase testEnv s))).rng =
      (asteroidPhase testEnv s).rng := by
    rw [particlePhase_rng, gameOverCheck_rng]
  have hpl : (asteroidPhase testEnv s).player.pos = ⟨512, 384⟩ ∧
      (asteroidPhase testEnv s).player.vel = ⟨0, 0⟩ ∧ (asteroidPhase testEnv s).player.rot = 0 ∧
      (asteroidPhase testEnv s).player.rot_vel = 0 ∧
      (asteroidPhase testEnv s).player.base_height = 45 ∧
      (asteroidPhase testEnv s).player.shape = s.player.shape := by
    rcases hk with e | ⟨_, e⟩
    · rw [e]; exact ⟨c5, c6, c7, c8, c9, rfl⟩
    · rw [e]
      obtain ⟨k1, k2, k3, k4, k5, k6⟩ := kill_parked s.player
      exact ⟨k1, k2, k3.trans c7, k4.trans c8, k5.trans c9, k6⟩
  have hpe : (particlePhase (gameOverCheck (asteroidPhase testEnv s))).player =
      (asteroidPhase testEnv s).player := q1.trans r1
  refine ⟨?_, ?_, ?_, ?_, ?_, hpe⟩
  · unfold Calm
    rw [hpe, hrng, p1, p2, p3, p4, g1, g2, g3, g4, f4, f5, f6, hn, hl]
    exact ⟨c1, c2, c3, c4, hpl.1, hpl.2.1, hpl.2.2.1, hpl.2.2.2.1, hpl.2.2.2.2.1, c10,
      SameDraws_trans c11 hr⟩
  · rw [hpe]; exact hk
  · rw [hpe, q2, r3, f1]
  · rw [hpe]; exact hpl.2.2.2.2.2
  · rw [p2, g2]

theorem Drifting_asteroids (s : Game) (k : Nat) (hk : k < 40000) (hd : Drifting k s) :
    Drifting (k + 1) (particlePhase (gameOverCheck (asteroidPhase testEnv s))) := by
  have h := asteroidPhase_drift_slot testEnv s k hk hd
  unfold Drifting at h ⊢
  rw [(particlePhase_frame _).2.1, (gameOverCheck_frame _).2.1]
  exact h

/-- Inside the window the asteroid of slot 0 kills a player that is not in
safe mode and whose cached triangle is the one around the centre. -/
theorem kill_asteroids (s : Game) (k : Nat) (h1 : 38000 ≤ k + 1) (h2 : k + 1 ≤ 39000)
    (hd : Drifting k s) (hsafe : s.player.safe_mode = false)
    (hshape : s.player.shape = centreShape testEnv) :
    (particlePhase (gameOverCheck (asteroidPhase testEnv s))).player = s.player.kill := by
  obtain ⟨a, ha, hact, hpos, hvel, hdist⟩ := hd
  rw [(particlePhase_spec _).1, (gameOverCheck_spec _).1]
  apply asteroidPhase_first_kill testEnv s a ha hact hdist hsafe
  rw [asteroidMove_drift a k hpos hvel (by omega), hshape]
  exact drift_inside (k + 1) h1 h2

theorem beforeDraw_other (env : Env) (inp : Input) (s : Game) (hg : s.game_state ≠ 1)
    (hb : ∀ b ∈ s.bullet_pool.objects, b.active = false) :
    beforeDraw env inp s = particlePhase (gameOverCheck (asteroidPhase env s)) := by
  unfold beforeDraw
  have h1 : playingPhase env inp s = s := by
    unfold playingPhase
    rw [if_neg (Ne.symm hg)]
  rw [h1, bulletPhase_idle env s hb]

/-- An idle pass of a calm game in the playing state. -/
theorem tick_calm_playing (s : Game) (k : Nat) (hk : k < 40000) (hc : Calm s)
    (hd : Drifting k s) (hg : s.game_state = 1) :
    Calm (tick testEnv (idleInput 0) s) ∧ Drifting (k + 1) (tick testEnv (idleInput 0) s) ∧
    KillStep (s.player.update testEnv) (tick testEnv (idleInput 0) s).player ∧
    (tick testEnv (idleInput 0) s).game_state =
      (if 0 = (tick testEnv (idleInput 0) s).player.lives then 2 else 1) ∧
    (tick testEnv (idleInput 0) s).player.shape = centreShape testEnv ∧
    (38000 ≤ k + 1 → k + 1 ≤ 39000 → (s.player.update testEnv).safe_mode = false →
      (tick testEnv (idleInput 0) s).player = (s.player.update testEnv).kill) := by
  obtain ⟨c1, c2, c3, c4, c5, c6, c7, c8, c9, c10, c11⟩ := hc
  rw [tick_idle testEnv s hg (by rw [c1, c2]) c3 c4]
  obtain ⟨u1, u2, u3, u4, u5, u6⟩ :=
    update_parked testEnv s.player testEnv_clamp_zero c5 c6 c7 c8 c9
  generalize hs1 : ({ s with player := s.player.update testEnv } : Game) = s1
  have e1 : s1.player = s.player.update testEnv := by rw [← hs1]
  have e2 : s1.asteroid_pool = s.asteroid_pool := by rw [← hs1]
  have e3 : s1.bullet_pool = s.bullet_pool := by rw [← hs1]
  have e4 : s1.asteroids_max = s.asteroids_max := by rw [← hs1]
  have e5 : s1.time_asteroids_increment = s.time_asteroids_increment := by rw [← hs1]
  have e6 : s1.rng = s.rng := by rw [← hs1]
  have e7 : s1.game_state = s.game_state := by rw [← hs1]
  have hc1 : Calm s1 := by
    unfold Calm
    rw [e1, e2, e3, e4, e5, e6]
    exact ⟨c1, c2, c3, c4, u1, u2, u3, u4, u5, c10, c11⟩
  have hd1 : Drifting k s1 := by
    unfold Drifting at hd ⊢
    rw [e2]
    exact hd
  obtain ⟨a1, a2, a3, a4, _, _⟩ := Calm_asteroids s1 hc1
  refine ⟨a1, Drifting_asteroids s1 k hk hd1, by rw [← e1]; exact a2, ?_, ?_, ?_⟩
  · rw [a3, e7, hg]
  · rw [a4, e1, u6]
  · intro h1 h2 hsafe
    rw [← e1]
    exact kill_asteroids s1 k h1 h2 hd1 (by rw [e1]; exact hsafe) (by rw [e1]; exact u6)

/-- An idle pass of a calm game on the title screen or the game-over screen. -/
theorem tick_calm_other (s : Game) (k : Nat) (hk : k < 40000) (hc : Calm s)
    (hd : Drifting k s) (hg : s.game_state ≠ 1) :
    Calm (tick testEnv (idleInput 0) s) ∧ Drifting (k + 1) (tick testEnv (idleInput 0) s) ∧
    KillStep s.player (tick testEnv (idleInput 0) s).player ∧
    (tick testEnv (idleInput 0) s).game_state =
      (if 0 = (tick testEnv (idleInput 0) s).player.lives then 2 else s.game_state) ∧
    (tick testEnv (idleInput 0) s).player.shape = s.player.shape ∧
    (38000 ≤ k + 1 → k + 1 ≤ 39000 → s.player.safe_mode = false →
      s.player.shape = centreShape testEnv →
      (tick testEnv (idleInput 0) s).player = s.player.kill) := by
  rw [tick_eq, drawPhase_idle, beforeDraw_other testEnv _ s hg hc.2.2.2.1]
  obtain ⟨a1, a2, a3, a4, _, _⟩ := Calm_asteroids s hc
  exact ⟨a1, Drifting_asteroids s k hk hd, a2, a3, a4,
    fun h1 h2 hsafe hshape => kill_asteroids s k h1 h2 hd hsafe hshape⟩

/-- The drawing block with the space key pressed, on the title screen of a
calm game: a match starts with freshly spawned slow asteroids. -/
theorem drawPhase_fire_title (s : Game) (hc : Calm s) (hg : s.game_state = 0) :
    Calm (drawPhase testEnv (fireInput 0) s) ∧ Drifting 0 (drawPhase testEnv (fireInput 0) s) ∧
    (drawPhase testEnv (fireInput 0) s).game_state = 1 ∧
    (drawPhase testEnv (fireInput 0) s).player = s.player := by
  obtain ⟨c1, c2, c3, c4, c5, c6, c7, c8, c9, c10, c11⟩ := hc
  obtain ⟨s1, s2, s3, s4⟩ := spawn_slow s.asteroid_pool s.rng c10 c11
  unfold drawPhase
  rw [startMatch_pressed testEnv (fireInput 0) s hg rfl]
  generalize AsteroidSpawnRandom testEnv (AsteroidClearAll s.asteroid_pool) ASTEROID_START_NUMBER
    s.rng = r at s1 s2 s3 s4
  rw [resetGame_other _ _ _ (by show (1 : Int) ≠ 2; decide)]
  exact ⟨⟨c1, s2, c3, c4, c5, c6, c7, c8, c9, s1, s4⟩, s3, rfl, rfl⟩

/-- The drawing block with the space key pressed, on the game-over screen of a
calm game: the player is reset and slow asteroids are spawned. -/
theorem drawPhase_fire_over (s : Game) (hc : Calm s) (hg : s.game_state = 2) :
    Calm (drawPhase testEnv (fireInput 0) s) ∧ Drifting 0 (drawPhase testEnv (fireInput 0) s) ∧
    (drawPhase testEnv (fireInput 0) s).game_state = 0 ∧
    (drawPhase testEnv (fireInput 0) s).player = resetPlayer s.player := by
  obtain ⟨c1, c2, c3, c4, c5, c6, c7, c8, c9, c10, c11⟩ := hc
  obtain ⟨s1, s2, s3, s4⟩ := spawn_slow s.asteroid_pool s.rng c10 c11
  unfold drawPhase
  rw [startMatch_other testEnv (fireInput 0) s (by rw [hg]; decide),
    resetGame_pressed testEnv (fireInput 0) s hg rfl]
  generalize AsteroidSpawnRandom testEnv (AsteroidClearAll s.asteroid_pool) ASTEROID_START_NUMBER
    s.rng = r at s1 s2 s3 s4
  exact ⟨⟨rfl, s2, c3, c4, resetPlayer_pos s.player, c6, c7, c8, c9, s1, s4⟩, s3, rfl, rfl⟩

/-! ## From the start of a match to the game over, and on to the title screen -/

theorem run_replicate_succ (env : Env) (inp : Input) (n : Nat) (s : Game) :
    run env (List.replicate (n + 1) inp) s = run env (List.replicate n inp) (tick env inp s) := by
  rw [List.replicate_succ, run_cons]

theorem Reachable_run {env : Env} {s : Game} (h : Reachable env s) (inps : List Input) :
    Reachable env (AsteroidGame.run env inps s) := by
  induction inps generalizing s with
  | nil => rw [run_nil]; exact h
  | cons inp rest ih =>
    rw [run_cons]
    exact ih (Reachable.step inp s h)

/-- A calm match with slow asteroids and no key pressed ends: while the
asteroid of slot 0 crosses the ship, every pass either counts the safe mode
down or costs a life. -/
theorem play_to_over (r : Nat) : ∀ (k : Nat) (s : Game), k + r = 39000 → Calm s →
    Drifting k s → s.game_state = 1 → SafeInv s.player → 1 ≤ s.player.lives →
    s.player.lives ≤ 3 → 0 ≤ s.player.safe_mode_count → s.player.safe_mode_count ≤ 250 →
    (38000 ≤ k + 1 → 251 * s.player.lives + s.player.safe_mode_count ≤ 250 + (r : Int)) →
    ∃ n, (run testEnv (List.replicate n (idleInput 0)) s).game_state = 2 ∧
      Calm (run testEnv (List.replicate n (idleInput 0)) s) ∧
      (run testEnv (List.replicate n (idleInput 0)) s).player.shape = centreShape testEnv ∧
      (run testEnv (List.replicate n (idleInput 0)) s).player.safe_mode = true := by
  induction r with
  | zero =>
    intro k s hkr _ _ _ hsi hl1 _ h0 _ hphi
    exfalso
    have := hphi (by omega)
    omega
  | succ r ih =>
    intro k s hkr hc hd hg hsi hl1 hl3 h0 hc250 hphi
    obtain ⟨t1, t2, t3, t4, t5, t6⟩ := tick_calm_playing s k (by omega) hc hd hg
    have hul := Player.update_lives testEnv s.player
    have hus := Player.update_safe_mode testEnv s.player
    have huc := Player.update_safe_mode_count testEnv s.player
    have hsi1 : SafeInv (s.player.update testEnv) := SafeInv_update testEnv hsi
    -- the player after the pass
    rcases t3 with e | ⟨hns, e⟩
    · -- no collision in this pass
      have hl : (tick testEnv (idleInput 0) s).player.lives = s.player.lives := by
        rw [e, hul]
      have hgs : (tick testEnv (idleInput 0) s).game_state = 1 := by
        rw [t4, if_neg (by rw [hl]; omega)]
      have hcount : (tick testEnv (idleInput 0) s).player.safe_mode_count ≤
          s.player.safe_mode_count ∧
          0 ≤ (tick testEnv (idleInput 0) s).player.safe_mode_count ∧
          (38000 ≤ k + 1 → (tick testEnv (idleInput 0) s).player.safe_mode_count =
            s.player.safe_mode_count - 1) := by
        rw [e, huc]
        cases hs : s.player.safe_mode with
        | true =>
          rw [if_pos rfl]
          have hpos := hsi.mp hs
          exact ⟨by omega, by omega, fun _ => rfl⟩
        | false =>
          rw [if_neg (by simp)]
          refine ⟨le_refl _, h0, ?_⟩
          intro hw
          exfalso
          have hk := t6 hw (by omega) (by rw [hus, hs]; rfl)
          rw [e] at hk
          have := congrArg Player.lives hk
          simp only [Player.kill] at this
          omega
      obtain ⟨n, hn⟩ := ih (k + 1) (tick testEnv (idleInput 0) s) (by omega) t1 t2 hgs
        (by rw [e]; exact hsi1) (by rw [hl]; exact hl1) (by rw [hl]; exact hl3)
        hcount.2.1 (by have := hcount.1; omega)
        (by
          intro hw
          rw [hl]
          by_cases hin : 38000 ≤ k + 1
          · have := hphi hin
            have := hcount.2.2 hin
            push_cast at *
            omega
          · have := hcount.1
            omega)
      exact ⟨n + 1, by rw [run_replicate_succ]; exact hn⟩
    · -- a collision: one life is lost
      have hl : (tick testEnv (idleInput 0) s).player.lives = s.player.lives - 1 := by
        rw [e]
        simp only [Player.kill, hul]
      have hcnt : (tick testEnv (idleInput 0) s).player.safe_mode_count = 250 := by
        rw [e]; rfl
      have hsafe : (tick testEnv (idleInput 0) s).player.safe_mode = true := by
        rw [e]; rfl
      by_cases hlast : s.player.lives = 1
      · refine ⟨1, ?_⟩
        have hrun : run testEnv (List.replicate 1 (idleInput 0)) s =
            tick testEnv (idleInput 0) s := by
          rw [run_replicate_succ, List.replicate_zero, run_nil]
        rw [hrun]
        refine ⟨?_, t1, t5, hsafe⟩
        rw [t4, if_pos (by rw [hl]; omega)]
      · have hgs : (tick testEnv (idleInput 0) s).game_state = 1 := by
          rw [t4, if_neg (by rw [hl]; omega)]
        obtain ⟨n, hn⟩ := ih (k + 1) (tick testEnv (idleInput 0) s) (by omega) t1 t2 hgs
          (by rw [e]; exact SafeInv_kill _) (by rw [hl]; omega) (by rw [hl]; omega)
          (by rw [hcnt]; decide) (by rw [hcnt])
          (by
            intro hw
            rw [hl, hcnt]
            by_cases hin : 38000 ≤ k + 1
            · have := hphi hin
              push_cast at *
              omega
            · omega)
        exact ⟨n + 1, by rw [run_replicate_succ]; exact hn⟩

/-- On the title screen of a calm game, with the triangle of the last match
still cached, the player loses a life before the asteroid of slot 0 has
crossed the ship. -/
theorem title_to_kill (r : Nat) : ∀ (k : Nat) (s : Game), k + r + 1 = 38000 → Calm s →
    Drifting k s → s.game_state = 0 → s.player.lives = 3 → s.player.safe_mode = false →
    s.player.shape = centreShape testEnv →
    ∃ n, (run testEnv (List.replicate n (idleInput 0)) s).game_state = 0 ∧
      (run testEnv (List.replicate n (idleInput 0)) s).player.lives = 2 ∧
      (run testEnv (List.replicate n (idleInput 0)) s).player.safe_mode = true := by
  induction r with
  | zero =>
    intro k s hkr hc hd hg hl hsafe hshape
    obtain ⟨t1, t2, t3, t4, t5, t6⟩ := tick_calm_other s k (by omega) hc hd (by rw [hg]; decide)
    have hk := t6 (by omega) (by omega) hsafe hshape
    refine ⟨1, ?_⟩
    have hrun : run testEnv (List.replicate 1 (idleInput 0)) s =
        tick testEnv (idleInput 0) s := by
      rw [run_replicate_succ, List.replicate_zero, run_nil]
    rw [hrun]
    have hl2 : (tick testEnv (idleInput 0) s).player.lives = 2 := by
      rw [hk]
      simp only [Player.kill, hl]
      norm_num
    refine ⟨?_, hl2, by rw [hk]; rfl⟩
    rw [t4, if_neg (by rw [hl2]; decide), hg]
  | succ r ih =>
    intro k s hkr hc hd hg hl hsafe hshape
    obtain ⟨t1, t2, t3, t4, t5, t6⟩ := tick_calm_other s k (by omega) hc hd (by rw [hg]; decide)
    rcases t3 with e | ⟨_, e⟩
    · have hgs : (tick testEnv (idleInput 0) s).game_state = 0 := by
        rw [t4, if_neg (by rw [e, hl]; decide), hg]
      obtain ⟨n, hn⟩ := ih (k + 1) (tick testEnv (idleInput 0) s) (by omega) t1 t2 hgs
        (by rw [e]; exact hl) (by rw [e]; exact hsafe) (by rw [t5]; exact hshape)
      exact ⟨n + 1, by rw [run_replicate_succ]; exact hn⟩
    · refine ⟨1, ?_⟩
      have hrun : run testEnv (List.replicate 1 (idleInput 0)) s =
          tick testEnv (idleInput 0) s := by
        rw [run_replicate_succ, List.replicate_zero, run_nil]
      rw [hrun]
      have hl2 : (tick testEnv (idleInput 0) s).player.lives = 2 := by
        rw [e]
        simp only [Player.kill, hl]
        norm_num
      refine ⟨?_, hl2, by rw [e]; rfl⟩
      rw [t4, if_neg (by rw [hl2]; decide), hg]

/-! ## A run from the cold start into a match that starts with two lives -/

theorem initGame_asteroid_pool (env : Env) (t1 t2 : ℚ) (g : Rand) :
    (initGame env t1 t2 g).asteroid_pool =
      (AsteroidSpawnRandom env Pool.empty ASTEROID_START_NUMBER g).1 := by
  unfold initGame
  simp only

theorem initGame_rng (env : Env) (t1 t2 : ℚ) (g : Rand) :
    (initGame env t1 t2 g).rng =
      (AsteroidSpawnRandom env Pool.empty ASTEROID_START_NUMBER g).2 := by
  unfold initGame
  simp only

theorem initGame_frame (env : Env) (t1 t2 : ℚ) (g : Rand) :
    (initGame env t1 t2 g).asteroids_max = 8 ∧
    (initGame env t1 t2 g).time_asteroids_increment = t2 ∧
    (initGame env t1 t2 g).bullet_pool = Pool.empty := by
  unfold initGame
  exact ⟨rfl, rfl, rfl⟩

theorem initGame_calm : Calm (initGame testEnv 0 0 slowRand) := by
  have hcnt := AsteroidSpawnRandomLoop_count testEnv 7 (Pool.empty : Pool Asteroid) slowRand
    (Pool.countInv_empty rfl) (by show (0 : Int) + ((7 : Nat) : Int) < 50; decide)
  have hs := AsteroidSpawnRandomLoop_sameDraws testEnv 7 (Pool.empty : Pool Asteroid) slowRand
  obtain ⟨i3, i4, i5⟩ := initGame_frame testEnv 0 0 slowRand
  unfold Calm
  rw [initGame_asteroid_pool, initGame_rng, i3, i4, i5, initGame_player,
    AsteroidSpawnRandom_start]
  refine ⟨rfl, ?_, rfl, ?_, ?_, rfl, rfl, rfl, rfl, hcnt.1.1, hs⟩
  · rw [hcnt.2.1]
    rfl
  · intro b hb
    rw [List.eq_of_mem_replicate hb]
    rfl
  · simp only [WINDOW_WIDTH, WINDOW_HEIGHT]
    norm_num

/-- The pass with the space key pressed that ends a title screen on which the
player has lost a life. -/
theorem tick_fire_title (env : Env) (s : Game) (hg : s.game_state = 0)
    (hl : s.player.lives = 2) (hsafe : s.player.safe_mode = true) :
    (tick env (fireInput 0) s).game_state = 1 ∧ (tick env (fireInput 0) s).player.lives = 2 ∧
    (tick env (fireInput 0) s).player.safe_mode = true := by
  obtain ⟨hk, hgs, _, _⟩ := beforeDraw_spec env (fireInput 0) s
  obtain ⟨_, dgs, dpl, _⟩ := drawPhase_spec env (fireInput 0) (beforeDraw env (fireInput 0) s)
  have hp : playerAfterUpdate env (fireInput 0) s = s.player := by
    unfold playerAfterUpdate
    rw [if_neg (by rw [hg]; decide)]
  rw [hp] at hk
  have hpl := KillStep_of_safe hk hsafe
  rw [hpl, hl, if_neg (by decide), hg] at hgs
  rw [tick_eq, dgs, dpl, hgs, if_pos ⟨rfl, rfl⟩, if_neg (fun h => absurd h.1 (by decide)), hpl]
  exact ⟨rfl, hl, hsafe⟩

/-- There is a run from the cold start that ends on a title screen from which
the next press of the space key starts a match with 2 lives: the space key is
pressed once, no key is pressed until the game is over, the space key is
pressed again, and no key is pressed until an asteroid has reached the ship. -/
theorem run_to_short_match :
    ∃ n1 n2 : Nat,
      (run testEnv (shortMatchInputs n1 n2) (initGame testEnv 0 0 slowRand)).game_state = 0 ∧
      (run testEnv (shortMatchInputs n1 n2) (initGame testEnv 0 0 slowRand)).player.lives = 2 ∧
      (run testEnv (shortMatchInputs n1 n2) (initGame testEnv 0 0 slowRand)).player.safe_mode
        = true := by
  -- the first pass: the match starts
  have hc0 := initGame_calm
  have hg0 : (initGame testEnv 0 0 slowRand).game_state = 0 := initGame_game_state _ _ _ _
  have hp0 := initGame_player testEnv 0 0 slowRand
  obtain ⟨a1, a2, a3, _, _, _⟩ := Calm_asteroids _ hc0
  have hb0 := beforeDraw_other testEnv (fireInput 0) _ (by rw [hg0]; decide) hc0.2.2.2.1
  have hlives : (beforeDraw testEnv (fireInput 0) (initGame testEnv 0 0 slowRand)).player.lives
      = 3 ∨ (beforeDraw testEnv (fireInput 0) (initGame testEnv 0 0 slowRand)).player.lives
      = 2 := by
    rw [hb0]
    rcases a2 with e | ⟨_, e⟩
    · left; rw [e, hp0]
    · right; rw [e, hp0]; rfl
  have hsi : SafeInv (beforeDraw testEnv (fireInput 0) (initGame testEnv 0 0 slowRand)).player
      ∧ 0 ≤ (beforeDraw testEnv (fireInput 0)
          (initGame testEnv 0 0 slowRand)).player.safe_mode_count
      ∧ (beforeDraw testEnv (fireInput 0)
          (initGame testEnv 0 0 slowRand)).player.safe_mode_count ≤ 250 := by
    rw [hb0]
    rcases a2 with e | ⟨_, e⟩
    · rw [e, hp0]
      exact ⟨by simp [SafeInv], by decide, by decide⟩
    · rw [e]
      exact ⟨SafeInv_kill _, by decide, by decide⟩
  have hgb : (beforeDraw testEnv (fireInput 0) (initGame testEnv 0 0 slowRand)).game_state
      = 0 := by
    have h3 := a3
    rw [← hb0] at h3
    rw [h3, hg0, if_neg (by rcases hlives with h | h <;> rw [h] <;> decide)]
  have hcb : Calm (beforeDraw testEnv (fireInput 0) (initGame testEnv 0 0 slowRand)) := by
    rw [hb0]; exact a1
  obtain ⟨d1, d2, d3, d4⟩ := drawPhase_fire_title _ hcb hgb
  rw [← tick_eq] at d1 d2 d3 d4
  -- the match, up to the game over
  obtain ⟨n1, o1, o2, o3, o4⟩ := play_to_over 39000 0
    (tick testEnv (fireInput 0) (initGame testEnv 0 0 slowRand)) (by norm_num) d1 d2 d3
    (by rw [d4]; exact hsi.1) (by rw [d4]; rcases hlives with h | h <;> omega)
    (by rw [d4]; rcases hlives with h | h <;> omega)
    (by rw [d4]; exact hsi.2.1) (by rw [d4]; exact hsi.2.2) (by intro h; omega)
  generalize hs1 : run testEnv (List.replicate n1 (idleInput 0))
    (tick testEnv (fireInput 0) (initGame testEnv 0 0 slowRand)) = s1 at o1 o2 o3 o4
  -- the press of the space key on the game-over screen
  obtain ⟨b1, b2, b3, b4, _, _⟩ := Calm_asteroids s1 o2
  have hb1 := beforeDraw_other testEnv (fireInput 0) s1 (by rw [o1]; decide) o2.2.2.2.1
  have hpl1 : (beforeDraw testEnv (fireInput 0) s1).player = s1.player := by
    rw [hb1]
    exact KillStep_of_safe b2 o4
  have hgb1 : (beforeDraw testEnv (fireInput 0) s1).game_state = 2 := by
    have h3 := b3
    rw [← hb1] at h3
    rw [h3, o1]
    split <;> rfl
  have hcb1 : Calm (beforeDraw testEnv (fireInput 0) s1) := by
    rw [hb1]; exact b1
  obtain ⟨r1, r2, r3, r4⟩ := drawPhase_fire_over _ hcb1 hgb1
  rw [← tick_eq, hpl1] at r4
  rw [← tick_eq] at r1 r2 r3
  -- the title screen, up to the collision
  obtain ⟨n2, q1, q2, q3⟩ := title_to_kill 37999 0 (tick testEnv (fireInput 0) s1)
    (by norm_num) r1 r2 r3 (by rw [r4]; rfl) (by rw [r4]; rfl) (by rw [r4]; exact o3)
  refine ⟨n1, n2, ?_⟩
  unfold shortMatchInputs
  rw [run_cons, run_append, hs1, run_cons]
  exact ⟨q1, q2, q3⟩

/-! ## Collisions on the title screen (C19) -/

/-- C19 fails on the code. The asteroid loop tests the ship for collisions in
every mode. There is a run from the cold start (the space key is pressed, no
key is pressed for `n1` passes, in which the game ends, the space key is
pressed, no key is pressed for `n2` passes) that ends on the title screen, and
the match started by the next press of the space key begins with `lives = 2`
and `safe_mode = true`. Also, on a title screen with 3 lives and safe mode off
(`titleGame`), one pass in which an asteroid vertex enters the cached triangle
of the ship calls `Player::kill`, and the match started in the next pass, or
in the same pass, begins with `lives = 2` and `safe_mode = true`. -/
theorem C19_title_collision_costs_life :
    (∃ n1 n2 : Nat,
      Reachable testEnv
        (run testEnv (shortMatchInputs n1 n2) (initGame testEnv 0 0 slowRand)) ∧
      (run testEnv (shortMatchInputs n1 n2) (initGame testEnv 0 0 slowRand)).game_state = 0 ∧
      (tick testEnv (fireInput 0)
        (run testEnv (shortMatchInputs n1 n2) (initGame testEnv 0 0 slowRand))).game_state
        = 1 ∧
      (tick testEnv (fireInput 0)
        (run testEnv (shortMatchInputs n1 n2) (initGame testEnv 0 0 slowRand))).player.lives
        = 2 ∧
      (tick testEnv (fireInput 0)
        (run testEnv (shortMatchInputs n1 n2)
          (initGame testEnv 0 0 slowRand))).player.safe_mode = true) ∧
    ((titleGame.game_state = 0 ∧ titleGame.player.lives = 3 ∧
        titleGame.player.safe_mode = false) ∧
      ((tick testEnv (idleInput 0) titleGame).game_state = 0 ∧
        (tick testEnv (idleInput 0) titleGame).player.lives = 2 ∧
        (tick testEnv (idleInput 0) titleGame).player.safe_mode = true) ∧
      ((tick testEnv (fireInput 0) (tick testEnv (idleInput 0) titleGame)).game_state = 1 ∧
        (tick testEnv (fireInput 0) (tick testEnv (idleInput 0) titleGame)).player.lives = 2 ∧
        (tick testEnv (fireInput 0) (tick testEnv (idleInput 0) titleGame)).player.safe_mode
          = true) ∧
      ((tick testEnv (fireInput 0) titleGame).game_state = 1 ∧
        (tick testEnv (fireInput 0) titleGame).player.lives = 2 ∧
        (tick testEnv (fireInput 0) titleGame).player.safe_mode = true)) := by
  refine ⟨?_, by decide!⟩
  obtain ⟨n1, n2, h1, h2, h3⟩ := run_to_short_match
  exact ⟨n1, n2, Reachable_run (Reachable.init 0 0 slowRand) _, h1,
    tick_fire_title testEnv _ h1 h2 h3⟩

/-! ## The claims at concrete inputs -/

/-- C9 on a concrete run: a match is started, a shot is admitted at clock
reading 1, an idle pass follows at 3/2, and a second shot is admitted at 2. -/
theorem C9_shot_cadence_witness :
    (1 = (run testEnv [] matchStart).game_state ∧
      shotAdmitted (fireInput 1) (run testEnv [] matchStart) = true) ∧
    (1 = (run testEnv ([] ++ fireInput 1 :: [idleInput (3 / 2)]) matchStart).game_state ∧
      shotAdmitted (fireInput 2)
        (run testEnv ([] ++ fireInput 1 :: [idleInput (3 / 2)]) matchStart) = true) ∧
    ((fireInput 2).time_shoot_test - (fireInput 1).time_shoot_set > 1 / 10 ∧
      (fireInput 2).time_shoot_test - (fireInput 1).time_shoot_test > 1 / 10 ∧
      (fireInput 2).time_shoot_set - (fireInput 1).time_shoot_set > 1 / 10) :=
  ⟨by decide!, by decide!,
   C9_shot_cadence testEnv matchStart [] [idleInput (3 / 2)] [] (fireInput 1) (fireInput 2)
     (by decide!) (by decide!) (by decide!)⟩

/-- C7 in the concrete environment, for a player flying at full speed and the
asteroids of the cold start. -/
theorem C7_wrap_closed_arena_witness :
    (initGame testEnv 0 0 testRand).asteroid_pool.objects.length = POOL_SIZE ∧
    ((0 ≤ (Player.update testEnv { pos := ⟨1023, 5⟩, vel := ⟨3, 0⟩ }).pos.x ∧
      (Player.update testEnv { pos := ⟨1023, 5⟩, vel := ⟨3, 0⟩ }).pos.x ≤ 1024) ∧
     (0 ≤ (Player.update testEnv { pos := ⟨1023, 5⟩, vel := ⟨3, 0⟩ }).pos.y ∧
      (Player.update testEnv { pos := ⟨1023, 5⟩, vel := ⟨3, 0⟩ }).pos.y ≤ 768)) :=
  ⟨by decide!,
   (C7_wrap_closed_arena testEnv { pos := ⟨1023, 5⟩, vel := ⟨3, 0⟩ }
     (initGame testEnv 0 0 testRand) (by decide!)).1⟩

/-- C7 as stated fails. A player at the left edge, `(0, 384)`, moving left with
velocity `(-1, 0)` is put at `x = 1024` by `Player::update`, and an asteroid at
`(1/2, 100)` with velocity `(-1, 0)` is put at `x = 1024` by the asteroid loop:
neither position satisfies `x < 1024`. -/
theorem C7_wrap_half_open_counterexample :
    (Player.update testEnv { pos := ⟨0, 384⟩, vel := ⟨-1, 0⟩ }).pos = ⟨1024, 384⟩ ∧
    ¬ ((Player.update testEnv { pos := ⟨0, 384⟩, vel := ⟨-1, 0⟩ }).pos.x < 1024) ∧
    (asteroidMove { active := true, pos := ⟨1 / 2, 100⟩, vel := ⟨-1, 0⟩ }).pos = ⟨1024, 100⟩ ∧
    ¬ ((asteroidMove { active := true, pos := ⟨1 / 2, 100⟩, vel := ⟨-1, 0⟩ }).pos.x < 1024) := by
  decide!

end AsteroidGame
